import Mathlib

/-!
BOLT V1 frame decoder.

A shallow embedding of `pkg/protocol/xprotocol/bolt/decoder.go`
(`decodeRequest`, `decodeResponse`) and of the constants and basic commands
of `pkg/protocol/sofarpc/types.go`, together with the properties of the
wire-format specification that concern them.

Modelling conventions.

* A byte is a `Fin 256`; the unread part of an `api.IoBuffer` is a `List Byte`.
* Go's `int` is the 64-bit two's-complement integer: every `int` addition is
  wrapped by `wrapInt`.
* A slice expression or an index expression that Go would reject at run time
  (a panic) makes the embedding return `none`.
* The pooled per-context objects (`buf.request`, `buf.response`) and the
  context variables written through `variable.Set` are carried explicitly in
  `Ctx`: a decode call receives the context and returns the updated one.
* The external header codec `header.DecodeHeader` is a parameter.
* The frame encoder is not among the sources; `encodeRequest` and
  `encodeResponse` follow the byte layouts of the specification.
* Each decoder is written in the three stages its own comments number:
  `decodeRequest` (steps 1 and 2, the two length tests), `requestFrame`
  (steps 3 and 4, fixed fields and copy) and `requestWrappers` (step 5).
-/

namespace Bolt

/-- One octet. -/
abbrev Byte := Fin 256

/-- Go `error` values, represented by their message. -/
abbrev Error := String

/-- The external `header.BytesHeader`: the key/value pairs of a header section. -/
abbrev BytesHeader := List (String × String)

/-- The external header codec `header.DecodeHeader(bytes, &h)`: it receives the
header bytes and the current value of `h`, and yields the new value of `h`
together with the returned error (`none` is Go's `nil`). -/
abbrev HeaderCodec := List Byte → BytesHeader → BytesHeader × Option Error

/-! ## Constants of the `bolt` package -/

/-- Modelled from the spec: the constant `RequestHeaderLen` of the bolt package is
declared outside the available sources; the decoder's own comment
(`RequestHeaderLen(22)`) and the request layout give 22. -/
def RequestHeaderLen : Int := 22

/-- Modelled from the spec: the constant `ResponseHeaderLen` of the bolt package is
declared outside the available sources; the decoder's own comment
(`ResponseHeaderLen(20)`) and the response layout give 20. -/
def ResponseHeaderLen : Int := 20

/-- Modelled from the spec: the constant `ProtocolCode` of the bolt package is
declared outside the available sources; the data model gives 1 for BOLT V1
(as does `PROTOCOL_CODE_V1` in `sofarpc/types.go`). -/
def ProtocolCode : Byte := 1

/-- Modelled from the spec: the constant `CmdTypeResponse` is declared outside the
available sources; the data model gives Response = 0 (`RESPONSE` in
`sofarpc/types.go`). -/
def CmdTypeResponse : Byte := 0

/-- Modelled from the spec: the constant `CmdTypeRequest` is declared outside the
available sources; the data model gives Request = 1 (`REQUEST` in
`sofarpc/types.go`). -/
def CmdTypeRequest : Byte := 1

/-- Modelled from the spec: the constant `CmdTypeRequestOneway` is declared outside
the available sources; the data model gives RequestOneway = 2
(`REQUEST_ONEWAY` in `sofarpc/types.go`). -/
def CmdTypeRequestOneway : Byte := 2

/-! ## Machine integers -/

/-- Two's-complement wrap-around of a 64-bit Go `int`. -/
@[irreducible] def wrapInt (x : Int) : Int :=
  (x + 9223372036854775808) % 18446744073709551616 - 9223372036854775808

/-- Addition of two Go `int` values. -/
def intAdd (x y : Int) : Int := wrapInt (x + y)

/-- The conversion `int(x)` of an unsigned 16- or 32-bit value. -/
def int (x : Nat) : Int := wrapInt (x : Int)

/-- The conversion `int32(x)` of a `uint32`. -/
def int32 (x : Nat) : Int :=
  if x % 4294967296 < 2147483648 then ((x % 4294967296 : Nat) : Int)
  else ((x % 4294967296 : Nat) : Int) - 4294967296

/-! ## Byte slices -/

/-- The value of the byte at position `i` (0 beyond the end). -/
def byteAt (b : List Byte) (i : Nat) : Nat := (b.getD i 0).val

/-- The big-endian 16-bit word stored at `b[i], b[i+1]`. -/
def be16 (b : List Byte) (i : Nat) : Nat :=
  byteAt b i * 256 + byteAt b (i + 1)

/-- The big-endian 32-bit word stored at `b[i] .. b[i+3]`. -/
def be32 (b : List Byte) (i : Nat) : Nat :=
  ((byteAt b i * 256 + byteAt b (i + 1)) * 256 + byteAt b (i + 2)) * 256 + byteAt b (i + 3)

/-- The slice expression `b[lo:hi]`; `none` when Go panics on the bounds. The
upper bound is checked against the length of `b`, which never exceeds the
capacity Go checks against: a slice in bounds here is in bounds in Go. -/
def slice (b : List Byte) (lo hi : Int) : Option (List Byte) :=
  if 0 ≤ lo ∧ lo ≤ hi ∧ hi ≤ (b.length : Int) then
    some ((b.take hi.toNat).drop lo.toNat)
  else none

/-- The function `binary.BigEndian.Uint16`: it reads `b[0]` and `b[1]`. -/
def Uint16 (b : List Byte) : Option Nat :=
  if 2 ≤ b.length then some (be16 b 0) else none

/-- The function `binary.BigEndian.Uint32`: it reads `b[0] .. b[3]`. -/
def Uint32 (b : List Byte) : Option Nat :=
  if 4 ≤ b.length then some (be32 b 0) else none

/-- The call `data.Drain(n)` of the external IoBuffer: the first `n` unread
bytes are discarded. The slice `bytes` taken before the call still shows the
bytes it showed. -/
def Drain (data : List Byte) (n : Int) : List Byte := data.drop n.toNat

/-! ## Commands -/

/-- Modelled from the spec: the struct `RequestHeader` is declared outside the
available sources. It holds the ten fields named by the `RequestHeader`
literal of `decodeRequest`, with the widths of the data model (bytes,
unsigned 16- and 32-bit values as naturals, the signed 32-bit timeout as an
integer), followed by the payload part of the header: the class name `Class`
(a Go string, i.e. a byte string) and the embedded header map `BytesHeader`.
The command reaches both through the embedded header (`request.Class`,
`request.BytesHeader`), so the assignment of a `RequestHeader` literal that
names only the ten fixed fields sets both to their zero value. -/
structure RequestHeader where
  Protocol : Byte
  CmdType : Byte
  CmdCode : Nat
  Version : Byte
  RequestId : Nat
  Codec : Byte
  Timeout : Int
  ClassLen : Nat
  HeaderLen : Nat
  ContentLen : Nat
  Class : List Byte
  BytesHeader : BytesHeader
deriving DecidableEq, Repr

/-- Modelled from the spec: the struct `Request` is declared outside the
available sources; it embeds `RequestHeader` and has the fields
`decodeRequest` assigns directly. A field a call does not assign keeps the
value the pooled command had before. `Data` and `Content` are IoBuffers,
given by their bytes (`none` is `nil`). -/
structure Request where
  RequestHeader : RequestHeader
  rawData : List Byte
  rawMeta : List Byte
  rawClass : List Byte
  rawHeader : List Byte
  rawContent : List Byte
  Data : Option (List Byte)
  Content : Option (List Byte)
deriving DecidableEq, Repr

/-- Modelled from the spec: the struct `ResponseHeader` is declared outside the
available sources. It holds the ten fields named by the `ResponseHeader`
literal of `decodeResponse`, followed by the payload part of the header: the
class name `Class` and the embedded header map `BytesHeader`. The command
reaches both through the embedded header, so the assignment of a
`ResponseHeader` literal that names only the ten fixed fields sets both to
their zero value. -/
structure ResponseHeader where
  Protocol : Byte
  CmdType : Byte
  CmdCode : Nat
  Version : Byte
  RequestId : Nat
  Codec : Byte
  ResponseStatus : Nat
  ClassLen : Nat
  HeaderLen : Nat
  ContentLen : Nat
  Class : List Byte
  BytesHeader : BytesHeader
deriving DecidableEq, Repr

/-- Modelled from the spec: the struct `Response` is declared outside the
available sources; it embeds `ResponseHeader` and has the fields
`decodeResponse` assigns directly. A field a call does not assign keeps the
value the pooled command had before. -/
structure Response where
  ResponseHeader : ResponseHeader
  rawData : List Byte
  rawMeta : List Byte
  rawClass : List Byte
  rawHeader : List Byte
  rawContent : List Byte
  Data : Option (List Byte)
  Content : Option (List Byte)
deriving DecidableEq, Repr

/-- What a decode call can read and write besides the IoBuffer: the pooled
commands returned by `bufferByContext(ctx)` and the two context variables. -/
structure Ctx where
  request : Request
  response : Response
  VarRequestRawData : Option (List Byte)
  VarResponseRawData : Option (List Byte)
deriving DecidableEq, Repr

/-- The outcome of a decode call: the two results `(cmd, err)`, the unread
bytes left in the IoBuffer, and the context afterwards. -/
structure Result (α : Type) where
  cmd : Option α
  err : Option Error
  data : List Byte
  ctx : Ctx
deriving DecidableEq, Repr

/-- Step 5 of `decodeRequest` (process wrappers: Class, Header, Content): the
section slices of `request.rawData` are stored in the command, the header
section goes through the codec; the result is the command and `err`. -/
def requestWrappers (DecodeHeader : HeaderCodec) (request : Request)
    (classLen headerLen contentLen : Nat) : Option (Request × Option Error) := do
  let headerIndex := intAdd RequestHeaderLen (int classLen)
  let contentIndex := intAdd headerIndex (int headerLen)
  let rawMeta ← slice request.rawData 0 RequestHeaderLen
  let request := { request with rawMeta := rawMeta }
  let request ←
    (if classLen > 0 then
      (slice request.rawData RequestHeaderLen headerIndex).map fun rawClass =>
        { request with
          rawClass := rawClass
          RequestHeader := { request.RequestHeader with Class := rawClass } }
    else some request)
  let decoded ←
    (if headerLen > 0 then
      (slice request.rawData headerIndex contentIndex).map fun rawHeader =>
        let r := DecodeHeader rawHeader request.RequestHeader.BytesHeader
        ({ request with
            rawHeader := rawHeader
            RequestHeader := { request.RequestHeader with BytesHeader := r.1 } }, r.2)
    else some (request, none))
  let request := decoded.1
  let err := decoded.2
  let request ←
    (if contentLen > 0 then
      (slice request.rawData contentIndex request.rawData.length).map fun rawContent =>
        { request with rawContent := rawContent, Content := some rawContent }
    else some request)
  pure (request, err)

/-- Steps 3 to 5 of `decodeRequest`, run once the whole frame is known to be
in the buffer: drain the frame, fill the fixed fields of the pooled command
`buf.request`, copy the frame bytes, publish them in the context variable, and
process the wrappers. -/
def requestFrame (DecodeHeader : HeaderCodec) (ctx : Ctx) (data : List Byte) (oneway : Bool)
    (classLen headerLen contentLen : Nat) (frameLen : Int) : Option (Result Request) := do
  let bytes := data
  let data1 := Drain data frameLen
  -- 3. decode header
  let request := ctx.request
  let cmdType := if oneway then CmdTypeRequestOneway else CmdTypeRequest
  let cmdCode ← (slice bytes 2 4).bind Uint16
  let version ← bytes[4]?
  let requestId ← (slice bytes 5 9).bind Uint32
  let codec ← bytes[9]?
  let timeout ← (slice bytes 10 14).bind Uint32
  let request := { request with
    RequestHeader := {
      Protocol := ProtocolCode
      CmdType := cmdType
      CmdCode := cmdCode
      Version := version
      RequestId := requestId
      Codec := codec
      Timeout := int32 timeout
      ClassLen := classLen
      HeaderLen := headerLen
      ContentLen := contentLen
      -- not named by the literal: zero values
      Class := []
      BytesHeader := [] } }
  -- 4. copy data for io multiplexing
  let frame ← slice bytes 0 frameLen
  let request := { request with Data := some frame, rawData := frame }
  let ctx1 := { ctx with VarRequestRawData := some request.rawData }
  -- 5. process wrappers: Class, Header, Content, Data
  let wrapped ← requestWrappers DecodeHeader request classLen headerLen contentLen
  pure { cmd := some wrapped.1, err := wrapped.2, data := data1,
         ctx := { ctx1 with request := wrapped.1 } }

/-- The function `decodeRequest(ctx, data, oneway)`. -/
def decodeRequest (DecodeHeader : HeaderCodec) (ctx : Ctx) (data : List Byte) (oneway : Bool) :
    Option (Result Request) := do
  let bytesLen : Int := (data.length : Int)
  let bytes := data
  -- 1. least bytes to decode header
  if bytesLen < RequestHeaderLen then
    pure { cmd := none, err := none, data := data, ctx := ctx }
  else do
    -- 2. least bytes to decode whole frame
    let classLen ← (slice bytes 14 16).bind Uint16
    let headerLen ← (slice bytes 16 18).bind Uint16
    let contentLen ← (slice bytes 18 22).bind Uint32
    let frameLen :=
      intAdd (intAdd (intAdd RequestHeaderLen (int classLen)) (int headerLen)) (int contentLen)
    if bytesLen < frameLen then
      pure { cmd := none, err := none, data := data, ctx := ctx }
    else
      requestFrame DecodeHeader ctx data oneway classLen headerLen contentLen frameLen

/-- Step 5 of `decodeResponse` (process wrappers: Class, Header, Content): the
section slices of `response.rawData` are stored in the command, the header
section goes through the codec; the result is the command and `err`. -/
def responseWrappers (DecodeHeader : HeaderCodec) (response : Response)
    (classLen headerLen contentLen : Nat) : Option (Response × Option Error) := do
  let headerIndex := intAdd ResponseHeaderLen (int classLen)
  let contentIndex := intAdd headerIndex (int headerLen)
  let rawMeta ← slice response.rawData 0 ResponseHeaderLen
  let response := { response with rawMeta := rawMeta }
  let response ←
    (if classLen > 0 then
      (slice response.rawData ResponseHeaderLen headerIndex).map fun rawClass =>
        { response with
          rawClass := rawClass
          ResponseHeader := { response.ResponseHeader with Class := rawClass } }
    else some response)
  let decoded ←
    (if headerLen > 0 then
      (slice response.rawData headerIndex contentIndex).map fun rawHeader =>
        let r := DecodeHeader rawHeader response.ResponseHeader.BytesHeader
        ({ response with
            rawHeader := rawHeader
            ResponseHeader := { response.ResponseHeader with BytesHeader := r.1 } }, r.2)
    else some (response, none))
  let response := decoded.1
  let err := decoded.2
  let response ←
    (if contentLen > 0 then
      (slice response.rawData contentIndex response.rawData.length).map fun rawContent =>
        { response with rawContent := rawContent, Content := some rawContent }
    else some response)
  pure (response, err)

/-- Steps 3 to 5 of `decodeResponse`, run once the whole frame is known to be
in the buffer: drain the frame, fill the fixed fields of the pooled command
`buf.response`, copy the frame bytes, publish them in the context variable, and
process the wrappers. -/
def responseFrame (DecodeHeader : HeaderCodec) (ctx : Ctx) (data : List Byte)
    (classLen headerLen contentLen : Nat) (frameLen : Int) : Option (Result Response) := do
  let bytes := data
  let data1 := Drain data frameLen
  -- 3. decode header
  let response := ctx.response
  let cmdCode ← (slice bytes 2 4).bind Uint16
  let version ← bytes[4]?
  let requestId ← (slice bytes 5 9).bind Uint32
  let codec ← bytes[9]?
  let responseStatus ← (slice bytes 10 12).bind Uint16
  let response := { response with
    ResponseHeader := {
      Protocol := ProtocolCode
      CmdType := CmdTypeResponse
      CmdCode := cmdCode
      Version := version
      RequestId := requestId
      Codec := codec
      ResponseStatus := responseStatus
      ClassLen := classLen
      HeaderLen := headerLen
      ContentLen := contentLen
      -- not named by the literal: zero values
      Class := []
      BytesHeader := [] } }
  -- 4. copy data for io multiplexing
  let frame ← slice bytes 0 frameLen
  let response := { response with Data := some frame, rawData := frame }
  let ctx1 := { ctx with VarResponseRawData := some response.rawData }
  -- 5. process wrappers: Class, Header, Content, Data
  let wrapped ← responseWrappers DecodeHeader response classLen headerLen contentLen
  pure { cmd := some wrapped.1, err := wrapped.2, data := data1,
         ctx := { ctx1 with response := wrapped.1 } }

/-- The function `decodeResponse(ctx, data)`. -/
def decodeResponse (DecodeHeader : HeaderCodec) (ctx : Ctx) (data : List Byte) :
    Option (Result Response) := do
  let bytesLen : Int := (data.length : Int)
  let bytes := data
  -- 1. least bytes to decode header
  if bytesLen < ResponseHeaderLen then
    pure { cmd := none, err := none, data := data, ctx := ctx }
  else do
    -- 2. least bytes to decode whole frame
    let classLen ← (slice bytes 12 14).bind Uint16
    let headerLen ← (slice bytes 14 16).bind Uint16
    let contentLen ← (slice bytes 16 20).bind Uint32
    let frameLen :=
      intAdd (intAdd (intAdd ResponseHeaderLen (int classLen)) (int headerLen)) (int contentLen)
    if bytesLen < frameLen then
      pure { cmd := none, err := none, data := data, ctx := ctx }
    else
      responseFrame DecodeHeader ctx data classLen headerLen contentLen frameLen

/-! ## Quantities named by the specification -/

/-- The declared length of the request frame that starts `b`:
`22 + classLen + headerLen + contentLen`. -/
def requestFrameLen (b : List Byte) : Nat :=
  22 + be16 b 14 + be16 b 16 + be32 b 18

/-- The declared length of the response frame that starts `b`:
`20 + classLen + headerLen + contentLen`. -/
def responseFrameLen (b : List Byte) : Nat :=
  20 + be16 b 12 + be16 b 14 + be32 b 16

/-- The `Incomplete` outcome: `(nil, nil)`, buffer and context untouched. -/
def incomplete {α : Type} (ctx : Ctx) (data : List Byte) : Result α :=
  { cmd := none, err := none, data := data, ctx := ctx }

/-- The zero value of a request command. -/
def Request.zero : Request :=
  { RequestHeader := ⟨0, 0, 0, 0, 0, 0, 0, 0, 0, 0, [], []⟩,
    rawData := [], rawMeta := [], rawClass := [], rawHeader := [], rawContent := [],
    Data := none, Content := none }

/-- The zero value of a response command. -/
def Response.zero : Response :=
  { ResponseHeader := ⟨0, 0, 0, 0, 0, 0, 0, 0, 0, 0, [], []⟩,
    rawData := [], rawMeta := [], rawClass := [], rawHeader := [], rawContent := [],
    Data := none, Content := none }

/-- A context whose pooled commands are zero and whose variables are unset. -/
def Ctx.fresh : Ctx :=
  { request := Request.zero, response := Response.zero,
    VarRequestRawData := none, VarResponseRawData := none }

/-- A header codec that always succeeds with no pairs. -/
def okCodec : HeaderCodec := fun _ _ => ([], none)

/-- A header codec that always fails, leaving the header untouched. -/
def failCodec : HeaderCodec := fun _ h => (h, some "decode header error")



/-- The command `decodeRequest` builds from a complete frame at the head of
`b`, written with total list operations; `prev` is the previous value of
the pooled command `buf.request`, from which the raw sections and the content
of a section declared empty are kept. -/
def requestValue (DecodeHeader : HeaderCodec) (prev : Request) (b : List Byte)
    (oneway : Bool) : Request :=
  let frame := b.take (requestFrameLen b)
  let headerIndex := 22 + be16 b 14
  let contentIndex := 22 + be16 b 14 + be16 b 16
  { RequestHeader := {
      Protocol := ProtocolCode
      CmdType := if oneway then CmdTypeRequestOneway else CmdTypeRequest
      CmdCode := be16 b 2
      Version := b.getD 4 0
      RequestId := be32 b 5
      Codec := b.getD 9 0
      Timeout := int32 (be32 b 10)
      ClassLen := be16 b 14
      HeaderLen := be16 b 16
      ContentLen := be32 b 18
      Class := if 0 < be16 b 14 then (frame.take headerIndex).drop 22 else []
      BytesHeader :=
        if 0 < be16 b 16 then
          (DecodeHeader ((frame.take contentIndex).drop headerIndex) []).1
        else [] }
    rawData := frame
    rawMeta := frame.take 22
    rawClass := if 0 < be16 b 14 then (frame.take headerIndex).drop 22 else prev.rawClass
    rawHeader :=
      if 0 < be16 b 16 then (frame.take contentIndex).drop headerIndex else prev.rawHeader
    rawContent := if 0 < be32 b 18 then frame.drop contentIndex else prev.rawContent
    Data := some frame
    Content := if 0 < be32 b 18 then some (frame.drop contentIndex) else prev.Content }

/-- The error `decodeRequest` returns on a complete frame at the head of `b`. -/
def requestErr (DecodeHeader : HeaderCodec) (b : List Byte) : Option Error :=
  let frame := b.take (requestFrameLen b)
  if 0 < be16 b 16 then
    (DecodeHeader ((frame.take (22 + be16 b 14 + be16 b 16)).drop (22 + be16 b 14)) []).2
  else none

/-- The command `decodeResponse` builds from a complete frame at the head of
`b`, written with total list operations; `prev` is the previous value of
the pooled command `buf.response`, from which the raw sections and the content
of a section declared empty are kept. -/
def responseValue (DecodeHeader : HeaderCodec) (prev : Response) (b : List Byte) : Response :=
  let frame := b.take (responseFrameLen b)
  let headerIndex := 20 + be16 b 12
  let contentIndex := 20 + be16 b 12 + be16 b 14
  { ResponseHeader := {
      Protocol := ProtocolCode
      CmdType := CmdTypeResponse
      CmdCode := be16 b 2
      Version := b.getD 4 0
      RequestId := be32 b 5
      Codec := b.getD 9 0
      ResponseStatus := be16 b 10
      ClassLen := be16 b 12
      HeaderLen := be16 b 14
      ContentLen := be32 b 16
      Class := if 0 < be16 b 12 then (frame.take headerIndex).drop 20 else []
      BytesHeader :=
        if 0 < be16 b 14 then
          (DecodeHeader ((frame.take contentIndex).drop headerIndex) []).1
        else [] }
    rawData := frame
    rawMeta := frame.take 20
    rawClass := if 0 < be16 b 12 then (frame.take headerIndex).drop 20 else prev.rawClass
    rawHeader :=
      if 0 < be16 b 14 then (frame.take contentIndex).drop headerIndex else prev.rawHeader
    rawContent := if 0 < be32 b 16 then frame.drop contentIndex else prev.rawContent
    Data := some frame
    Content := if 0 < be32 b 16 then some (frame.drop contentIndex) else prev.Content }

/-- The error `decodeResponse` returns on a complete frame at the head of `b`. -/
def responseErr (DecodeHeader : HeaderCodec) (b : List Byte) : Option Error :=
  let frame := b.take (responseFrameLen b)
  if 0 < be16 b 14 then
    (DecodeHeader ((frame.take (20 + be16 b 12 + be16 b 14)).drop (20 + be16 b 12)) []).2
  else none


/-! ## Example buffers -/

/-- A complete request frame (class `A`, two header bytes, three content
bytes, request id 7, timeout 100) followed by two bytes of the next frame. -/
def sampleRequest : List Byte :=
  [1, 1, 0, 1, 1, 0, 0, 0, 7, 1, 0, 0, 0, 100, 0, 1, 0, 2, 0, 0, 0, 3,
   65, 7, 8, 9, 9, 9, 42, 43]

/-- A complete response frame (status 5, class `A`, two header bytes, three
content bytes, request id 7) followed by two bytes of the next frame. -/
def sampleResponse : List Byte :=
  [1, 0, 0, 2, 1, 0, 0, 0, 7, 1, 0, 5, 0, 1, 0, 2, 0, 0, 0, 3,
   65, 7, 8, 9, 9, 9, 42, 43]

/-- The 22-byte header of `sampleRequest`, its sections still missing. -/
def sampleRequestHeaderOnly : List Byte :=
  [1, 1, 0, 1, 1, 0, 0, 0, 7, 1, 0, 0, 0, 100, 0, 1, 0, 2, 0, 0, 0, 3]

/-- The frame of `sampleResponse` without its first three bytes. -/
def sampleResponseRest : List Byte :=
  [2, 1, 0, 0, 0, 7, 1, 0, 5, 0, 1, 0, 2, 0, 0, 0, 3, 65, 7, 8, 9, 9, 9]

/-- The 20-byte header of `sampleResponse`, its sections still missing. -/
def sampleResponseHeaderOnly : List Byte :=
  [1, 0, 0, 2, 1, 0, 0, 0, 7, 1, 0, 5, 0, 1, 0, 2, 0, 0, 0, 3]

/-- A complete 22-byte request frame whose first byte is 2 and which has
no sections. -/
def foreignRequest : List Byte :=
  [2, 1, 0, 1, 1, 0, 0, 0, 7, 1, 0, 0, 0, 100, 0, 0, 0, 0, 0, 0, 0, 0]

/-- A complete 20-byte response frame whose first byte is 13 and which
has no sections. -/
def foreignResponse : List Byte :=
  [13, 0, 0, 2, 1, 0, 0, 0, 7, 1, 0, 5, 0, 0, 0, 0, 0, 0, 0, 0]

/-- A complete 22-byte request frame whose command-type byte `b[1]` is 2
(oneway) and which has no sections. -/
def onewayRequest : List Byte :=
  [1, 2, 0, 1, 1, 0, 0, 0, 7, 1, 0, 0, 0, 100, 0, 0, 0, 0, 0, 0, 0, 0]

/-- A complete 20-byte response frame whose command-type byte `b[1]` is 1
and which has no sections. -/
def mistypedResponse : List Byte :=
  [1, 1, 0, 2, 1, 0, 0, 0, 7, 1, 0, 5, 0, 0, 0, 0, 0, 0, 0, 0]

/-- A 22-byte request header whose content length bytes are `FF FF FF FF`. -/
def oversizedRequestHeader : List Byte :=
  [1, 1, 0, 1, 1, 0, 0, 0, 7, 1, 0, 0, 0, 100, 0, 0, 0, 0, 255, 255, 255, 255]

/-- A 20-byte response header whose content length bytes are `FF FF FF FF`. -/
def oversizedResponseHeader : List Byte :=
  [1, 0, 0, 2, 1, 0, 0, 0, 7, 1, 0, 5, 0, 0, 0, 0, 255, 255, 255, 255]

/-- The 22-byte request of scenario A: protocol 1, command type 1, command
code 1, version 1, request id 1, codec 1, timeout 0 and three zero lengths. -/
def scenarioA : List Byte :=
  [1, 1, 0, 1, 1, 0, 0, 0, 1, 1, 0, 0, 0, 0, 0, 0, 0, 0, 0, 0, 0, 0]

/-- The command scenario A decodes to when the pooled command starts from
its zero value: the fixed fields of the frame, the 22 frame bytes as raw
data and meta, and no class, header or content. -/
def scenarioACommand : Request :=
  { RequestHeader :=
      { Protocol := 1, CmdType := 1, CmdCode := 1, Version := 1, RequestId := 1, Codec := 1,
        Timeout := 0, ClassLen := 0, HeaderLen := 0, ContentLen := 0,
        Class := [], BytesHeader := [] }
    rawData := scenarioA, rawMeta := scenarioA,
    rawClass := [], rawHeader := [], rawContent := [], Data := some scenarioA,
    Content := none }

/-- The frame of `sampleRequest`, without the two bytes that follow it. -/
def sampleRequestFrame : List Byte :=
  [1, 1, 0, 1, 1, 0, 0, 0, 7, 1, 0, 0, 0, 100, 0, 1, 0, 2, 0, 0, 0, 3,
   65, 7, 8, 9, 9, 9]

/-- The frame of `sampleResponse`, without the two bytes that follow it. -/
def sampleResponseFrame : List Byte :=
  [1, 0, 0, 2, 1, 0, 0, 0, 7, 1, 0, 5, 0, 1, 0, 2, 0, 0, 0, 3,
   65, 7, 8, 9, 9, 9]

/-! ## Encoder -/

/-- The low eight bits of a number, as a byte. -/
def toByte (n : Nat) : Byte := ⟨n % 256, Nat.mod_lt n (by decide)⟩

/-- Modelled from the spec: the encoder is not among the available sources.
The input of the request encoder: the fields of a BOLT V1 request command
that go on the wire; the three lengths are not part of it, they are
recomputed from the sections. -/
structure RequestFields where
  protocol : Byte
  cmdType : Byte
  cmdCode : Nat
  version : Byte
  requestId : Nat
  codec : Byte
  timeout : Int
  className : List Byte
  header : List Byte
  content : List Byte
deriving DecidableEq, Repr

/-- Modelled from the spec: the encoder is not among the available sources.
The BOLT V1 request layout of the external-interfaces section, all
integers big-endian: `[0]` protocol code, `[1]` command type, `[2:4]` command
code, `[4]` version, `[5:9]` request id, `[9]` codec, `[10:14]` timeout,
`[14:16]` class length, `[16:18]` header length, `[18:22]` content length,
the lengths being those of the sections. -/
def requestFixedHeader (c : RequestFields) : List Byte :=
  let t := (c.timeout % 4294967296).toNat
  [c.protocol, c.cmdType,
   toByte (c.cmdCode / 256), toByte c.cmdCode,
   c.version,
   toByte (c.requestId / 16777216), toByte (c.requestId / 65536),
   toByte (c.requestId / 256), toByte c.requestId,
   c.codec,
   toByte (t / 16777216), toByte (t / 65536), toByte (t / 256), toByte t,
   toByte (c.className.length / 256), toByte c.className.length,
   toByte (c.header.length / 256), toByte c.header.length,
   toByte (c.content.length / 16777216), toByte (c.content.length / 65536),
   toByte (c.content.length / 256), toByte c.content.length]

/-- Modelled from the spec: the encoder is not among the available sources.
A request frame: the fixed header followed by the class, header and content
sections. -/
def encodeRequest (c : RequestFields) : List Byte :=
  requestFixedHeader c ++ c.className ++ c.header ++ c.content

/-- Modelled from the spec: the encoder is not among the available sources.
The input of the response encoder: the fields of a BOLT V1 response command
that go on the wire. -/
structure ResponseFields where
  protocol : Byte
  cmdType : Byte
  cmdCode : Nat
  version : Byte
  requestId : Nat
  codec : Byte
  responseStatus : Nat
  className : List Byte
  header : List Byte
  content : List Byte
deriving DecidableEq, Repr

/-- Modelled from the spec: the encoder is not among the available sources.
The BOLT V1 response layout of the external-interfaces section, all
integers big-endian: `[0]` protocol code, `[1]` command type, `[2:4]` command
code, `[4]` version, `[5:9]` request id, `[9]` codec, `[10:12]` response
status, `[12:14]` class length, `[14:16]` header length, `[16:20]` content
length, the lengths being those of the sections. -/
def responseFixedHeader (c : ResponseFields) : List Byte :=
  [c.protocol, c.cmdType,
   toByte (c.cmdCode / 256), toByte c.cmdCode,
   c.version,
   toByte (c.requestId / 16777216), toByte (c.requestId / 65536),
   toByte (c.requestId / 256), toByte c.requestId,
   c.codec,
   toByte (c.responseStatus / 256), toByte c.responseStatus,
   toByte (c.className.length / 256), toByte c.className.length,
   toByte (c.header.length / 256), toByte c.header.length,
   toByte (c.content.length / 16777216), toByte (c.content.length / 65536),
   toByte (c.content.length / 256), toByte c.content.length]

/-- Modelled from the spec: the encoder is not among the available sources.
A response frame: the fixed header followed by the class, header and content
sections. -/
def encodeResponse (c : ResponseFields) : List Byte :=
  responseFixedHeader c ++ c.className ++ c.header ++ c.content

/-- A request to encode: command code 1, request id 7, timeout -1, class
`A`, two header bytes and three content bytes. -/
def sampleRequestFields : RequestFields :=
  { protocol := 1, cmdType := 1, cmdCode := 1, version := 1, requestId := 7, codec := 1,
    timeout := -1, className := [65], header := [7, 8], content := [9, 9, 9] }

/-- A response to encode: command code 2, request id 7, status 5, no class,
no header and three content bytes. -/
def sampleResponseFields : ResponseFields :=
  { protocol := 1, cmdType := 0, cmdCode := 2, version := 1, requestId := 7, codec := 1,
    responseStatus := 5, className := [], header := [], content := [9, 9, 9] }

/-- A request to encode with no class, no header and no content: command
code 1, version 1, request id 1, codec 1, timeout 0. Its encoding is the 22
bytes of scenario A. -/
def bareRequestFields : RequestFields :=
  { protocol := 1, cmdType := 1, cmdCode := 1, version := 1, requestId := 1, codec := 1,
    timeout := 0, className := [], header := [], content := [] }

/-- A complete 22-byte request frame whose timeout bytes are `FF FF FF FF`. -/
def negativeTimeoutRequest : List Byte :=
  [1, 1, 0, 1, 1, 0, 0, 0, 7, 1, 255, 255, 255, 255, 0, 0, 0, 0, 0, 0, 0, 0]

/-- A 22-byte request header whose three length fields are all `FF` bytes. -/
def allOnesRequestHeader : List Byte :=
  [1, 1, 0, 1, 1, 0, 0, 0, 7, 1, 0, 0, 0, 100, 255, 255, 255, 255, 255, 255, 255, 255]

/-- A 20-byte response header whose three length fields are all `FF` bytes. -/
def allOnesResponseHeader : List Byte :=
  [1, 0, 0, 2, 1, 0, 0, 0, 7, 1, 0, 5, 255, 255, 255, 255, 255, 255, 255, 255]

end Bolt

/-! ## The `sofarpc` package: constants and basic commands (`sofarpc/types.go`) -/

namespace Sofarpc

/-- One octet (Go `byte`). -/
abbrev Byte := Fin 256

/-! ### bolt constants -/

def PROTOCOL_CODE_V1 : Byte := 1
def PROTOCOL_CODE_V2 : Byte := 2

def PROTOCOL_VERSION_1 : Byte := 1
def PROTOCOL_VERSION_2 : Byte := 2

def REQUEST_HEADER_LEN_V1 : Int := 22
def REQUEST_HEADER_LEN_V2 : Int := 24

def RESPONSE_HEADER_LEN_V1 : Int := 20
def RESPONSE_HEADER_LEN_V2 : Int := 22

def LESS_LEN_V1 : Int := RESPONSE_HEADER_LEN_V1
def LESS_LEN_V2 : Int := RESPONSE_HEADER_LEN_V2

def RESPONSE : Byte := 0
def REQUEST : Byte := 1
def REQUEST_ONEWAY : Byte := 2

def HEARTBEAT : Int := 0
def RPC_REQUEST : Int := 1
def RPC_RESPONSE : Int := 2

def TR_PROTOCOL_CODE : Byte := 13

/-! ### tr constants -/

def PROTOCOL_CODE : Byte := 13
def HEADER_REQUEST : Byte := 0
def HEADER_RESPONSE : Byte := 1
def HESSIAN_SERIALIZE : Byte := 1
def JAVA_SERIALIZE : Byte := 2
def TOP_SERIALIZE : Byte := 3
def HESSIAN2_SERIALIZE : Byte := 4
def HEADER_ONEWAY : Byte := 1
def HEADER_TWOWAY : Byte := 2
def TR_REQUEST : Int := 13
def TR_RESPONSE : Int := 14
def TR_HEARTBEAT : Int := 0
def PROCOCOL_VERSION : Byte := 13
def PROTOCOL_HEADER_LENGTH : Nat := 14

/-! ### commands

`int16`, `int` and `int64` fields are integers, `uint32` fields naturals,
`[]byte` fields byte lists, maps association lists; the opaque `interface{}`
payload `InvokeContext` is an optional handle. -/

/-- The struct `BoltRequestCommand`. -/
structure BoltRequestCommand where
  Protocol : Byte
  CmdType : Byte
  CmdCode : Int
  Version : Byte
  ReqId : Nat
  CodecPro : Byte
  Timeout : Int
  ClassLen : Int
  HeaderLen : Int
  ContentLen : Int
  ClassName : List Byte
  HeaderMap : List Byte
  Content : List Byte
  InvokeContext : Option Nat
  RequestHeader : List (String × String)
deriving DecidableEq, Repr

/-- The struct `BoltResponseCommand`. -/
structure BoltResponseCommand where
  Protocol : Byte
  CmdType : Byte
  CmdCode : Int
  Version : Byte
  ReqId : Nat
  CodecPro : Byte
  ResponseStatus : Int
  ClassLen : Int
  HeaderLen : Int
  ContentLen : Int
  ClassName : List Byte
  HeaderMap : List Byte
  Content : List Byte
  InvokeContext : Option Nat
  ResponseTimeMillis : Int
  ResponseHeader : List (String × String)
deriving DecidableEq, Repr

/-- The method `(*BoltRequestCommand).GetProtocol`. -/
def BoltRequestCommand.GetProtocol (b : BoltRequestCommand) : Byte := b.Protocol

/-- The method `(*BoltRequestCommand).GetCmdCode`. -/
def BoltRequestCommand.GetCmdCode (b : BoltRequestCommand) : Int := b.CmdCode

/-- The method `(*BoltRequestCommand).GetReqId`. -/
def BoltRequestCommand.GetReqId (b : BoltRequestCommand) : Nat := b.ReqId

/-- The method `(*BoltResponseCommand).GetProtocol`. -/
def BoltResponseCommand.GetProtocol (b : BoltResponseCommand) : Byte := b.Protocol

/-- The method `(*BoltResponseCommand).GetCmdCode`. -/
def BoltResponseCommand.GetCmdCode (b : BoltResponseCommand) : Int := b.CmdCode

/-- The method `(*BoltResponseCommand).GetReqId`. -/
def BoltResponseCommand.GetReqId (b : BoltResponseCommand) : Nat := b.ReqId

/-- The struct `TrCommand`. -/
structure TrCommand where
  Protocol : Byte
  RequestFlag : Byte
  SerializeProtocol : Byte
  Direction : Byte
  Reserved : Byte
  ConnRequestLen : Nat
  AppClassNameLen : Byte
  AppClassContentLen : Nat
  ConnClassContent : List Byte
  AppClassName : String
  AppClassContent : List Byte
deriving DecidableEq, Repr

/-- The struct `TrRequestCommand`, which embeds `TrCommand`. -/
structure TrRequestCommand extends TrCommand where
  CmdCode : Int
  RequestID : Int
  RequestHeader : List (String × String)
  RequestContent : List Byte
  TargetAppName : String
  TargetServiceUniqueName : String
deriving DecidableEq, Repr

/-- The struct `TrResponseCommand`, which embeds `TrCommand`. -/
structure TrResponseCommand extends TrCommand where
  CmdCode : Int
  RequestID : Int
  ResponseHeader : List (String × String)
  ResponseContent : List Byte
deriving DecidableEq, Repr

/-- The method `(*TrCommand).GetProtocol`. -/
def TrCommand.GetProtocol (b : TrCommand) : Byte := b.Protocol

/-- The method `(*TrCommand).GetCmdCode`. -/
def TrCommand.GetCmdCode (_b : TrCommand) : Int := 0

/-- The method `(*TrCommand).GetReqId`. -/
def TrCommand.GetReqId (_b : TrCommand) : Nat := 0

/-- The method `(*TrRequestCommand).GetCmdCode`. -/
def TrRequestCommand.GetCmdCode (b : TrRequestCommand) : Int := b.CmdCode

/-- The method `(*TrResponseCommand).GetCmdCode`. -/
def TrResponseCommand.GetCmdCode (b : TrResponseCommand) : Int := b.CmdCode

/-- The method `GetProtocol` of a `TrRequestCommand`: it declares none, so Go
promotes the one of the embedded `TrCommand`. -/
def TrRequestCommand.GetProtocol (b : TrRequestCommand) : Byte := b.toTrCommand.GetProtocol

/-- The method `GetReqId` of a `TrRequestCommand`: it declares none, so Go
promotes the one of the embedded `TrCommand`. -/
def TrRequestCommand.GetReqId (b : TrRequestCommand) : Nat := b.toTrCommand.GetReqId

/-- The method `GetProtocol` of a `TrResponseCommand`: it declares none, so Go
promotes the one of the embedded `TrCommand`. -/
def TrResponseCommand.GetProtocol (b : TrResponseCommand) : Byte :=
  b.toTrCommand.GetProtocol

/-- The method `GetReqId` of a `TrResponseCommand`: it declares none, so Go
promotes the one of the embedded `TrCommand`. -/
def TrResponseCommand.GetReqId (b : TrResponseCommand) : Nat := b.toTrCommand.GetReqId

end Sofarpc

namespace Bolt

/-! ## Arithmetic and slicing lemmas -/

theorem wrapInt_eq {x : Int} (h0 : 0 ≤ x) (h1 : x < 9223372036854775808) : wrapInt x = x := by
  unfold wrapInt; omega

theorem byteAt_lt (b : List Byte) (i : Nat) : byteAt b i < 256 := (b.getD i 0).isLt

theorem be16_lt (b : List Byte) (i : Nat) : be16 b i < 65536 := by
  have h0 := byteAt_lt b i
  have h1 := byteAt_lt b (i + 1)
  unfold be16; omega

theorem be32_lt (b : List Byte) (i : Nat) : be32 b i < 4294967296 := by
  have h0 := byteAt_lt b i
  have h1 := byteAt_lt b (i + 1)
  have h2 := byteAt_lt b (i + 2)
  have h3 := byteAt_lt b (i + 3)
  unfold be32; omega

theorem int_eq {x : Nat} (h : x < 4294967296) : int x = (x : Int) := by
  unfold int; apply wrapInt_eq <;> omega

theorem slice_nat (b : List Byte) {lo hi : Nat} (h1 : lo ≤ hi) (h2 : hi ≤ b.length) :
    slice b (lo : Int) (hi : Int) = some ((b.take hi).drop lo) := by
  unfold slice
  rw [if_pos (by omega)]
  simp

theorem byteAt_slice (b : List Byte) {lo hi k : Nat} (hk : lo + k < hi) :
    byteAt ((b.take hi).drop lo) k = byteAt b (lo + k) := by
  unfold byteAt
  simp [List.getD_eq_getElem?_getD, List.getElem?_drop, List.getElem?_take, hk]


theorem slice_Uint16 (b : List Byte) (i : Nat) (h : i + 2 ≤ b.length) :
    (slice b (i : Int) ((i + 2 : Nat) : Int)).bind Uint16 = some (be16 b i) := by
  rw [slice_nat b (by omega) h]
  simp only [Option.some_bind, Uint16, be16]
  rw [if_pos (by simp; omega), byteAt_slice b (by omega), byteAt_slice b (by omega)]
  simp

theorem slice_Uint32 (b : List Byte) (i : Nat) (h : i + 4 ≤ b.length) :
    (slice b (i : Int) ((i + 4 : Nat) : Int)).bind Uint32 = some (be32 b i) := by
  rw [slice_nat b (by omega) h]
  simp only [Option.some_bind, Uint32, be32]
  rw [if_pos (by simp; omega), byteAt_slice b (by omega), byteAt_slice b (by omega),
    byteAt_slice b (by omega), byteAt_slice b (by omega)]
  simp

theorem getElem?_eq_getD (b : List Byte) (i : Nat) (h : i < b.length) :
    b[i]? = some (b.getD i 0) := by
  simp [List.getD_eq_getElem?_getD, List.getElem?_eq_getElem h]


theorem requestFrameLen_int (b : List Byte) :
    intAdd (intAdd (intAdd RequestHeaderLen (int (be16 b 14))) (int (be16 b 16)))
      (int (be32 b 18)) = ((requestFrameLen b : Nat) : Int) := by
  have h1 := be16_lt b 14
  have h2 := be16_lt b 16
  have h3 := be32_lt b 18
  rw [int_eq (by omega), int_eq (by omega), int_eq h3]
  unfold intAdd RequestHeaderLen requestFrameLen
  have e1 : wrapInt (22 + ((be16 b 14 : Nat) : Int)) = 22 + ((be16 b 14 : Nat) : Int) :=
    wrapInt_eq (by omega) (by omega)
  rw [e1]
  have e2 : wrapInt (22 + ((be16 b 14 : Nat) : Int) + ((be16 b 16 : Nat) : Int))
      = 22 + ((be16 b 14 : Nat) : Int) + ((be16 b 16 : Nat) : Int) :=
    wrapInt_eq (by omega) (by omega)
  rw [e2, wrapInt_eq (by omega) (by omega)]
  push_cast; ring

theorem decodeRequest_awaiting_header (D : HeaderCodec) (ctx : Ctx) (b : List Byte) (ow : Bool)
    (h : b.length < 22) : decodeRequest D ctx b ow = some (incomplete ctx b) := by
  unfold decodeRequest
  have h1 : ((b.length : Nat) : Int) < RequestHeaderLen := by unfold RequestHeaderLen; omega
  simp [h1, incomplete]

theorem decodeRequest_awaiting_body (D : HeaderCodec) (ctx : Ctx) (b : List Byte) (ow : Bool)
    (h : 22 ≤ b.length) (h2 : b.length < requestFrameLen b) :
    decodeRequest D ctx b ow = some (incomplete ctx b) := by
  unfold decodeRequest
  have h1 : ¬ ((b.length : Nat) : Int) < RequestHeaderLen := by unfold RequestHeaderLen; omega
  have hc := slice_Uint16 b 14 (by omega)
  have hh := slice_Uint16 b 16 (by omega)
  have hn := slice_Uint32 b 18 (by omega)
  simp only [Nat.cast_ofNat, Nat.reduceAdd] at hc hh hn
  rw [if_neg h1, hc, hh, hn, Option.bind_eq_bind, Option.some_bind, Option.some_bind,
    Option.some_bind, requestFrameLen_int, if_pos (by exact_mod_cast h2)]
  rfl

theorem requestWrappers_eq (D : HeaderCodec) (r : Request) (c h n : Nat)
    (hc : c < 65536) (hh : h < 65536)
    (hlen : r.rawData.length = 22 + c + h + n) :
    requestWrappers D r c h n = some
      ({ r with
          rawMeta := r.rawData.take 22
          rawClass := if 0 < c then (r.rawData.take (22 + c)).drop 22 else r.rawClass
          rawHeader := if 0 < h then (r.rawData.take (22 + c + h)).drop (22 + c) else r.rawHeader
          rawContent := if 0 < n then r.rawData.drop (22 + c + h) else r.rawContent
          Content := if 0 < n then some (r.rawData.drop (22 + c + h)) else r.Content
          RequestHeader := { r.RequestHeader with
            Class := if 0 < c then (r.rawData.take (22 + c)).drop 22 else r.RequestHeader.Class
            BytesHeader :=
              if 0 < h then
                (D ((r.rawData.take (22 + c + h)).drop (22 + c)) r.RequestHeader.BytesHeader).1
              else r.RequestHeader.BytesHeader } },
        if 0 < h then
          (D ((r.rawData.take (22 + c + h)).drop (22 + c)) r.RequestHeader.BytesHeader).2
        else none) := by
  have e1 : intAdd RequestHeaderLen (int c) = ((22 + c : Nat) : Int) := by
    rw [int_eq (by omega)]; unfold intAdd RequestHeaderLen
    rw [wrapInt_eq (by omega) (by omega)]; push_cast; ring
  have e2 : intAdd ((22 + c : Nat) : Int) (int h) = ((22 + c + h : Nat) : Int) := by
    rw [int_eq (by omega)]; unfold intAdd
    rw [wrapInt_eq (by omega) (by omega)]; push_cast; ring
  have s1 : slice r.rawData 0 RequestHeaderLen = some (r.rawData.take 22) := by
    have := slice_nat r.rawData (Nat.zero_le 22) (by omega)
    simpa [RequestHeaderLen] using this
  have s2 : slice r.rawData RequestHeaderLen ((22 + c : Nat) : Int)
      = some ((r.rawData.take (22 + c)).drop 22) := by
    have := slice_nat r.rawData (Nat.le_add_right 22 c) (by omega)
    simpa [RequestHeaderLen] using this
  have s3 : slice r.rawData ((22 + c : Nat) : Int) ((22 + c + h : Nat) : Int)
      = some ((r.rawData.take (22 + c + h)).drop (22 + c)) :=
    slice_nat r.rawData (Nat.le_add_right (22 + c) h) (by omega)
  have s4 : slice r.rawData ((22 + c + h : Nat) : Int) (r.rawData.length : Int)
      = some (r.rawData.drop (22 + c + h)) := by
    have := slice_nat r.rawData (show 22 + c + h ≤ r.rawData.length by omega) (Nat.le_refl _)
    simpa using this
  unfold requestWrappers
  rw [e1]
  simp only [e2, s1, Option.bind_eq_bind, Option.some_bind]
  by_cases c0 : 0 < c <;> by_cases h0 : 0 < h <;> by_cases n0 : 0 < n <;>
    simp only [gt_iff_lt, c0, h0, n0, if_true, if_false, s2, s3, s4, Option.map_some',
      Option.some_bind, Option.pure_def]


theorem requestFrame_eq (D : HeaderCodec) (ctx : Ctx) (b : List Byte) (ow : Bool)
    (h : 22 ≤ b.length) (h2 : requestFrameLen b ≤ b.length) :
    requestFrame D ctx b ow (be16 b 14) (be16 b 16) (be32 b 18)
        ((requestFrameLen b : Nat) : Int) = some
      { cmd := some (requestValue D ctx.request b ow)
        err := requestErr D b
        data := b.drop (requestFrameLen b)
        ctx := { ctx with
          request := requestValue D ctx.request b ow
          VarRequestRawData := some (b.take (requestFrameLen b)) } } := by
  have hcmd := slice_Uint16 b 2 (by omega)
  have hid := slice_Uint32 b 5 (by omega)
  have hto := slice_Uint32 b 10 (by omega)
  have hv := getElem?_eq_getD b 4 (by omega)
  have hco := getElem?_eq_getD b 9 (by omega)
  simp only [Nat.cast_ofNat, Nat.reduceAdd] at hcmd hid hto
  have hfr : slice b 0 ((requestFrameLen b : Nat) : Int) = some (b.take (requestFrameLen b)) := by
    have := slice_nat b (Nat.zero_le (requestFrameLen b)) h2
    simpa using this
  have hlen : (b.take (requestFrameLen b)).length
      = 22 + be16 b 14 + be16 b 16 + be32 b 18 := by
    rw [List.length_take, Nat.min_eq_left h2]; rfl
  unfold requestFrame
  simp only [hcmd, hid, hto, hv, hco, hfr, Option.bind_eq_bind, Option.some_bind]
  rw [requestWrappers_eq D _ _ _ _ (be16_lt b 14) (be16_lt b 16) hlen]
  simp only [Option.some_bind, Option.pure_def, Drain, Int.toNat_ofNat, requestValue, requestErr,
    requestFrameLen]

theorem decodeRequest_complete (D : HeaderCodec) (ctx : Ctx) (b : List Byte) (ow : Bool)
    (h : 22 ≤ b.length) (h2 : requestFrameLen b ≤ b.length) :
    decodeRequest D ctx b ow = some
      { cmd := some (requestValue D ctx.request b ow)
        err := requestErr D b
        data := b.drop (requestFrameLen b)
        ctx := { ctx with
          request := requestValue D ctx.request b ow
          VarRequestRawData := some (b.take (requestFrameLen b)) } } := by
  unfold decodeRequest
  have h1 : ¬ ((b.length : Nat) : Int) < RequestHeaderLen := by unfold RequestHeaderLen; omega
  have hc := slice_Uint16 b 14 (by omega)
  have hh := slice_Uint16 b 16 (by omega)
  have hn := slice_Uint32 b 18 (by omega)
  simp only [Nat.cast_ofNat, Nat.reduceAdd] at hc hh hn
  rw [if_neg h1, hc, hh, hn, Option.bind_eq_bind, Option.some_bind, Option.some_bind,
    Option.some_bind, requestFrameLen_int, if_neg (by exact_mod_cast Nat.not_lt.mpr h2)]
  exact requestFrame_eq D ctx b ow h h2

theorem responseFrameLen_int (b : List Byte) :
    intAdd (intAdd (intAdd ResponseHeaderLen (int (be16 b 12))) (int (be16 b 14)))
      (int (be32 b 16)) = ((responseFrameLen b : Nat) : Int) := by
  have h1 := be16_lt b 12
  have h2 := be16_lt b 14
  have h3 := be32_lt b 16
  rw [int_eq (by omega), int_eq (by omega), int_eq h3]
  unfold intAdd ResponseHeaderLen responseFrameLen
  have e1 : wrapInt (20 + ((be16 b 12 : Nat) : Int)) = 20 + ((be16 b 12 : Nat) : Int) :=
    wrapInt_eq (by omega) (by omega)
  rw [e1]
  have e2 : wrapInt (20 + ((be16 b 12 : Nat) : Int) + ((be16 b 14 : Nat) : Int))
      = 20 + ((be16 b 12 : Nat) : Int) + ((be16 b 14 : Nat) : Int) :=
    wrapInt_eq (by omega) (by omega)
  rw [e2, wrapInt_eq (by omega) (by omega)]
  push_cast; ring

theorem decodeResponse_awaiting_header (D : HeaderCodec) (ctx : Ctx) (b : List Byte)
    (h : b.length < 20) : decodeResponse D ctx b = some (incomplete ctx b) := by
  unfold decodeResponse
  have h1 : ((b.length : Nat) : Int) < ResponseHeaderLen := by unfold ResponseHeaderLen; omega
  simp [h1, incomplete]

theorem decodeResponse_awaiting_body (D : HeaderCodec) (ctx : Ctx) (b : List Byte)
    (h : 20 ≤ b.length) (h2 : b.length < responseFrameLen b) :
    decodeResponse D ctx b = some (incomplete ctx b) := by
  unfold decodeResponse
  have h1 : ¬ ((b.length : Nat) : Int) < ResponseHeaderLen := by unfold ResponseHeaderLen; omega
  have hc := slice_Uint16 b 12 (by omega)
  have hh := slice_Uint16 b 14 (by omega)
  have hn := slice_Uint32 b 16 (by omega)
  simp only [Nat.cast_ofNat, Nat.reduceAdd] at hc hh hn
  rw [if_neg h1, hc, hh, hn, Option.bind_eq_bind, Option.some_bind, Option.some_bind,
    Option.some_bind, responseFrameLen_int, if_pos (by exact_mod_cast h2)]
  rfl

theorem responseWrappers_eq (D : HeaderCodec) (r : Response) (c h n : Nat)
    (hc : c < 65536) (hh : h < 65536)
    (hlen : r.rawData.length = 20 + c + h + n) :
    responseWrappers D r c h n = some
      ({ r with
          rawMeta := r.rawData.take 20
          rawClass := if 0 < c then (r.rawData.take (20 + c)).drop 20 else r.rawClass
          rawHeader := if 0 < h then (r.rawData.take (20 + c + h)).drop (20 + c) else r.rawHeader
          rawContent := if 0 < n then r.rawData.drop (20 + c + h) else r.rawContent
          Content := if 0 < n then some (r.rawData.drop (20 + c + h)) else r.Content
          ResponseHeader := { r.ResponseHeader with
            Class := if 0 < c then (r.rawData.take (20 + c)).drop 20 else r.ResponseHeader.Class
            BytesHeader :=
              if 0 < h then
                (D ((r.rawData.take (20 + c + h)).drop (20 + c)) r.ResponseHeader.BytesHeader).1
              else r.ResponseHeader.BytesHeader } },
        if 0 < h then
          (D ((r.rawData.take (20 + c + h)).drop (20 + c)) r.ResponseHeader.BytesHeader).2
        else none) := by
  have e1 : intAdd ResponseHeaderLen (int c) = ((20 + c : Nat) : Int) := by
    rw [int_eq (by omega)]; unfold intAdd ResponseHeaderLen
    rw [wrapInt_eq (by omega) (by omega)]; push_cast; ring
  have e2 : intAdd ((20 + c : Nat) : Int) (int h) = ((20 + c + h : Nat) : Int) := by
    rw [int_eq (by omega)]; unfold intAdd
    rw [wrapInt_eq (by omega) (by omega)]; push_cast; ring
  have s1 : slice r.rawData 0 ResponseHeaderLen = some (r.rawData.take 20) := by
    have := slice_nat r.rawData (Nat.zero_le 20) (by omega)
    simpa [ResponseHeaderLen] using this
  have s2 : slice r.rawData ResponseHeaderLen ((20 + c : Nat) : Int)
      = some ((r.rawData.take (20 + c)).drop 20) := by
    have := slice_nat r.rawData (Nat.le_add_right 20 c) (by omega)
    simpa [ResponseHeaderLen] using this
  have s3 : slice r.rawData ((20 + c : Nat) : Int) ((20 + c + h : Nat) : Int)
      = some ((r.rawData.take (20 + c + h)).drop (20 + c)) :=
    slice_nat r.rawData (Nat.le_add_right (20 + c) h) (by omega)
  have s4 : slice r.rawData ((20 + c + h : Nat) : Int) (r.rawData.length : Int)
      = some (r.rawData.drop (20 + c + h)) := by
    have := slice_nat r.rawData (show 20 + c + h ≤ r.rawData.length by omega) (Nat.le_refl _)
    simpa using this
  unfold responseWrappers
  rw [e1]
  simp only [e2, s1, Option.bind_eq_bind, Option.some_bind]
  by_cases c0 : 0 < c <;> by_cases h0 : 0 < h <;> by_cases n0 : 0 < n <;>
    simp only [gt_iff_lt, c0, h0, n0, if_true, if_false, s2, s3, s4, Option.map_some',
      Option.some_bind, Option.pure_def]


theorem responseFrame_eq (D : HeaderCodec) (ctx : Ctx) (b : List Byte)
    (h : 20 ≤ b.length) (h2 : responseFrameLen b ≤ b.length) :
    responseFrame D ctx b (be16 b 12) (be16 b 14) (be32 b 16)
        ((responseFrameLen b : Nat) : Int) = some
      { cmd := some (responseValue D ctx.response b)
        err := responseErr D b
        data := b.drop (responseFrameLen b)
        ctx := { ctx with
          response := responseValue D ctx.response b
          VarResponseRawData := some (b.take (responseFrameLen b)) } } := by
  have hcmd := slice_Uint16 b 2 (by omega)
  have hid := slice_Uint32 b 5 (by omega)
  have hst := slice_Uint16 b 10 (by omega)
  have hv := getElem?_eq_getD b 4 (by omega)
  have hco := getElem?_eq_getD b 9 (by omega)
  simp only [Nat.cast_ofNat, Nat.reduceAdd] at hcmd hid hst
  have hfr : slice b 0 ((responseFrameLen b : Nat) : Int) = some (b.take (responseFrameLen b)) := by
    have := slice_nat b (Nat.zero_le (responseFrameLen b)) h2
    simpa using this
  have hlen : (b.take (responseFrameLen b)).length
      = 20 + be16 b 12 + be16 b 14 + be32 b 16 := by
    rw [List.length_take, Nat.min_eq_left h2]; rfl
  unfold responseFrame
  simp only [hcmd, hid, hst, hv, hco, hfr, Option.bind_eq_bind, Option.some_bind]
  rw [responseWrappers_eq D _ _ _ _ (be16_lt b 12) (be16_lt b 14) hlen]
  simp only [Option.some_bind, Option.pure_def, Drain, Int.toNat_ofNat, responseValue, responseErr,
    responseFrameLen]

theorem decodeResponse_complete (D : HeaderCodec) (ctx : Ctx) (b : List Byte)
    (h : 20 ≤ b.length) (h2 : responseFrameLen b ≤ b.length) :
    decodeResponse D ctx b = some
      { cmd := some (responseValue D ctx.response b)
        err := responseErr D b
        data := b.drop (responseFrameLen b)
        ctx := { ctx with
          response := responseValue D ctx.response b
          VarResponseRawData := some (b.take (responseFrameLen b)) } } := by
  unfold decodeResponse
  have h1 : ¬ ((b.length : Nat) : Int) < ResponseHeaderLen := by unfold ResponseHeaderLen; omega
  have hc := slice_Uint16 b 12 (by omega)
  have hh := slice_Uint16 b 14 (by omega)
  have hn := slice_Uint32 b 16 (by omega)
  simp only [Nat.cast_ofNat, Nat.reduceAdd] at hc hh hn
  rw [if_neg h1, hc, hh, hn, Option.bind_eq_bind, Option.some_bind, Option.some_bind,
    Option.some_bind, responseFrameLen_int, if_neg (by exact_mod_cast Nat.not_lt.mpr h2)]
  exact responseFrame_eq D ctx b h h2



theorem byteAt_append (p s : List Byte) (i : Nat) (h : i < p.length) :
    byteAt (p ++ s) i = byteAt p i := by
  unfold byteAt
  simp [List.getD_eq_getElem?_getD, List.getElem?_append_left h]

theorem requestFrameLen_append (p s : List Byte) (h : 22 ≤ p.length) :
    requestFrameLen (p ++ s) = requestFrameLen p := by
  unfold requestFrameLen be16 be32
  rw [byteAt_append p s 14 (by omega), byteAt_append p s (14 + 1) (by omega),
    byteAt_append p s 16 (by omega), byteAt_append p s (16 + 1) (by omega),
    byteAt_append p s 18 (by omega), byteAt_append p s (18 + 1) (by omega),
    byteAt_append p s (18 + 2) (by omega), byteAt_append p s (18 + 3) (by omega)]

theorem responseFrameLen_append (p s : List Byte) (h : 20 ≤ p.length) :
    responseFrameLen (p ++ s) = responseFrameLen p := by
  unfold responseFrameLen be16 be32
  rw [byteAt_append p s 12 (by omega), byteAt_append p s (12 + 1) (by omega),
    byteAt_append p s 14 (by omega), byteAt_append p s (14 + 1) (by omega),
    byteAt_append p s 16 (by omega), byteAt_append p s (16 + 1) (by omega),
    byteAt_append p s (16 + 2) (by omega), byteAt_append p s (16 + 3) (by omega)]

theorem decodeRequest_fragment (D : HeaderCodec) (ctx : Ctx) (p s : List Byte) (ow : Bool)
    (hfl : (p ++ s).length = requestFrameLen (p ++ s)) (hs : s ≠ []) :
    decodeRequest D ctx p ow = some (incomplete ctx p) := by
  have hpos : 0 < s.length := List.length_pos.mpr hs
  rw [List.length_append] at hfl
  by_cases hp : p.length < 22
  · exact decodeRequest_awaiting_header D ctx p ow hp
  · rw [requestFrameLen_append p s (by omega)] at hfl
    exact decodeRequest_awaiting_body D ctx p ow (by omega) (by omega)

theorem decodeResponse_fragment (D : HeaderCodec) (ctx : Ctx) (p s : List Byte)
    (hfl : (p ++ s).length = responseFrameLen (p ++ s)) (hs : s ≠ []) :
    decodeResponse D ctx p = some (incomplete ctx p) := by
  have hpos : 0 < s.length := List.length_pos.mpr hs
  rw [List.length_append] at hfl
  by_cases hp : p.length < 20
  · exact decodeResponse_awaiting_header D ctx p hp
  · rw [responseFrameLen_append p s (by omega)] at hfl
    exact decodeResponse_awaiting_body D ctx p (by omega) (by omega)

theorem int32_mod (x : Nat) (h : x < 4294967296) : int32 x % 4294967296 = (x : Int) := by
  unfold int32
  split <;> omega

theorem int32_range (x : Nat) : -2147483648 ≤ int32 x ∧ int32 x < 2147483648 := by
  unfold int32
  split <;> omega

theorem take_take_le (l : List Byte) {k n : Nat} (h : k ≤ n) :
    (l.take n).take k = l.take k := by
  rw [List.take_take, Nat.min_eq_left h]

theorem take_append_drop_take (l : List Byte) {a n : Nat} (h : a ≤ n) :
    l.take a ++ (l.take n).drop a = l.take n := by
  have e := List.take_append_drop a (l.take n)
  rwa [take_take_le l h] at e

theorem sections_concat (l : List Byte) (a c h n : Nat) :
    l.take a ++ (l.take (a + c)).drop a ++ (l.take (a + c + h)).drop (a + c)
        ++ (l.take (a + c + h + n)).drop (a + c + h)
      = l.take (a + c + h + n) := by
  rw [take_append_drop_take l (Nat.le_add_right a c),
    take_append_drop_take l (Nat.le_add_right (a + c) h),
    take_append_drop_take l (Nat.le_add_right (a + c + h) n)]

theorem length_section (l : List Byte) (a c : Nat) (h : a + c ≤ l.length) :
    ((l.take (a + c)).drop a).length = c := by
  rw [List.length_drop, List.length_take, Nat.min_eq_left h]; omega

theorem section_eq_nil (l : List Byte) (a : Nat) : (l.take (a + 0)).drop a = [] := by
  apply List.drop_eq_nil_of_le
  rw [List.length_take]; exact Nat.min_le_left _ _

/-! ## Framing -/

/-- C1 (exact consumption): on a buffer `b` of at least 22 bytes that holds
the whole declared request frame, `decodeRequest` returns and leaves the
buffer equal to `b[frameLen:]`, so exactly `frameLen` bytes are drained and
the remaining bytes are unchanged; the same for `decodeResponse` on a buffer
`b2` of at least 20 bytes with the response length fields. -/
theorem exact_consumption (D : HeaderCodec) (ctx : Ctx) (b b2 : List Byte) (oneway : Bool)
    (h1 : 22 ≤ b.length) (h2 : requestFrameLen b ≤ b.length)
    (h3 : 20 ≤ b2.length) (h4 : responseFrameLen b2 ≤ b2.length) :
    (∃ r, decodeRequest D ctx b oneway = some r ∧
        r.data = b.drop (requestFrameLen b) ∧
        b = b.take (requestFrameLen b) ++ r.data ∧
        r.data.length + requestFrameLen b = b.length) ∧
    (∃ r, decodeResponse D ctx b2 = some r ∧
        r.data = b2.drop (responseFrameLen b2) ∧
        b2 = b2.take (responseFrameLen b2) ++ r.data ∧
        r.data.length + responseFrameLen b2 = b2.length) := by
  refine ⟨⟨_, decodeRequest_complete D ctx b oneway h1 h2, rfl, ?_, ?_⟩,
    ⟨_, decodeResponse_complete D ctx b2 h3 h4, rfl, ?_, ?_⟩⟩
  · exact (List.take_append_drop _ _).symm
  · simp only [List.length_drop]; omega
  · exact (List.take_append_drop _ _).symm
  · simp only [List.length_drop]; omega

/-- Witness of C1 on `sampleRequest` and `sampleResponse`. -/
theorem exact_consumption_witness :
    (∃ r, decodeRequest okCodec Ctx.fresh sampleRequest false = some r ∧
        r.data = sampleRequest.drop (requestFrameLen sampleRequest) ∧
        sampleRequest = sampleRequest.take (requestFrameLen sampleRequest) ++ r.data ∧
        r.data.length + requestFrameLen sampleRequest = sampleRequest.length) ∧
    (∃ r, decodeResponse okCodec Ctx.fresh sampleResponse = some r ∧
        r.data = sampleResponse.drop (responseFrameLen sampleResponse) ∧
        sampleResponse = sampleResponse.take (responseFrameLen sampleResponse) ++ r.data ∧
        r.data.length + responseFrameLen sampleResponse = sampleResponse.length) :=
  exact_consumption okCodec Ctx.fresh sampleRequest sampleResponse false
    (by decide) (by decide) (by decide) (by decide)

/-- C2 (incomplete has no effect): when the buffer is shorter than the fixed
header, or holds the header but not the whole declared frame,
`decodeRequest` returns `(nil, nil)` and leaves both the buffer and the
context (pooled command, context variables) exactly as they were; the same
for `decodeResponse` with header length 20. -/
theorem incomplete_no_effect (D : HeaderCodec) (ctx : Ctx) (b b2 : List Byte) (oneway : Bool)
    (h1 : b.length < 22 ∨ b.length < requestFrameLen b)
    (h2 : b2.length < 20 ∨ b2.length < responseFrameLen b2) :
    decodeRequest D ctx b oneway
        = some { cmd := none, err := none, data := b, ctx := ctx } ∧
    decodeResponse D ctx b2
        = some { cmd := none, err := none, data := b2, ctx := ctx } := by
  constructor
  · by_cases hs : b.length < 22
    · exact decodeRequest_awaiting_header D ctx b oneway hs
    · exact decodeRequest_awaiting_body D ctx b oneway (by omega) (by omega)
  · by_cases hs : b2.length < 20
    · exact decodeResponse_awaiting_header D ctx b2 hs
    · exact decodeResponse_awaiting_body D ctx b2 (by omega) (by omega)

/-- Witness of C2 on a request header without its sections and on a
three-byte response fragment. -/
theorem incomplete_no_effect_witness :
    decodeRequest okCodec Ctx.fresh sampleRequestHeaderOnly true
        = some { cmd := none, err := none, data := sampleRequestHeaderOnly, ctx := Ctx.fresh } ∧
    decodeResponse okCodec Ctx.fresh [1, 0, 0]
        = some { cmd := none, err := none, data := [1, 0, 0], ctx := Ctx.fresh } :=
  incomplete_no_effect okCodec Ctx.fresh sampleRequestHeaderOnly [1, 0, 0] true
    (Or.inr (by decide)) (Or.inl (by decide))


/-- C3 (fragmentation invariance): let `p ++ s` be a well-formed request
frame, i.e. at least 22 bytes long and exactly as long as it declares, and
`p` a proper prefix of it (`s` is not empty; `p` may be empty or longer than
the fixed header). Then `decodeRequest` on `p` returns `(nil, nil)` with
buffer and context untouched, and calling it again once the rest `s` has
been appended to what was left gives exactly the result of decoding the
frame delivered in one piece: a command, with the whole buffer consumed.
The same for a well-formed response frame `p2 ++ s2` and `decodeResponse`. -/
theorem fragmentation_invariance (D : HeaderCodec) (ctx : Ctx) (p s p2 s2 : List Byte)
    (oneway : Bool)
    (h1 : 22 ≤ (p ++ s).length) (h2 : (p ++ s).length = requestFrameLen (p ++ s))
    (h3 : s ≠ [])
    (h4 : 20 ≤ (p2 ++ s2).length) (h5 : (p2 ++ s2).length = responseFrameLen (p2 ++ s2))
    (h6 : s2 ≠ []) :
    (decodeRequest D ctx p oneway
        = some { cmd := none, err := none, data := p, ctx := ctx } ∧
      (decodeRequest D ctx p oneway).bind
          (fun r => decodeRequest D r.ctx (r.data ++ s) oneway)
        = decodeRequest D ctx (p ++ s) oneway ∧
      ∃ r cmd, decodeRequest D ctx (p ++ s) oneway = some r ∧ r.cmd = some cmd ∧
        r.data = []) ∧
    (decodeResponse D ctx p2
        = some { cmd := none, err := none, data := p2, ctx := ctx } ∧
      (decodeResponse D ctx p2).bind (fun r => decodeResponse D r.ctx (r.data ++ s2))
        = decodeResponse D ctx (p2 ++ s2) ∧
      ∃ r cmd, decodeResponse D ctx (p2 ++ s2) = some r ∧ r.cmd = some cmd ∧
        r.data = []) := by
  have e1 := decodeRequest_fragment D ctx p s oneway h2 h3
  have e2 := decodeResponse_fragment D ctx p2 s2 h5 h6
  refine ⟨⟨e1, ?_, ?_⟩, ⟨e2, ?_, ?_⟩⟩
  · rw [e1, Option.some_bind]; rfl
  · refine ⟨_, _, decodeRequest_complete D ctx (p ++ s) oneway h1 (by omega), rfl, ?_⟩
    exact List.drop_eq_nil_of_le (by omega)
  · rw [e2, Option.some_bind]; rfl
  · refine ⟨_, _, decodeResponse_complete D ctx (p2 ++ s2) h4 (by omega), rfl, ?_⟩
    exact List.drop_eq_nil_of_le (by omega)

/-- Witness of C3: the frame of `sampleRequest` cut inside its class section
(after 23 bytes) and the frame of `sampleResponse` cut inside its fixed
header (after 3 bytes). -/
theorem fragmentation_invariance_witness :
    (decodeRequest okCodec Ctx.fresh (sampleRequestHeaderOnly ++ [65]) false
        = some { cmd := none, err := none, data := sampleRequestHeaderOnly ++ [65],
                 ctx := Ctx.fresh } ∧
      (decodeRequest okCodec Ctx.fresh (sampleRequestHeaderOnly ++ [65]) false).bind
          (fun r => decodeRequest okCodec r.ctx (r.data ++ [7, 8, 9, 9, 9]) false)
        = decodeRequest okCodec Ctx.fresh
            ((sampleRequestHeaderOnly ++ [65]) ++ [7, 8, 9, 9, 9]) false ∧
      ∃ r cmd, decodeRequest okCodec Ctx.fresh
            ((sampleRequestHeaderOnly ++ [65]) ++ [7, 8, 9, 9, 9]) false = some r ∧
        r.cmd = some cmd ∧ r.data = []) ∧
    (decodeResponse okCodec Ctx.fresh [1, 0, 0]
        = some { cmd := none, err := none, data := [1, 0, 0], ctx := Ctx.fresh } ∧
      (decodeResponse okCodec Ctx.fresh [1, 0, 0]).bind
          (fun r => decodeResponse okCodec r.ctx (r.data ++ sampleResponseRest))
        = decodeResponse okCodec Ctx.fresh ([1, 0, 0] ++ sampleResponseRest) ∧
      ∃ r cmd, decodeResponse okCodec Ctx.fresh ([1, 0, 0] ++ sampleResponseRest) = some r ∧
        r.cmd = some cmd ∧ r.data = []) :=
  fragmentation_invariance okCodec Ctx.fresh (sampleRequestHeaderOnly ++ [65])
    [7, 8, 9, 9, 9] [1, 0, 0] sampleResponseRest false
    (by decide) (by decide) (by decide) (by decide) (by decide) (by decide)


/-! ## Fixed fields -/

/-- C4 (request fixed-field parsing): on a buffer `b` holding a complete
request frame, `decodeRequest` returns a command whose `CmdCode` is the
big-endian 16-bit word `b[2:4]`, `Version` is `b[4]`, `RequestId` is the
big-endian 32-bit word `b[5:9]`, `Codec` is `b[9]`, `Timeout` is the `int32`
conversion of the big-endian 32-bit word `b[10:14]` (the same 32 bits),
`ClassLen` is `b[14:16]`, `HeaderLen` is `b[16:18]` and `ContentLen` is
`b[18:22]`, all read big-endian. -/
theorem request_fixed_fields (D : HeaderCodec) (ctx : Ctx) (b : List Byte) (oneway : Bool)
    (h1 : 22 ≤ b.length) (h2 : requestFrameLen b ≤ b.length) :
    ∃ r cmd, decodeRequest D ctx b oneway = some r ∧ r.cmd = some cmd ∧
      cmd.RequestHeader.CmdCode = be16 b 2 ∧
      b[4]? = some cmd.RequestHeader.Version ∧
      cmd.RequestHeader.RequestId = be32 b 5 ∧
      b[9]? = some cmd.RequestHeader.Codec ∧
      cmd.RequestHeader.Timeout = int32 (be32 b 10) ∧
      cmd.RequestHeader.Timeout % 4294967296 = (be32 b 10 : Int) ∧
      cmd.RequestHeader.ClassLen = be16 b 14 ∧
      cmd.RequestHeader.HeaderLen = be16 b 16 ∧
      cmd.RequestHeader.ContentLen = be32 b 18 :=
  ⟨_, _, decodeRequest_complete D ctx b oneway h1 h2, rfl, rfl,
    getElem?_eq_getD b 4 (by omega), rfl, getElem?_eq_getD b 9 (by omega), rfl,
    int32_mod _ (be32_lt b 10), rfl, rfl, rfl⟩

/-- Witness of C4 on `sampleRequest`. -/
theorem request_fixed_fields_witness :
    ∃ r cmd, decodeRequest okCodec Ctx.fresh sampleRequest false = some r ∧ r.cmd = some cmd ∧
      cmd.RequestHeader.CmdCode = be16 sampleRequest 2 ∧
      sampleRequest[4]? = some cmd.RequestHeader.Version ∧
      cmd.RequestHeader.RequestId = be32 sampleRequest 5 ∧
      sampleRequest[9]? = some cmd.RequestHeader.Codec ∧
      cmd.RequestHeader.Timeout = int32 (be32 sampleRequest 10) ∧
      cmd.RequestHeader.Timeout % 4294967296 = (be32 sampleRequest 10 : Int) ∧
      cmd.RequestHeader.ClassLen = be16 sampleRequest 14 ∧
      cmd.RequestHeader.HeaderLen = be16 sampleRequest 16 ∧
      cmd.RequestHeader.ContentLen = be32 sampleRequest 18 :=
  request_fixed_fields okCodec Ctx.fresh sampleRequest false (by decide) (by decide)

/-- C5 (response fixed-field parsing): on a buffer `b` holding a complete
response frame, `decodeResponse` returns a command whose `CmdCode` is the
big-endian 16-bit word `b[2:4]`, `Version` is `b[4]`, `RequestId` is the
big-endian 32-bit word `b[5:9]`, `Codec` is `b[9]`, `ResponseStatus` is
`b[10:12]`, `ClassLen` is `b[12:14]`, `HeaderLen` is `b[14:16]` and
`ContentLen` is `b[16:20]`, all read big-endian. -/
theorem response_fixed_fields (D : HeaderCodec) (ctx : Ctx) (b : List Byte)
    (h1 : 20 ≤ b.length) (h2 : responseFrameLen b ≤ b.length) :
    ∃ r cmd, decodeResponse D ctx b = some r ∧ r.cmd = some cmd ∧
      cmd.ResponseHeader.CmdCode = be16 b 2 ∧
      b[4]? = some cmd.ResponseHeader.Version ∧
      cmd.ResponseHeader.RequestId = be32 b 5 ∧
      b[9]? = some cmd.ResponseHeader.Codec ∧
      cmd.ResponseHeader.ResponseStatus = be16 b 10 ∧
      cmd.ResponseHeader.ClassLen = be16 b 12 ∧
      cmd.ResponseHeader.HeaderLen = be16 b 14 ∧
      cmd.ResponseHeader.ContentLen = be32 b 16 :=
  ⟨_, _, decodeResponse_complete D ctx b h1 h2, rfl, rfl,
    getElem?_eq_getD b 4 (by omega), rfl, getElem?_eq_getD b 9 (by omega), rfl, rfl, rfl, rfl⟩

/-- Witness of C5 on `sampleResponse`. -/
theorem response_fixed_fields_witness :
    ∃ r cmd, decodeResponse okCodec Ctx.fresh sampleResponse = some r ∧ r.cmd = some cmd ∧
      cmd.ResponseHeader.CmdCode = be16 sampleResponse 2 ∧
      sampleResponse[4]? = some cmd.ResponseHeader.Version ∧
      cmd.ResponseHeader.RequestId = be32 sampleResponse 5 ∧
      sampleResponse[9]? = some cmd.ResponseHeader.Codec ∧
      cmd.ResponseHeader.ResponseStatus = be16 sampleResponse 10 ∧
      cmd.ResponseHeader.ClassLen = be16 sampleResponse 12 ∧
      cmd.ResponseHeader.HeaderLen = be16 sampleResponse 14 ∧
      cmd.ResponseHeader.ContentLen = be32 sampleResponse 16 :=
  response_fixed_fields okCodec Ctx.fresh sampleResponse (by decide) (by decide)


/-- C6, as stated, fails: the complete request frame `foreignRequest` starts
with byte 2 and the complete response frame `foreignResponse` with byte 13,
yet both decoded commands carry `Protocol = 1`. -/
theorem protocol_first_byte_counterexample :
    ((decodeRequest okCodec Ctx.fresh foreignRequest false).bind
        (fun r => r.cmd.map (fun c => c.RequestHeader.Protocol)) = some 1 ∧
      foreignRequest[0]? = some 2) ∧
    ((decodeResponse okCodec Ctx.fresh foreignResponse).bind
        (fun r => r.cmd.map (fun c => c.ResponseHeader.Protocol)) = some 1 ∧
      foreignResponse[0]? = some 13) := by
  rw [decodeRequest_complete okCodec Ctx.fresh foreignRequest false (by decide) (by decide),
    decodeResponse_complete okCodec Ctx.fresh foreignResponse (by decide) (by decide)]
  exact ⟨⟨rfl, rfl⟩, ⟨rfl, rfl⟩⟩

/-- C6, amended: on a complete frame the `Protocol` field of the command
returned by `decodeRequest` (and by `decodeResponse`) is the package constant
`ProtocolCode`, which is 1, whatever the first byte of the frame; so it
equals `b[0]` for the frames whose first byte is 1. -/
theorem protocol_is_constant (D : HeaderCodec) (ctx : Ctx) (b b2 : List Byte) (oneway : Bool)
    (h1 : 22 ≤ b.length) (h2 : requestFrameLen b ≤ b.length)
    (h3 : 20 ≤ b2.length) (h4 : responseFrameLen b2 ≤ b2.length) :
    (∃ r cmd, decodeRequest D ctx b oneway = some r ∧ r.cmd = some cmd ∧
        cmd.RequestHeader.Protocol = ProtocolCode ∧ cmd.RequestHeader.Protocol = 1 ∧
        (b[0]? = some 1 → b[0]? = some cmd.RequestHeader.Protocol)) ∧
    (∃ r cmd, decodeResponse D ctx b2 = some r ∧ r.cmd = some cmd ∧
        cmd.ResponseHeader.Protocol = ProtocolCode ∧ cmd.ResponseHeader.Protocol = 1 ∧
        (b2[0]? = some 1 → b2[0]? = some cmd.ResponseHeader.Protocol)) :=
  ⟨⟨_, _, decodeRequest_complete D ctx b oneway h1 h2, rfl, rfl, rfl, fun h => h⟩,
    ⟨_, _, decodeResponse_complete D ctx b2 h3 h4, rfl, rfl, rfl, fun h => h⟩⟩

/-- Witness of the amended C6 on the frames whose first byte is not 1. -/
theorem protocol_is_constant_witness :
    (∃ r cmd, decodeRequest failCodec Ctx.fresh foreignRequest true = some r ∧
        r.cmd = some cmd ∧
        cmd.RequestHeader.Protocol = ProtocolCode ∧ cmd.RequestHeader.Protocol = 1 ∧
        (foreignRequest[0]? = some 1 → foreignRequest[0]? = some cmd.RequestHeader.Protocol)) ∧
    (∃ r cmd, decodeResponse failCodec Ctx.fresh foreignResponse = some r ∧
        r.cmd = some cmd ∧
        cmd.ResponseHeader.Protocol = ProtocolCode ∧ cmd.ResponseHeader.Protocol = 1 ∧
        (foreignResponse[0]? = some 1 → foreignResponse[0]? = some cmd.ResponseHeader.Protocol)) :=
  protocol_is_constant failCodec Ctx.fresh foreignRequest foreignResponse true
    (by decide) (by decide) (by decide) (by decide)

/-- C7, as stated, fails: `onewayRequest` has `b[1] = 2` but decoded with
`oneway = false` its command has `CmdType = 1`; `sampleRequest` has
`b[1] = 1` but decoded with `oneway = true` its command has `CmdType = 2`;
`mistypedResponse` has `b[1] = 1` but its command has `CmdType = 0`. -/
theorem cmd_type_second_byte_counterexample :
    ((decodeRequest okCodec Ctx.fresh onewayRequest false).bind
        (fun r => r.cmd.map (fun c => c.RequestHeader.CmdType)) = some 1 ∧
      onewayRequest[1]? = some 2) ∧
    ((decodeRequest okCodec Ctx.fresh sampleRequest true).bind
        (fun r => r.cmd.map (fun c => c.RequestHeader.CmdType)) = some 2 ∧
      sampleRequest[1]? = some 1) ∧
    ((decodeResponse okCodec Ctx.fresh mistypedResponse).bind
        (fun r => r.cmd.map (fun c => c.ResponseHeader.CmdType)) = some 0 ∧
      mistypedResponse[1]? = some 1) := by
  rw [decodeRequest_complete okCodec Ctx.fresh onewayRequest false (by decide) (by decide),
    decodeRequest_complete okCodec Ctx.fresh sampleRequest true (by decide) (by decide),
    decodeResponse_complete okCodec Ctx.fresh mistypedResponse (by decide) (by decide)]
  exact ⟨⟨rfl, rfl⟩, ⟨rfl, rfl⟩, ⟨rfl, rfl⟩⟩

/-- C7, amended: on a complete frame the `CmdType` of the command returned by
`decodeRequest` is decided by the `oneway` argument alone, `CmdTypeRequestOneway`
(2) when it is set and `CmdTypeRequest` (1) otherwise, and the `CmdType` of
the command returned by `decodeResponse` is `CmdTypeResponse` (0), whatever
the byte `b[1]`; so it equals `b[1]` for the frames whose byte `b[1]` is
that value. -/
theorem cmd_type_from_call (D : HeaderCodec) (ctx : Ctx) (b b2 : List Byte) (oneway : Bool)
    (h1 : 22 ≤ b.length) (h2 : requestFrameLen b ≤ b.length)
    (h3 : 20 ≤ b2.length) (h4 : responseFrameLen b2 ≤ b2.length) :
    (∃ r cmd, decodeRequest D ctx b oneway = some r ∧ r.cmd = some cmd ∧
        cmd.RequestHeader.CmdType = (if oneway then CmdTypeRequestOneway else CmdTypeRequest) ∧
        cmd.RequestHeader.CmdType = (if oneway then 2 else 1) ∧
        (b[1]? = some (if oneway then 2 else 1) → b[1]? = some cmd.RequestHeader.CmdType)) ∧
    (∃ r cmd, decodeResponse D ctx b2 = some r ∧ r.cmd = some cmd ∧
        cmd.ResponseHeader.CmdType = CmdTypeResponse ∧ cmd.ResponseHeader.CmdType = 0 ∧
        (b2[1]? = some 0 → b2[1]? = some cmd.ResponseHeader.CmdType)) := by
  refine ⟨⟨_, _, decodeRequest_complete D ctx b oneway h1 h2, rfl, rfl, ?_, ?_⟩,
    ⟨_, _, decodeResponse_complete D ctx b2 h3 h4, rfl, rfl, rfl, fun h => h⟩⟩
  · cases oneway <;> rfl
  · cases oneway <;> exact fun h => h

/-- Witness of the amended C7 on frames whose byte `b[1]` differs from the
command type of the call. -/
theorem cmd_type_from_call_witness :
    (∃ r cmd, decodeRequest okCodec Ctx.fresh onewayRequest false = some r ∧
        r.cmd = some cmd ∧
        cmd.RequestHeader.CmdType = (if false then CmdTypeRequestOneway else CmdTypeRequest) ∧
        cmd.RequestHeader.CmdType = (if false then 2 else 1) ∧
        (onewayRequest[1]? = some (if false then 2 else 1) →
          onewayRequest[1]? = some cmd.RequestHeader.CmdType)) ∧
    (∃ r cmd, decodeResponse okCodec Ctx.fresh mistypedResponse = some r ∧
        r.cmd = some cmd ∧
        cmd.ResponseHeader.CmdType = CmdTypeResponse ∧ cmd.ResponseHeader.CmdType = 0 ∧
        (mistypedResponse[1]? = some 0 → mistypedResponse[1]? = some cmd.ResponseHeader.CmdType)) :=
  cmd_type_from_call okCodec Ctx.fresh onewayRequest mistypedResponse false
    (by decide) (by decide) (by decide) (by decide)


/-! ## Sections -/

/-- C8 (section slicing partitions the frame): on a buffer `b` holding a
complete request frame of length `frameLen`, the decoded command has raw
data (and `Data`) `b[0:frameLen]` and `rawMeta = b[0:22]`; when `classLen > 0`
its class bytes are `b[22 : 22+classLen]` and `Class` is that byte string;
when `headerLen > 0` its header bytes are `b[22+classLen : 22+classLen+headerLen]`;
when `contentLen > 0` its content bytes (and `Content`) are
`b[22+classLen+headerLen : frameLen]`; each section has exactly the declared
length, and meta, class, header and content concatenated give `b[0:frameLen]`.
The same for `decodeResponse` on a buffer `b2` with 20 in place of 22. -/
theorem section_slicing (D : HeaderCodec) (ctx : Ctx) (b b2 : List Byte) (oneway : Bool)
    (h1 : 22 ≤ b.length) (h2 : requestFrameLen b ≤ b.length)
    (h3 : 20 ≤ b2.length) (h4 : responseFrameLen b2 ≤ b2.length) :
    (∃ r cmd, decodeRequest D ctx b oneway = some r ∧ r.cmd = some cmd ∧
        cmd.rawData = b.take (requestFrameLen b) ∧
        cmd.Data = some (b.take (requestFrameLen b)) ∧
        cmd.rawMeta = b.take 22 ∧
        (0 < be16 b 14 →
          cmd.rawClass = (b.take (22 + be16 b 14)).drop 22 ∧
          cmd.RequestHeader.Class = cmd.rawClass ∧ cmd.rawClass.length = be16 b 14) ∧
        (0 < be16 b 16 →
          cmd.rawHeader = (b.take (22 + be16 b 14 + be16 b 16)).drop (22 + be16 b 14) ∧
          cmd.rawHeader.length = be16 b 16) ∧
        (0 < be32 b 18 →
          cmd.rawContent = (b.take (requestFrameLen b)).drop (22 + be16 b 14 + be16 b 16) ∧
          cmd.Content = some cmd.rawContent ∧ cmd.rawContent.length = be32 b 18) ∧
        cmd.rawMeta ++ (if 0 < be16 b 14 then cmd.rawClass else [])
            ++ (if 0 < be16 b 16 then cmd.rawHeader else [])
            ++ (if 0 < be32 b 18 then cmd.rawContent else [])
          = b.take (requestFrameLen b)) ∧
    (∃ r cmd, decodeResponse D ctx b2 = some r ∧ r.cmd = some cmd ∧
        cmd.rawData = b2.take (responseFrameLen b2) ∧
        cmd.Data = some (b2.take (responseFrameLen b2)) ∧
        cmd.rawMeta = b2.take 20 ∧
        (0 < be16 b2 12 →
          cmd.rawClass = (b2.take (20 + be16 b2 12)).drop 20 ∧
          cmd.ResponseHeader.Class = cmd.rawClass ∧ cmd.rawClass.length = be16 b2 12) ∧
        (0 < be16 b2 14 →
          cmd.rawHeader = (b2.take (20 + be16 b2 12 + be16 b2 14)).drop (20 + be16 b2 12) ∧
          cmd.rawHeader.length = be16 b2 14) ∧
        (0 < be32 b2 16 →
          cmd.rawContent
            = (b2.take (responseFrameLen b2)).drop (20 + be16 b2 12 + be16 b2 14) ∧
          cmd.Content = some cmd.rawContent ∧ cmd.rawContent.length = be32 b2 16) ∧
        cmd.rawMeta ++ (if 0 < be16 b2 12 then cmd.rawClass else [])
            ++ (if 0 < be16 b2 14 then cmd.rawHeader else [])
            ++ (if 0 < be32 b2 16 then cmd.rawContent else [])
          = b2.take (responseFrameLen b2)) := by
  constructor
  · refine ⟨_, _, decodeRequest_complete D ctx b oneway h1 h2, rfl, rfl, rfl, ?_⟩
    have hF : requestFrameLen b = 22 + be16 b 14 + be16 b 16 + be32 b 18 := rfl
    have t1 : (b.take (requestFrameLen b)).take 22 = b.take 22 :=
      take_take_le b (by omega)
    have t2 : (b.take (requestFrameLen b)).take (22 + be16 b 14) = b.take (22 + be16 b 14) :=
      take_take_le b (by omega)
    have t3 : (b.take (requestFrameLen b)).take (22 + be16 b 14 + be16 b 16)
        = b.take (22 + be16 b 14 + be16 b 16) := take_take_le b (by omega)
    simp only [requestValue, t1, t2, t3]
    refine ⟨trivial, ?_, ?_, ?_, ?_⟩
    · intro hc
      rw [if_pos hc, if_pos hc]
      exact ⟨rfl, rfl, length_section b 22 _ (by omega)⟩
    · intro hh
      rw [if_pos hh]
      exact ⟨rfl, length_section b (22 + be16 b 14) _ (by omega)⟩
    · intro hn
      rw [if_pos hn, if_pos hn]
      refine ⟨rfl, rfl, ?_⟩
      rw [hF]; exact length_section b (22 + be16 b 14 + be16 b 16) _ (by omega)
    · have c0 : (if 0 < be16 b 14 then
            (if 0 < be16 b 14 then (b.take (22 + be16 b 14)).drop 22 else ctx.request.rawClass)
          else []) = (b.take (22 + be16 b 14)).drop 22 := by
        by_cases hc : 0 < be16 b 14
        · rw [if_pos hc, if_pos hc]
        · rw [if_neg hc, Nat.eq_zero_of_not_pos hc, section_eq_nil]
      have c1 : (if 0 < be16 b 16 then
            (if 0 < be16 b 16 then
              (b.take (22 + be16 b 14 + be16 b 16)).drop (22 + be16 b 14)
            else ctx.request.rawHeader)
          else []) = (b.take (22 + be16 b 14 + be16 b 16)).drop (22 + be16 b 14) := by
        by_cases hh : 0 < be16 b 16
        · rw [if_pos hh, if_pos hh]
        · rw [if_neg hh, Nat.eq_zero_of_not_pos hh, section_eq_nil]
      have c2 : (if 0 < be32 b 18 then
            (if 0 < be32 b 18 then
              (b.take (requestFrameLen b)).drop (22 + be16 b 14 + be16 b 16)
            else ctx.request.rawContent)
          else []) = (b.take (requestFrameLen b)).drop (22 + be16 b 14 + be16 b 16) := by
        by_cases hn : 0 < be32 b 18
        · rw [if_pos hn, if_pos hn]
        · rw [if_neg hn, hF, Nat.eq_zero_of_not_pos hn, section_eq_nil]
      rw [c0, c1, c2, hF]
      exact sections_concat b 22 _ _ _
  · refine ⟨_, _, decodeResponse_complete D ctx b2 h3 h4, rfl, rfl, rfl, ?_⟩
    have hF : responseFrameLen b2 = 20 + be16 b2 12 + be16 b2 14 + be32 b2 16 := rfl
    have t1 : (b2.take (responseFrameLen b2)).take 20 = b2.take 20 :=
      take_take_le b2 (by omega)
    have t2 : (b2.take (responseFrameLen b2)).take (20 + be16 b2 12)
        = b2.take (20 + be16 b2 12) := take_take_le b2 (by omega)
    have t3 : (b2.take (responseFrameLen b2)).take (20 + be16 b2 12 + be16 b2 14)
        = b2.take (20 + be16 b2 12 + be16 b2 14) := take_take_le b2 (by omega)
    simp only [responseValue, t1, t2, t3]
    refine ⟨trivial, ?_, ?_, ?_, ?_⟩
    · intro hc
      rw [if_pos hc, if_pos hc]
      exact ⟨rfl, rfl, length_section b2 20 _ (by omega)⟩
    · intro hh
      rw [if_pos hh]
      exact ⟨rfl, length_section b2 (20 + be16 b2 12) _ (by omega)⟩
    · intro hn
      rw [if_pos hn, if_pos hn]
      refine ⟨rfl, rfl, ?_⟩
      rw [hF]; exact length_section b2 (20 + be16 b2 12 + be16 b2 14) _ (by omega)
    · have c0 : (if 0 < be16 b2 12 then
            (if 0 < be16 b2 12 then (b2.take (20 + be16 b2 12)).drop 20
              else ctx.response.rawClass)
          else []) = (b2.take (20 + be16 b2 12)).drop 20 := by
        by_cases hc : 0 < be16 b2 12
        · rw [if_pos hc, if_pos hc]
        · rw [if_neg hc, Nat.eq_zero_of_not_pos hc, section_eq_nil]
      have c1 : (if 0 < be16 b2 14 then
            (if 0 < be16 b2 14 then
              (b2.take (20 + be16 b2 12 + be16 b2 14)).drop (20 + be16 b2 12)
            else ctx.response.rawHeader)
          else []) = (b2.take (20 + be16 b2 12 + be16 b2 14)).drop (20 + be16 b2 12) := by
        by_cases hh : 0 < be16 b2 14
        · rw [if_pos hh, if_pos hh]
        · rw [if_neg hh, Nat.eq_zero_of_not_pos hh, section_eq_nil]
      have c2 : (if 0 < be32 b2 16 then
            (if 0 < be32 b2 16 then
              (b2.take (responseFrameLen b2)).drop (20 + be16 b2 12 + be16 b2 14)
            else ctx.response.rawContent)
          else []) = (b2.take (responseFrameLen b2)).drop (20 + be16 b2 12 + be16 b2 14) := by
        by_cases hn : 0 < be32 b2 16
        · rw [if_pos hn, if_pos hn]
        · rw [if_neg hn, hF, Nat.eq_zero_of_not_pos hn, section_eq_nil]
      rw [c0, c1, c2, hF]
      exact sections_concat b2 20 _ _ _


/-- Witness of C8 on `sampleRequest` and `sampleResponse`, whose three
sections are all non-empty. -/
theorem section_slicing_witness :
    (∃ r cmd, decodeRequest okCodec Ctx.fresh sampleRequest false = some r ∧
        r.cmd = some cmd ∧
        cmd.rawData = sampleRequest.take (requestFrameLen sampleRequest) ∧
        cmd.Data = some (sampleRequest.take (requestFrameLen sampleRequest)) ∧
        cmd.rawMeta = sampleRequest.take 22 ∧
        (0 < be16 sampleRequest 14 →
          cmd.rawClass = (sampleRequest.take (22 + be16 sampleRequest 14)).drop 22 ∧
          cmd.RequestHeader.Class = cmd.rawClass ∧ cmd.rawClass.length = be16 sampleRequest 14) ∧
        (0 < be16 sampleRequest 16 →
          cmd.rawHeader
            = (sampleRequest.take (22 + be16 sampleRequest 14 + be16 sampleRequest 16)).drop
                (22 + be16 sampleRequest 14) ∧
          cmd.rawHeader.length = be16 sampleRequest 16) ∧
        (0 < be32 sampleRequest 18 →
          cmd.rawContent
            = (sampleRequest.take (requestFrameLen sampleRequest)).drop
                (22 + be16 sampleRequest 14 + be16 sampleRequest 16) ∧
          cmd.Content = some cmd.rawContent ∧ cmd.rawContent.length = be32 sampleRequest 18) ∧
        cmd.rawMeta ++ (if 0 < be16 sampleRequest 14 then cmd.rawClass else [])
            ++ (if 0 < be16 sampleRequest 16 then cmd.rawHeader else [])
            ++ (if 0 < be32 sampleRequest 18 then cmd.rawContent else [])
          = sampleRequest.take (requestFrameLen sampleRequest)) ∧
    (∃ r cmd, decodeResponse okCodec Ctx.fresh sampleResponse = some r ∧ r.cmd = some cmd ∧
        cmd.rawData = sampleResponse.take (responseFrameLen sampleResponse) ∧
        cmd.Data = some (sampleResponse.take (responseFrameLen sampleResponse)) ∧
        cmd.rawMeta = sampleResponse.take 20 ∧
        (0 < be16 sampleResponse 12 →
          cmd.rawClass = (sampleResponse.take (20 + be16 sampleResponse 12)).drop 20 ∧
          cmd.ResponseHeader.Class = cmd.rawClass ∧ cmd.rawClass.length = be16 sampleResponse 12) ∧
        (0 < be16 sampleResponse 14 →
          cmd.rawHeader
            = (sampleResponse.take (20 + be16 sampleResponse 12 + be16 sampleResponse 14)).drop
                (20 + be16 sampleResponse 12) ∧
          cmd.rawHeader.length = be16 sampleResponse 14) ∧
        (0 < be32 sampleResponse 16 →
          cmd.rawContent
            = (sampleResponse.take (responseFrameLen sampleResponse)).drop
                (20 + be16 sampleResponse 12 + be16 sampleResponse 14) ∧
          cmd.Content = some cmd.rawContent ∧ cmd.rawContent.length = be32 sampleResponse 16) ∧
        cmd.rawMeta ++ (if 0 < be16 sampleResponse 12 then cmd.rawClass else [])
            ++ (if 0 < be16 sampleResponse 14 then cmd.rawHeader else [])
            ++ (if 0 < be32 sampleResponse 16 then cmd.rawContent else [])
          = sampleResponse.take (responseFrameLen sampleResponse)) :=
  section_slicing okCodec Ctx.fresh sampleRequest sampleResponse false
    (by decide) (by decide) (by decide) (by decide)

/-! ## Errors -/

/-- C9 (a header-section decode failure is not fatal for the frame): on a
complete request frame with `headerLen > 0` whose header section the codec
rejects with error `e`, `decodeRequest` returns `e` together with a command;
exactly `frameLen` bytes have been drained; the fixed fields are those read
from the frame, the whole header of the command apart from the header map
(the ten fixed fields and the class name) being the one any other codec (for
instance a succeeding one) would have given; and the content section is
still sliced. The codec is handed the header section and the empty header
map the call has just reset. The same for `decodeResponse` on a
complete response frame `b2` rejected with `e2`. -/
theorem header_decode_failure (D : HeaderCodec) (ctx : Ctx) (b b2 : List Byte) (oneway : Bool)
    (e e2 : Error)
    (h1 : 22 ≤ b.length) (h2 : requestFrameLen b ≤ b.length) (h3 : 0 < be16 b 16)
    (h4 : (D ((b.take (22 + be16 b 14 + be16 b 16)).drop (22 + be16 b 14)) []).2 = some e)
    (h5 : 20 ≤ b2.length) (h6 : responseFrameLen b2 ≤ b2.length) (h7 : 0 < be16 b2 14)
    (h8 : (D ((b2.take (20 + be16 b2 12 + be16 b2 14)).drop (20 + be16 b2 12)) []).2
      = some e2) :
    (∃ r cmd, decodeRequest D ctx b oneway = some r ∧ r.err = some e ∧ r.cmd = some cmd ∧
        r.data = b.drop (requestFrameLen b) ∧
        cmd.RequestHeader.CmdCode = be16 b 2 ∧ cmd.RequestHeader.RequestId = be32 b 5 ∧
        cmd.RequestHeader.ClassLen = be16 b 14 ∧ cmd.RequestHeader.HeaderLen = be16 b 16 ∧
        cmd.RequestHeader.ContentLen = be32 b 18 ∧
        (∀ D2 : HeaderCodec, ∃ r2 cmd2, decodeRequest D2 ctx b oneway = some r2 ∧
          r2.cmd = some cmd2 ∧
          { cmd2.RequestHeader with BytesHeader := cmd.RequestHeader.BytesHeader }
            = cmd.RequestHeader) ∧
        (0 < be32 b 18 →
          cmd.rawContent = (b.take (requestFrameLen b)).drop (22 + be16 b 14 + be16 b 16) ∧
          cmd.Content = some cmd.rawContent)) ∧
    (∃ r cmd, decodeResponse D ctx b2 = some r ∧ r.err = some e2 ∧ r.cmd = some cmd ∧
        r.data = b2.drop (responseFrameLen b2) ∧
        cmd.ResponseHeader.CmdCode = be16 b2 2 ∧ cmd.ResponseHeader.RequestId = be32 b2 5 ∧
        cmd.ResponseHeader.ClassLen = be16 b2 12 ∧ cmd.ResponseHeader.HeaderLen = be16 b2 14 ∧
        cmd.ResponseHeader.ContentLen = be32 b2 16 ∧
        (∀ D2 : HeaderCodec, ∃ r2 cmd2, decodeResponse D2 ctx b2 = some r2 ∧
          r2.cmd = some cmd2 ∧
          { cmd2.ResponseHeader with BytesHeader := cmd.ResponseHeader.BytesHeader }
            = cmd.ResponseHeader) ∧
        (0 < be32 b2 16 →
          cmd.rawContent
            = (b2.take (responseFrameLen b2)).drop (20 + be16 b2 12 + be16 b2 14) ∧
          cmd.Content = some cmd.rawContent)) := by
  constructor
  · refine ⟨_, _, decodeRequest_complete D ctx b oneway h1 h2, ?_, rfl, rfl, rfl, rfl, rfl, rfl,
      rfl, ?_, ?_⟩
    · have hF : requestFrameLen b = 22 + be16 b 14 + be16 b 16 + be32 b 18 := rfl
      simp only [requestErr]
      rw [if_pos h3, take_take_le b (by omega), h4]
    · intro D2
      exact ⟨_, _, decodeRequest_complete D2 ctx b oneway h1 h2, rfl, rfl⟩
    · intro hn
      simp only [requestValue]
      rw [if_pos hn, if_pos hn]
      exact ⟨rfl, rfl⟩
  · refine ⟨_, _, decodeResponse_complete D ctx b2 h5 h6, ?_, rfl, rfl, rfl, rfl, rfl, rfl,
      rfl, ?_, ?_⟩
    · have hF : responseFrameLen b2 = 20 + be16 b2 12 + be16 b2 14 + be32 b2 16 := rfl
      simp only [responseErr]
      rw [if_pos h7, take_take_le b2 (by omega), h8]
    · intro D2
      exact ⟨_, _, decodeResponse_complete D2 ctx b2 h5 h6, rfl, rfl⟩
    · intro hn
      simp only [responseValue]
      rw [if_pos hn, if_pos hn]
      exact ⟨rfl, rfl⟩

/-- Witness of C9: the always-failing codec on `sampleRequest` and
`sampleResponse`, whose header sections have two bytes. -/
theorem header_decode_failure_witness :
    (∃ r cmd, decodeRequest failCodec Ctx.fresh sampleRequest false = some r ∧
        r.err = some "decode header error" ∧ r.cmd = some cmd ∧
        r.data = sampleRequest.drop (requestFrameLen sampleRequest) ∧
        cmd.RequestHeader.CmdCode = be16 sampleRequest 2 ∧
        cmd.RequestHeader.RequestId = be32 sampleRequest 5 ∧
        cmd.RequestHeader.ClassLen = be16 sampleRequest 14 ∧
        cmd.RequestHeader.HeaderLen = be16 sampleRequest 16 ∧
        cmd.RequestHeader.ContentLen = be32 sampleRequest 18 ∧
        (∀ D2 : HeaderCodec, ∃ r2 cmd2, decodeRequest D2 Ctx.fresh sampleRequest false = some r2 ∧
          r2.cmd = some cmd2 ∧
          { cmd2.RequestHeader with BytesHeader := cmd.RequestHeader.BytesHeader }
            = cmd.RequestHeader) ∧
        (0 < be32 sampleRequest 18 →
          cmd.rawContent
            = (sampleRequest.take (requestFrameLen sampleRequest)).drop
                (22 + be16 sampleRequest 14 + be16 sampleRequest 16) ∧
          cmd.Content = some cmd.rawContent)) ∧
    (∃ r cmd, decodeResponse failCodec Ctx.fresh sampleResponse = some r ∧
        r.err = some "decode header error" ∧ r.cmd = some cmd ∧
        r.data = sampleResponse.drop (responseFrameLen sampleResponse) ∧
        cmd.ResponseHeader.CmdCode = be16 sampleResponse 2 ∧
        cmd.ResponseHeader.RequestId = be32 sampleResponse 5 ∧
        cmd.ResponseHeader.ClassLen = be16 sampleResponse 12 ∧
        cmd.ResponseHeader.HeaderLen = be16 sampleResponse 14 ∧
        cmd.ResponseHeader.ContentLen = be32 sampleResponse 16 ∧
        (∀ D2 : HeaderCodec, ∃ r2 cmd2, decodeResponse D2 Ctx.fresh sampleResponse = some r2 ∧
          r2.cmd = some cmd2 ∧
          { cmd2.ResponseHeader with BytesHeader := cmd.ResponseHeader.BytesHeader }
            = cmd.ResponseHeader) ∧
        (0 < be32 sampleResponse 16 →
          cmd.rawContent
            = (sampleResponse.take (responseFrameLen sampleResponse)).drop
                (20 + be16 sampleResponse 12 + be16 sampleResponse 14) ∧
          cmd.Content = some cmd.rawContent)) :=
  header_decode_failure failCodec Ctx.fresh sampleRequest sampleResponse false
    "decode header error" "decode header error"
    (by decide) (by decide) (by decide) rfl (by decide) (by decide) (by decide) rfl

/-- C10, as stated, fails on its own witness input: the 22-byte request
header with content length bytes `FF FF FF FF` declares a frame of
4294967317 bytes, and `decodeRequest` answers `(nil, nil)`, the Incomplete
outcome, with no error; likewise the 20-byte response header declaring
4294967315 bytes. -/
theorem oversized_frame_counterexample :
    (decodeRequest okCodec Ctx.fresh oversizedRequestHeader false
        = some { cmd := none, err := none, data := oversizedRequestHeader, ctx := Ctx.fresh } ∧
      requestFrameLen oversizedRequestHeader = 4294967317) ∧
    (decodeResponse okCodec Ctx.fresh oversizedResponseHeader
        = some { cmd := none, err := none, data := oversizedResponseHeader, ctx := Ctx.fresh } ∧
      responseFrameLen oversizedResponseHeader = 4294967315) :=
  ⟨⟨decodeRequest_awaiting_body okCodec Ctx.fresh oversizedRequestHeader false
      (by decide) (by decide), by decide⟩,
    ⟨decodeResponse_awaiting_body okCodec Ctx.fresh oversizedResponseHeader
      (by decide) (by decide), by decide⟩⟩

/-- C10, amended: the decoders have no maximum frame length and never
report declared lengths as an error. Whenever the declared frame length of a
buffer holding the fixed header exceeds the bytes available, however large
it is, the outcome is Incomplete `(nil, nil)` with buffer and context
untouched; and an error is only ever returned together with a command. So
for every bound `M` below the largest length a header can declare there is a
header-only buffer declaring more than `M` on which the outcome is
Incomplete. -/
theorem no_maximum_frame_length (D : HeaderCodec) (ctx : Ctx) (oneway : Bool) (M : Nat)
    (hM : M < 4294967315) :
    (∀ b : List Byte, 22 ≤ b.length → b.length < requestFrameLen b →
        decodeRequest D ctx b oneway
          = some { cmd := none, err := none, data := b, ctx := ctx }) ∧
    (∀ b : List Byte, 20 ≤ b.length → b.length < responseFrameLen b →
        decodeResponse D ctx b
          = some { cmd := none, err := none, data := b, ctx := ctx }) ∧
    (∀ (b : List Byte) (r : Result Request),
        decodeRequest D ctx b oneway = some r → r.cmd = none → r.err = none) ∧
    (∀ (b : List Byte) (r : Result Response),
        decodeResponse D ctx b = some r → r.cmd = none → r.err = none) ∧
    (∃ b : List Byte, b.length = 22 ∧ M < requestFrameLen b ∧
        decodeRequest D ctx b oneway
          = some { cmd := none, err := none, data := b, ctx := ctx }) ∧
    (∃ b : List Byte, b.length = 20 ∧ M < responseFrameLen b ∧
        decodeResponse D ctx b
          = some { cmd := none, err := none, data := b, ctx := ctx }) := by
  refine ⟨fun b h1 h2 => decodeRequest_awaiting_body D ctx b oneway h1 h2,
    fun b h1 h2 => decodeResponse_awaiting_body D ctx b h1 h2, ?_, ?_, ?_, ?_⟩
  · intro b r hr hcmd
    by_cases hs : b.length < 22
    · rw [decodeRequest_awaiting_header D ctx b oneway hs] at hr
      cases hr; rfl
    · by_cases hp : b.length < requestFrameLen b
      · rw [decodeRequest_awaiting_body D ctx b oneway (by omega) hp] at hr
        cases hr; rfl
      · rw [decodeRequest_complete D ctx b oneway (by omega) (by omega)] at hr
        cases hr; cases hcmd
  · intro b r hr hcmd
    by_cases hs : b.length < 20
    · rw [decodeResponse_awaiting_header D ctx b hs] at hr
      cases hr; rfl
    · by_cases hp : b.length < responseFrameLen b
      · rw [decodeResponse_awaiting_body D ctx b (by omega) hp] at hr
        cases hr; rfl
      · rw [decodeResponse_complete D ctx b (by omega) (by omega)] at hr
        cases hr; cases hcmd
  · have hl : requestFrameLen oversizedRequestHeader = 4294967317 := by decide
    exact ⟨oversizedRequestHeader, by decide, by omega,
      decodeRequest_awaiting_body D ctx _ oneway (by decide) (by decide)⟩
  · have hl : responseFrameLen oversizedResponseHeader = 4294967315 := by decide
    exact ⟨oversizedResponseHeader, by decide, by omega,
      decodeResponse_awaiting_body D ctx _ (by decide) (by decide)⟩


/-- Witness of the amended C10 with a bound of 16 MiB. -/
theorem no_maximum_frame_length_witness :
    (∀ b : List Byte, 22 ≤ b.length → b.length < requestFrameLen b →
        decodeRequest okCodec Ctx.fresh b false
          = some { cmd := none, err := none, data := b, ctx := Ctx.fresh }) ∧
    (∀ b : List Byte, 20 ≤ b.length → b.length < responseFrameLen b →
        decodeResponse okCodec Ctx.fresh b
          = some { cmd := none, err := none, data := b, ctx := Ctx.fresh }) ∧
    (∀ (b : List Byte) (r : Result Request),
        decodeRequest okCodec Ctx.fresh b false = some r → r.cmd = none → r.err = none) ∧
    (∀ (b : List Byte) (r : Result Response),
        decodeResponse okCodec Ctx.fresh b = some r → r.cmd = none → r.err = none) ∧
    (∃ b : List Byte, b.length = 22 ∧ 16777216 < requestFrameLen b ∧
        decodeRequest okCodec Ctx.fresh b false
          = some { cmd := none, err := none, data := b, ctx := Ctx.fresh }) ∧
    (∃ b : List Byte, b.length = 20 ∧ 16777216 < responseFrameLen b ∧
        decodeResponse okCodec Ctx.fresh b
          = some { cmd := none, err := none, data := b, ctx := Ctx.fresh }) :=
  no_maximum_frame_length okCodec Ctx.fresh false 16777216 (by decide)

/-! ## Outcomes -/

/-- C11 (Incomplete is distinguishable from every error): for every buffer
and `oneway` flag `decodeRequest` returns, and its command is `nil` exactly
when the buffer is shorter than 22 bytes or shorter than the declared frame;
in that case the error is `nil`, and whenever the error is not `nil` the
command is not `nil`. The same for `decodeResponse` with header length 20. -/
theorem incomplete_distinguishable (D : HeaderCodec) (ctx : Ctx) (b : List Byte)
    (oneway : Bool) :
    (∃ r, decodeRequest D ctx b oneway = some r ∧
        (r.cmd = none ↔ (b.length < 22 ∨ b.length < requestFrameLen b)) ∧
        (r.cmd = none → r.err = none) ∧
        (r.err ≠ none → r.cmd ≠ none)) ∧
    (∃ r, decodeResponse D ctx b = some r ∧
        (r.cmd = none ↔ (b.length < 20 ∨ b.length < responseFrameLen b)) ∧
        (r.cmd = none → r.err = none) ∧
        (r.err ≠ none → r.cmd ≠ none)) := by
  constructor
  · by_cases hs : b.length < 22
    · exact ⟨_, decodeRequest_awaiting_header D ctx b oneway hs,
        ⟨fun _ => Or.inl hs, fun _ => rfl⟩, fun _ => rfl, fun h => absurd rfl h⟩
    · by_cases hp : b.length < requestFrameLen b
      · exact ⟨_, decodeRequest_awaiting_body D ctx b oneway (by omega) hp,
          ⟨fun _ => Or.inr hp, fun _ => rfl⟩, fun _ => rfl, fun h => absurd rfl h⟩
      · refine ⟨_, decodeRequest_complete D ctx b oneway (by omega) (by omega),
          ⟨fun h => ?_, fun h => ?_⟩, fun h => ?_, fun _ h => ?_⟩
        · cases h
        · omega
        · cases h
        · cases h
  · by_cases hs : b.length < 20
    · exact ⟨_, decodeResponse_awaiting_header D ctx b hs,
        ⟨fun _ => Or.inl hs, fun _ => rfl⟩, fun _ => rfl, fun h => absurd rfl h⟩
    · by_cases hp : b.length < responseFrameLen b
      · exact ⟨_, decodeResponse_awaiting_body D ctx b (by omega) hp,
          ⟨fun _ => Or.inr hp, fun _ => rfl⟩, fun _ => rfl, fun h => absurd rfl h⟩
      · refine ⟨_, decodeResponse_complete D ctx b (by omega) (by omega),
          ⟨fun h => ?_, fun h => ?_⟩, fun h => ?_, fun _ h => ?_⟩
        · cases h
        · omega
        · cases h
        · cases h

theorem requestValue_scenarioA (D : HeaderCodec) (prev : Request) :
    requestValue D prev scenarioA false =
      { scenarioACommand with
        rawClass := prev.rawClass, rawHeader := prev.rawHeader,
        rawContent := prev.rawContent, Content := prev.Content } := by
  have h14 : be16 scenarioA 14 = 0 := by decide
  have h16 : be16 scenarioA 16 = 0 := by decide
  have h18 : be32 scenarioA 18 = 0 := by decide
  have hF : requestFrameLen scenarioA = 22 := by decide
  simp only [requestValue, h14, h16, h18, hF, Nat.lt_irrefl, if_false]
  rfl

theorem requestErr_scenarioA (D : HeaderCodec) : requestErr D scenarioA = none := by
  have h16 : be16 scenarioA 16 = 0 := by decide
  simp only [requestErr, h16, Nat.lt_irrefl, if_false]

/-- C12, as stated, fails on the content: when the context has served an
earlier call on the frame of `sampleRequest` (class `A`, header bytes `07 08`,
content `09 09 09`), `decodeRequest` with `oneway = false` on the 22 bytes of
scenario A returns, with `nil` error and an empty buffer, a command whose
class and header map are empty but whose content is `09 09 09` and whose raw
header bytes are `07 08`, not an empty content and header. -/
theorem scenario_A_counterexample :
    ∃ r1 r2 cmd, decodeRequest okCodec Ctx.fresh sampleRequestFrame false = some r1 ∧
      decodeRequest okCodec r1.ctx scenarioA false = some r2 ∧ r2.cmd = some cmd ∧
      r2.err = none ∧ r2.data = [] ∧
      cmd.RequestHeader.Class = [] ∧ cmd.RequestHeader.BytesHeader = [] ∧
      cmd.Content = some [9, 9, 9] ∧ cmd.rawContent = [9, 9, 9] ∧ cmd.rawHeader = [7, 8] := by
  refine ⟨_, _, _,
    decodeRequest_complete okCodec Ctx.fresh sampleRequestFrame false (by decide) (by decide),
    decodeRequest_complete okCodec _ scenarioA false (by decide) (by decide), rfl,
    requestErr_scenarioA okCodec, by decide, ?_⟩
  rw [requestValue_scenarioA]
  exact ⟨rfl, rfl, by decide, by decide, by decide⟩

/-- C12, amended: in every context, `decodeRequest` with `oneway = false` on
the 22 bytes of scenario A returns, with `nil` error, a command with protocol
1, command type 1, command code 1, version 1, request id 1, codec 1, timeout
0, the three lengths 0, an empty class and an empty header map, whose raw
data, meta bytes and `Data` are the 22 bytes, and drains the 22 bytes leaving
an empty buffer. The raw class, raw header and raw content bytes and the
content are not assigned by the call: they are the ones the pooled command of
the context held. When those are empty the command is exactly the one of the
scenario, with empty class, header and content; this is the case whenever the
pooled command starts from its zero value. -/
theorem scenario_A (D : HeaderCodec) (ctx : Ctx) :
    scenarioA.length = 22 ∧
    (∃ r cmd, decodeRequest D ctx scenarioA false = some r ∧ r.cmd = some cmd ∧
        r.err = none ∧ r.data = [] ∧
        cmd.RequestHeader =
          { Protocol := 1, CmdType := 1, CmdCode := 1, Version := 1, RequestId := 1, Codec := 1,
            Timeout := 0, ClassLen := 0, HeaderLen := 0, ContentLen := 0,
            Class := [], BytesHeader := [] } ∧
        cmd.rawData = scenarioA ∧ cmd.rawMeta = scenarioA ∧ cmd.Data = some scenarioA ∧
        cmd.rawClass = ctx.request.rawClass ∧ cmd.rawHeader = ctx.request.rawHeader ∧
        cmd.rawContent = ctx.request.rawContent ∧ cmd.Content = ctx.request.Content ∧
        (ctx.request.rawClass = [] → ctx.request.rawHeader = [] →
          ctx.request.rawContent = [] → ctx.request.Content = none →
          cmd = scenarioACommand)) ∧
    decodeRequest D { ctx with request := Request.zero } scenarioA false
      = some { cmd := some scenarioACommand, err := none, data := [],
               ctx := { ctx with request := scenarioACommand,
                                 VarRequestRawData := some scenarioA } } := by
  refine ⟨rfl, ?_, ?_⟩
  · refine ⟨_, _, decodeRequest_complete D ctx scenarioA false (by decide) (by decide), rfl,
      requestErr_scenarioA D, rfl, ?_⟩
    rw [requestValue_scenarioA]
    refine ⟨rfl, rfl, rfl, rfl, rfl, rfl, rfl, rfl, fun k1 k2 k3 k4 => ?_⟩
    rw [k1, k2, k3, k4]
    rfl
  · rw [decodeRequest_complete D _ scenarioA false (by decide) (by decide),
      requestValue_scenarioA, requestErr_scenarioA]
    rfl

/-! ## Dependence on the frame bytes only -/

theorem byteAt_take (b : List Byte) {n i : Nat} (h : i < n) :
    byteAt (b.take n) i = byteAt b i := by
  unfold byteAt
  simp [List.getD_eq_getElem?_getD, List.getElem?_take, h]

theorem getD_take (b : List Byte) {n i : Nat} (h : i < n) :
    (b.take n).getD i 0 = b.getD i 0 := by
  simp [List.getD_eq_getElem?_getD, List.getElem?_take, h]

theorem take_agree {b1 b2 : List Byte} {n k : Nat} (hk : k ≤ n)
    (h : b1.take n = b2.take n) : b1.take k = b2.take k := by
  rw [← take_take_le b1 hk, h, take_take_le b2 hk]

theorem byteAt_agree {b1 b2 : List Byte} {n i : Nat} (hi : i < n)
    (h : b1.take n = b2.take n) : byteAt b1 i = byteAt b2 i := by
  rw [← byteAt_take b1 hi, h, byteAt_take b2 hi]

theorem getD_agree {b1 b2 : List Byte} {n i : Nat} (hi : i < n)
    (h : b1.take n = b2.take n) : b1.getD i 0 = b2.getD i 0 := by
  rw [← getD_take b1 hi, h, getD_take b2 hi]

theorem be16_agree {b1 b2 : List Byte} {n i : Nat} (hi : i + 1 < n)
    (h : b1.take n = b2.take n) : be16 b1 i = be16 b2 i := by
  unfold be16
  rw [byteAt_agree (show i < n by omega) h, byteAt_agree hi h]

theorem be32_agree {b1 b2 : List Byte} {n i : Nat} (hi : i + 3 < n)
    (h : b1.take n = b2.take n) : be32 b1 i = be32 b2 i := by
  unfold be32
  rw [byteAt_agree (show i < n by omega) h, byteAt_agree (show i + 1 < n by omega) h,
    byteAt_agree (show i + 2 < n by omega) h, byteAt_agree hi h]

theorem requestFrameLen_ge (b : List Byte) : 22 ≤ requestFrameLen b := by
  unfold requestFrameLen; omega

theorem responseFrameLen_ge (b : List Byte) : 20 ≤ responseFrameLen b := by
  unfold responseFrameLen; omega

theorem request_agree (D : HeaderCodec) (prev : Request) (b1 b2 : List Byte) (ow : Bool)
    (h : b1.take (requestFrameLen b1) = b2.take (requestFrameLen b1)) :
    requestFrameLen b2 = requestFrameLen b1 ∧
    requestValue D prev b2 ow = requestValue D prev b1 ow ∧
    requestErr D b2 = requestErr D b1 := by
  have h22 : b1.take 22 = b2.take 22 := take_agree (requestFrameLen_ge b1) h
  have e2 : be16 b1 2 = be16 b2 2 := be16_agree (by omega) h22
  have e4 : b1.getD 4 0 = b2.getD 4 0 := getD_agree (by omega) h22
  have e5 : be32 b1 5 = be32 b2 5 := be32_agree (by omega) h22
  have e9 : b1.getD 9 0 = b2.getD 9 0 := getD_agree (by omega) h22
  have e10 : be32 b1 10 = be32 b2 10 := be32_agree (by omega) h22
  have e14 : be16 b1 14 = be16 b2 14 := be16_agree (by omega) h22
  have e16 : be16 b1 16 = be16 b2 16 := be16_agree (by omega) h22
  have e18 : be32 b1 18 = be32 b2 18 := be32_agree (by omega) h22
  have hF : requestFrameLen b2 = requestFrameLen b1 := by
    unfold requestFrameLen; rw [e14, e16, e18]
  refine ⟨hF, ?_, ?_⟩
  · simp only [requestValue, hF, ← h, ← e2, ← e4, ← e5, ← e9, ← e10, ← e14, ← e16, ← e18]
  · simp only [requestErr, hF, ← h, ← e14, ← e16]

theorem response_agree (D : HeaderCodec) (prev : Response) (b1 b2 : List Byte)
    (h : b1.take (responseFrameLen b1) = b2.take (responseFrameLen b1)) :
    responseFrameLen b2 = responseFrameLen b1 ∧
    responseValue D prev b2 = responseValue D prev b1 ∧
    responseErr D b2 = responseErr D b1 := by
  have h20 : b1.take 20 = b2.take 20 := take_agree (responseFrameLen_ge b1) h
  have e2 : be16 b1 2 = be16 b2 2 := be16_agree (by omega) h20
  have e4 : b1.getD 4 0 = b2.getD 4 0 := getD_agree (by omega) h20
  have e5 : be32 b1 5 = be32 b2 5 := be32_agree (by omega) h20
  have e9 : b1.getD 9 0 = b2.getD 9 0 := getD_agree (by omega) h20
  have e10 : be16 b1 10 = be16 b2 10 := be16_agree (by omega) h20
  have e12 : be16 b1 12 = be16 b2 12 := be16_agree (by omega) h20
  have e14 : be16 b1 14 = be16 b2 14 := be16_agree (by omega) h20
  have e16 : be32 b1 16 = be32 b2 16 := be32_agree (by omega) h20
  have hF : responseFrameLen b2 = responseFrameLen b1 := by
    unfold responseFrameLen; rw [e12, e14, e16]
  refine ⟨hF, ?_, ?_⟩
  · simp only [responseValue, hF, ← h, ← e2, ← e4, ← e5, ← e9, ← e10, ← e12, ← e14, ← e16]
  · simp only [responseErr, hF, ← h, ← e12, ← e14]

theorem requestValue_frame_fields (D : HeaderCodec) (p q : Request) (b : List Byte) (ow : Bool) :
    (requestValue D p b ow).RequestHeader = (requestValue D q b ow).RequestHeader ∧
    (requestValue D p b ow).rawData = (requestValue D q b ow).rawData ∧
    (requestValue D p b ow).rawMeta = (requestValue D q b ow).rawMeta ∧
    (requestValue D p b ow).Data = (requestValue D q b ow).Data ∧
    (0 < be16 b 14 →
      (requestValue D p b ow).rawClass = (requestValue D q b ow).rawClass) ∧
    (0 < be16 b 16 →
      (requestValue D p b ow).rawHeader = (requestValue D q b ow).rawHeader) ∧
    (0 < be32 b 18 →
      (requestValue D p b ow).rawContent = (requestValue D q b ow).rawContent ∧
      (requestValue D p b ow).Content = (requestValue D q b ow).Content) := by
  refine ⟨rfl, rfl, rfl, rfl, fun hc => ?_, fun hh => ?_, fun hn => ?_⟩
  · simp only [requestValue, if_pos hc]
  · simp only [requestValue, if_pos hh]
  · simp only [requestValue, if_pos hn, and_self]

theorem requestValue_kept (D : HeaderCodec) (p : Request) (b : List Byte) (ow : Bool) :
    (be16 b 14 = 0 → (requestValue D p b ow).rawClass = p.rawClass) ∧
    (be16 b 16 = 0 → (requestValue D p b ow).rawHeader = p.rawHeader) ∧
    (be32 b 18 = 0 →
      (requestValue D p b ow).rawContent = p.rawContent ∧
      (requestValue D p b ow).Content = p.Content) := by
  refine ⟨fun hc => ?_, fun hh => ?_, fun hn => ?_⟩
  · simp only [requestValue, hc, Nat.lt_irrefl, if_false]
  · simp only [requestValue, hh, Nat.lt_irrefl, if_false]
  · simp only [requestValue, hn, Nat.lt_irrefl, if_false, and_self]

theorem requestValue_congr (D : HeaderCodec) (p q : Request) (b : List Byte) (ow : Bool)
    (hc : 0 < be16 b 14 ∨ p.rawClass = q.rawClass)
    (hh : 0 < be16 b 16 ∨ p.rawHeader = q.rawHeader)
    (hn : 0 < be32 b 18 ∨ (p.rawContent = q.rawContent ∧ p.Content = q.Content)) :
    requestValue D p b ow = requestValue D q b ow := by
  have e1 : (requestValue D p b ow).rawClass = (requestValue D q b ow).rawClass := by
    rcases hc with hc | hc
    · simp only [requestValue, if_pos hc]
    · simp only [requestValue, hc]
  have e2 : (requestValue D p b ow).rawHeader = (requestValue D q b ow).rawHeader := by
    rcases hh with hh | hh
    · simp only [requestValue, if_pos hh]
    · simp only [requestValue, hh]
  have e3 : (requestValue D p b ow).rawContent = (requestValue D q b ow).rawContent := by
    rcases hn with hn | hn
    · simp only [requestValue, if_pos hn]
    · simp only [requestValue, hn.1]
  have e4 : (requestValue D p b ow).Content = (requestValue D q b ow).Content := by
    rcases hn with hn | hn
    · simp only [requestValue, if_pos hn]
    · simp only [requestValue, hn.2]
  have e : ∀ x y : Request, x.RequestHeader = y.RequestHeader → x.rawData = y.rawData →
      x.rawMeta = y.rawMeta → x.rawClass = y.rawClass → x.rawHeader = y.rawHeader →
      x.rawContent = y.rawContent → x.Data = y.Data → x.Content = y.Content → x = y := by
    intro x y a1 a2 a3 a4 a5 a6 a7 a8
    cases x; cases y
    simp only at a1 a2 a3 a4 a5 a6 a7 a8
    subst a1 a2 a3 a4 a5 a6 a7 a8
    rfl
  exact e _ _ rfl rfl rfl e1 e2 e3 rfl e4

theorem decodeRequest_append (D : HeaderCodec) (ctx : Ctx) (f1 f2 : List Byte) (ow : Bool)
    (h1 : 22 ≤ f1.length) (h2 : f1.length = requestFrameLen f1) :
    decodeRequest D ctx (f1 ++ f2) ow = some
      { cmd := some (requestValue D ctx.request f1 ow)
        err := requestErr D f1
        data := f2
        ctx := { ctx with
          request := requestValue D ctx.request f1 ow
          VarRequestRawData := some f1 } } := by
  have hF := requestFrameLen_append f1 f2 h1
  have hag : f1.take (requestFrameLen f1) = (f1 ++ f2).take (requestFrameLen f1) := by
    rw [← h2, List.take_left, List.take_length]
  obtain ⟨-, hv, he⟩ := request_agree D ctx.request f1 (f1 ++ f2) ow hag
  rw [decodeRequest_complete D ctx (f1 ++ f2) ow
      (by rw [List.length_append]; omega) (by rw [hF, List.length_append]; omega),
    hv, he, hF, ← h2, List.drop_left, List.take_left]

theorem decodeRequest_whole (D : HeaderCodec) (ctx : Ctx) (f : List Byte) (ow : Bool)
    (h1 : 22 ≤ f.length) (h2 : f.length = requestFrameLen f) :
    decodeRequest D ctx f ow = some
      { cmd := some (requestValue D ctx.request f ow)
        err := requestErr D f
        data := []
        ctx := { ctx with
          request := requestValue D ctx.request f ow
          VarRequestRawData := some f } } := by
  have h := decodeRequest_append D ctx f [] ow h1 h2
  rwa [List.append_nil] at h

theorem responseValue_frame_fields (D : HeaderCodec) (p q : Response) (b : List Byte) :
    (responseValue D p b).ResponseHeader = (responseValue D q b).ResponseHeader ∧
    (responseValue D p b).rawData = (responseValue D q b).rawData ∧
    (responseValue D p b).rawMeta = (responseValue D q b).rawMeta ∧
    (responseValue D p b).Data = (responseValue D q b).Data ∧
    (0 < be16 b 12 →
      (responseValue D p b).rawClass = (responseValue D q b).rawClass) ∧
    (0 < be16 b 14 →
      (responseValue D p b).rawHeader = (responseValue D q b).rawHeader) ∧
    (0 < be32 b 16 →
      (responseValue D p b).rawContent = (responseValue D q b).rawContent ∧
      (responseValue D p b).Content = (responseValue D q b).Content) := by
  refine ⟨rfl, rfl, rfl, rfl, fun hc => ?_, fun hh => ?_, fun hn => ?_⟩
  · simp only [responseValue, if_pos hc]
  · simp only [responseValue, if_pos hh]
  · simp only [responseValue, if_pos hn, and_self]

theorem responseValue_kept (D : HeaderCodec) (p : Response) (b : List Byte) :
    (be16 b 12 = 0 → (responseValue D p b).rawClass = p.rawClass) ∧
    (be16 b 14 = 0 → (responseValue D p b).rawHeader = p.rawHeader) ∧
    (be32 b 16 = 0 →
      (responseValue D p b).rawContent = p.rawContent ∧
      (responseValue D p b).Content = p.Content) := by
  refine ⟨fun hc => ?_, fun hh => ?_, fun hn => ?_⟩
  · simp only [responseValue, hc, Nat.lt_irrefl, if_false]
  · simp only [responseValue, hh, Nat.lt_irrefl, if_false]
  · simp only [responseValue, hn, Nat.lt_irrefl, if_false, and_self]

theorem responseValue_congr (D : HeaderCodec) (p q : Response) (b : List Byte)
    (hc : 0 < be16 b 12 ∨ p.rawClass = q.rawClass)
    (hh : 0 < be16 b 14 ∨ p.rawHeader = q.rawHeader)
    (hn : 0 < be32 b 16 ∨ (p.rawContent = q.rawContent ∧ p.Content = q.Content)) :
    responseValue D p b = responseValue D q b := by
  have e1 : (responseValue D p b).rawClass = (responseValue D q b).rawClass := by
    rcases hc with hc | hc
    · simp only [responseValue, if_pos hc]
    · simp only [responseValue, hc]
  have e2 : (responseValue D p b).rawHeader = (responseValue D q b).rawHeader := by
    rcases hh with hh | hh
    · simp only [responseValue, if_pos hh]
    · simp only [responseValue, hh]
  have e3 : (responseValue D p b).rawContent = (responseValue D q b).rawContent := by
    rcases hn with hn | hn
    · simp only [responseValue, if_pos hn]
    · simp only [responseValue, hn.1]
  have e4 : (responseValue D p b).Content = (responseValue D q b).Content := by
    rcases hn with hn | hn
    · simp only [responseValue, if_pos hn]
    · simp only [responseValue, hn.2]
  have e : ∀ x y : Response, x.ResponseHeader = y.ResponseHeader → x.rawData = y.rawData →
      x.rawMeta = y.rawMeta → x.rawClass = y.rawClass → x.rawHeader = y.rawHeader →
      x.rawContent = y.rawContent → x.Data = y.Data → x.Content = y.Content → x = y := by
    intro x y a1 a2 a3 a4 a5 a6 a7 a8
    cases x; cases y
    simp only at a1 a2 a3 a4 a5 a6 a7 a8
    subst a1 a2 a3 a4 a5 a6 a7 a8
    rfl
  exact e _ _ rfl rfl rfl e1 e2 e3 rfl e4

theorem decodeResponse_append (D : HeaderCodec) (ctx : Ctx) (f1 f2 : List Byte)
    (h1 : 20 ≤ f1.length) (h2 : f1.length = responseFrameLen f1) :
    decodeResponse D ctx (f1 ++ f2) = some
      { cmd := some (responseValue D ctx.response f1)
        err := responseErr D f1
        data := f2
        ctx := { ctx with
          response := responseValue D ctx.response f1
          VarResponseRawData := some f1 } } := by
  have hF := responseFrameLen_append f1 f2 h1
  have hag : f1.take (responseFrameLen f1) = (f1 ++ f2).take (responseFrameLen f1) := by
    rw [← h2, List.take_left, List.take_length]
  obtain ⟨-, hv, he⟩ := response_agree D ctx.response f1 (f1 ++ f2) hag
  rw [decodeResponse_complete D ctx (f1 ++ f2)
      (by rw [List.length_append]; omega) (by rw [hF, List.length_append]; omega),
    hv, he, hF, ← h2, List.drop_left, List.take_left]

theorem decodeResponse_whole (D : HeaderCodec) (ctx : Ctx) (f : List Byte)
    (h1 : 20 ≤ f.length) (h2 : f.length = responseFrameLen f) :
    decodeResponse D ctx f = some
      { cmd := some (responseValue D ctx.response f)
        err := responseErr D f
        data := []
        ctx := { ctx with
          response := responseValue D ctx.response f
          VarResponseRawData := some f } } := by
  have h := decodeResponse_append D ctx f [] h1 h2
  rwa [List.append_nil] at h

/-! ## Pipelined frames -/

/-- C13, as stated, fails for the second frame: on the frame of
`sampleRequest` followed by scenario A, the first call leaves scenario A in
the buffer, and the second call, made with the context the first call left,
returns a command with content `09 09 09` and raw header bytes `07 08`,
whereas decoding scenario A alone returns a command with no content and no
header bytes; the two commands differ. -/
theorem pipelined_frames_counterexample :
    ∃ r1 r2 c2 r3 c3,
      decodeRequest okCodec Ctx.fresh (sampleRequestFrame ++ scenarioA) false = some r1 ∧
      r1.data = scenarioA ∧
      decodeRequest okCodec r1.ctx r1.data false = some r2 ∧ r2.cmd = some c2 ∧
      decodeRequest okCodec Ctx.fresh scenarioA false = some r3 ∧ r3.cmd = some c3 ∧
      c2 ≠ c3 ∧
      (c2.rawHeader, c2.Content) = ([7, 8], some [9, 9, 9]) ∧
      (c3.rawHeader, c3.Content) = ([], none) := by
  refine ⟨_, _, _, _, _,
    decodeRequest_append okCodec Ctx.fresh sampleRequestFrame scenarioA false
      (by decide) (by decide), rfl,
    decodeRequest_complete okCodec _ scenarioA false (by decide) (by decide), rfl,
    decodeRequest_complete okCodec Ctx.fresh scenarioA false (by decide) (by decide), rfl,
    ?_⟩
  rw [requestValue_scenarioA, requestValue_scenarioA]
  exact ⟨by decide, by decide, by decide⟩

/-- C13, amended: for two well-formed request frames `f1` and `f2`,
`decodeRequest` on `f1 ++ f2` returns the command, error and context that
decoding `f1` alone in the same context returns, and leaves the buffer equal
to `f2`; calling `decodeRequest` again on that remainder, with the context
the first call left, returns a command and leaves the buffer empty. Compared
with decoding `f2` alone in any context `ctx3`, the second command has the
same error, the same header (fixed fields, class and header map), raw data,
meta bytes and `Data`, and the same raw class, raw header, raw content and
content wherever `f2` declares a positive length. Where `f2` declares length
0, the raw section (and the content) of the second command is the one of the
command of `f1`, and decoding `f2` alone gives the one of the pooled command
of `ctx3`. So the second command equals the command of `f2` alone when, for
each of the three sections, `f2` declares a positive length or the command
of `f1` holds what the pooled command of `ctx3` holds. The same for two
well-formed response frames `g1` and `g2` with `decodeResponse`. -/
theorem pipelined_frames (D : HeaderCodec) (ctx : Ctx) (f1 f2 g1 g2 : List Byte)
    (oneway : Bool)
    (h1 : 22 ≤ f1.length) (h2 : f1.length = requestFrameLen f1)
    (h3 : 22 ≤ f2.length) (h4 : f2.length = requestFrameLen f2)
    (h5 : 20 ≤ g1.length) (h6 : g1.length = responseFrameLen g1)
    (h7 : 20 ≤ g2.length) (h8 : g2.length = responseFrameLen g2) :
    (∃ r1 c1, decodeRequest D ctx (f1 ++ f2) oneway = some r1 ∧ r1.cmd = some c1 ∧
        r1.data = f2 ∧
        decodeRequest D ctx f1 oneway = some { r1 with data := [] } ∧
        ∃ r2 c2, decodeRequest D r1.ctx r1.data oneway = some r2 ∧
          r2.cmd = some c2 ∧ r2.data = [] ∧
          ∀ ctx3 : Ctx, ∃ r3 c3, decodeRequest D ctx3 f2 oneway = some r3 ∧
            r3.cmd = some c3 ∧ r3.data = [] ∧ r2.err = r3.err ∧
            c2.RequestHeader = c3.RequestHeader ∧ c2.rawData = c3.rawData ∧
            c2.rawMeta = c3.rawMeta ∧ c2.Data = c3.Data ∧
            (0 < be16 f2 14 → c2.rawClass = c3.rawClass) ∧
            (0 < be16 f2 16 → c2.rawHeader = c3.rawHeader) ∧
            (0 < be32 f2 18 → c2.rawContent = c3.rawContent ∧ c2.Content = c3.Content) ∧
            (be16 f2 14 = 0 →
              c2.rawClass = c1.rawClass ∧ c3.rawClass = ctx3.request.rawClass) ∧
            (be16 f2 16 = 0 →
              c2.rawHeader = c1.rawHeader ∧ c3.rawHeader = ctx3.request.rawHeader) ∧
            (be32 f2 18 = 0 →
              c2.rawContent = c1.rawContent ∧ c2.Content = c1.Content ∧
              c3.rawContent = ctx3.request.rawContent ∧ c3.Content = ctx3.request.Content) ∧
            ((0 < be16 f2 14 ∨ c1.rawClass = ctx3.request.rawClass) →
              (0 < be16 f2 16 ∨ c1.rawHeader = ctx3.request.rawHeader) →
              (0 < be32 f2 18 ∨
                (c1.rawContent = ctx3.request.rawContent ∧ c1.Content = ctx3.request.Content)) →
              c2 = c3)) ∧
    (∃ r1 c1, decodeResponse D ctx (g1 ++ g2) = some r1 ∧ r1.cmd = some c1 ∧
        r1.data = g2 ∧
        decodeResponse D ctx g1 = some { r1 with data := [] } ∧
        ∃ r2 c2, decodeResponse D r1.ctx r1.data = some r2 ∧
          r2.cmd = some c2 ∧ r2.data = [] ∧
          ∀ ctx3 : Ctx, ∃ r3 c3, decodeResponse D ctx3 g2 = some r3 ∧
            r3.cmd = some c3 ∧ r3.data = [] ∧ r2.err = r3.err ∧
            c2.ResponseHeader = c3.ResponseHeader ∧ c2.rawData = c3.rawData ∧
            c2.rawMeta = c3.rawMeta ∧ c2.Data = c3.Data ∧
            (0 < be16 g2 12 → c2.rawClass = c3.rawClass) ∧
            (0 < be16 g2 14 → c2.rawHeader = c3.rawHeader) ∧
            (0 < be32 g2 16 → c2.rawContent = c3.rawContent ∧ c2.Content = c3.Content) ∧
            (be16 g2 12 = 0 →
              c2.rawClass = c1.rawClass ∧ c3.rawClass = ctx3.response.rawClass) ∧
            (be16 g2 14 = 0 →
              c2.rawHeader = c1.rawHeader ∧ c3.rawHeader = ctx3.response.rawHeader) ∧
            (be32 g2 16 = 0 →
              c2.rawContent = c1.rawContent ∧ c2.Content = c1.Content ∧
              c3.rawContent = ctx3.response.rawContent ∧ c3.Content = ctx3.response.Content) ∧
            ((0 < be16 g2 12 ∨ c1.rawClass = ctx3.response.rawClass) →
              (0 < be16 g2 14 ∨ c1.rawHeader = ctx3.response.rawHeader) →
              (0 < be32 g2 16 ∨
                (c1.rawContent = ctx3.response.rawContent ∧ c1.Content = ctx3.response.Content)) →
              c2 = c3)) := by
  constructor
  · refine ⟨_, _, decodeRequest_append D ctx f1 f2 oneway h1 h2, rfl, rfl,
      decodeRequest_whole D ctx f1 oneway h1 h2, ?_⟩
    refine ⟨_, _, decodeRequest_whole D _ f2 oneway h3 h4, rfl, rfl, fun ctx3 => ?_⟩
    obtain ⟨a1, a2, a3, a4, a5, a6, a7⟩ :=
      requestValue_frame_fields D (requestValue D ctx.request f1 oneway) ctx3.request f2 oneway
    obtain ⟨b1, b2, b3⟩ := requestValue_kept D (requestValue D ctx.request f1 oneway) f2 oneway
    obtain ⟨d1, d2, d3⟩ := requestValue_kept D ctx3.request f2 oneway
    exact ⟨_, _, decodeRequest_whole D ctx3 f2 oneway h3 h4, rfl, rfl, rfl,
      a1, a2, a3, a4, a5, a6, a7,
      fun h => ⟨b1 h, d1 h⟩, fun h => ⟨b2 h, d2 h⟩,
      fun h => ⟨(b3 h).1, (b3 h).2, (d3 h).1, (d3 h).2⟩,
      fun x y z => requestValue_congr D _ _ f2 oneway x y z⟩
  · refine ⟨_, _, decodeResponse_append D ctx g1 g2 h5 h6, rfl, rfl,
      decodeResponse_whole D ctx g1 h5 h6, ?_⟩
    refine ⟨_, _, decodeResponse_whole D _ g2 h7 h8, rfl, rfl, fun ctx3 => ?_⟩
    obtain ⟨a1, a2, a3, a4, a5, a6, a7⟩ :=
      responseValue_frame_fields D (responseValue D ctx.response g1) ctx3.response g2
    obtain ⟨b1, b2, b3⟩ := responseValue_kept D (responseValue D ctx.response g1) g2
    obtain ⟨d1, d2, d3⟩ := responseValue_kept D ctx3.response g2
    exact ⟨_, _, decodeResponse_whole D ctx3 g2 h7 h8, rfl, rfl, rfl,
      a1, a2, a3, a4, a5, a6, a7,
      fun h => ⟨b1 h, d1 h⟩, fun h => ⟨b2 h, d2 h⟩,
      fun h => ⟨(b3 h).1, (b3 h).2, (d3 h).1, (d3 h).2⟩,
      fun x y z => responseValue_congr D _ _ g2 x y z⟩

/-- Witness of the amended C13: the frame of `sampleRequest` followed by
scenario A, and the frame of `sampleResponse` followed by `foreignResponse`. -/
theorem pipelined_frames_witness :
    (∃ r1 c1,
        decodeRequest okCodec Ctx.fresh (sampleRequestFrame ++ scenarioA) false = some r1 ∧
        r1.cmd = some c1 ∧
        r1.data = scenarioA ∧
        decodeRequest okCodec Ctx.fresh sampleRequestFrame false = some { r1 with data := [] } ∧
        ∃ r2 c2, decodeRequest okCodec r1.ctx r1.data false = some r2 ∧
          r2.cmd = some c2 ∧ r2.data = [] ∧
          ∀ ctx3 : Ctx, ∃ r3 c3, decodeRequest okCodec ctx3 scenarioA false = some r3 ∧
            r3.cmd = some c3 ∧ r3.data = [] ∧ r2.err = r3.err ∧
            c2.RequestHeader = c3.RequestHeader ∧ c2.rawData = c3.rawData ∧
            c2.rawMeta = c3.rawMeta ∧ c2.Data = c3.Data ∧
            (0 < be16 scenarioA 14 → c2.rawClass = c3.rawClass) ∧
            (0 < be16 scenarioA 16 → c2.rawHeader = c3.rawHeader) ∧
            (0 < be32 scenarioA 18 → c2.rawContent = c3.rawContent ∧ c2.Content = c3.Content) ∧
            (be16 scenarioA 14 = 0 →
              c2.rawClass = c1.rawClass ∧ c3.rawClass = ctx3.request.rawClass) ∧
            (be16 scenarioA 16 = 0 →
              c2.rawHeader = c1.rawHeader ∧ c3.rawHeader = ctx3.request.rawHeader) ∧
            (be32 scenarioA 18 = 0 →
              c2.rawContent = c1.rawContent ∧ c2.Content = c1.Content ∧
              c3.rawContent = ctx3.request.rawContent ∧ c3.Content = ctx3.request.Content) ∧
            ((0 < be16 scenarioA 14 ∨ c1.rawClass = ctx3.request.rawClass) →
              (0 < be16 scenarioA 16 ∨ c1.rawHeader = ctx3.request.rawHeader) →
              (0 < be32 scenarioA 18 ∨
                (c1.rawContent = ctx3.request.rawContent ∧ c1.Content = ctx3.request.Content)) →
              c2 = c3)) ∧
    (∃ r1 c1,
        decodeResponse okCodec Ctx.fresh (sampleResponseFrame ++ foreignResponse) = some r1 ∧
        r1.cmd = some c1 ∧
        r1.data = foreignResponse ∧
        decodeResponse okCodec Ctx.fresh sampleResponseFrame = some { r1 with data := [] } ∧
        ∃ r2 c2, decodeResponse okCodec r1.ctx r1.data = some r2 ∧
          r2.cmd = some c2 ∧ r2.data = [] ∧
          ∀ ctx3 : Ctx, ∃ r3 c3, decodeResponse okCodec ctx3 foreignResponse = some r3 ∧
            r3.cmd = some c3 ∧ r3.data = [] ∧ r2.err = r3.err ∧
            c2.ResponseHeader = c3.ResponseHeader ∧ c2.rawData = c3.rawData ∧
            c2.rawMeta = c3.rawMeta ∧ c2.Data = c3.Data ∧
            (0 < be16 foreignResponse 12 → c2.rawClass = c3.rawClass) ∧
            (0 < be16 foreignResponse 14 → c2.rawHeader = c3.rawHeader) ∧
            (0 < be32 foreignResponse 16 → c2.rawContent = c3.rawContent ∧
              c2.Content = c3.Content) ∧
            (be16 foreignResponse 12 = 0 →
              c2.rawClass = c1.rawClass ∧ c3.rawClass = ctx3.response.rawClass) ∧
            (be16 foreignResponse 14 = 0 →
              c2.rawHeader = c1.rawHeader ∧ c3.rawHeader = ctx3.response.rawHeader) ∧
            (be32 foreignResponse 16 = 0 →
              c2.rawContent = c1.rawContent ∧ c2.Content = c1.Content ∧
              c3.rawContent = ctx3.response.rawContent ∧ c3.Content = ctx3.response.Content) ∧
            ((0 < be16 foreignResponse 12 ∨ c1.rawClass = ctx3.response.rawClass) →
              (0 < be16 foreignResponse 14 ∨ c1.rawHeader = ctx3.response.rawHeader) →
              (0 < be32 foreignResponse 16 ∨
                (c1.rawContent = ctx3.response.rawContent ∧ c1.Content = ctx3.response.Content)) →
              c2 = c3)) :=
  pipelined_frames okCodec Ctx.fresh sampleRequestFrame scenarioA sampleResponseFrame
    foreignResponse false (by decide) (by decide) (by decide) (by decide)
    (by decide) (by decide) (by decide) (by decide)

/-! ## Round trip -/

theorem section_of_append (h x y : List Byte) :
    ((h ++ x ++ y).take (h.length + x.length)).drop h.length = x := by
  rw [← List.length_append, List.take_left, List.drop_left]

theorem u16_join (n : Nat) (h : n < 65536) :
    (toByte (n / 256)).val * 256 + (toByte n).val = n := by
  show n / 256 % 256 * 256 + n % 256 = n
  omega

theorem u32_join (n : Nat) (h : n < 4294967296) :
    (((toByte (n / 16777216)).val * 256 + (toByte (n / 65536)).val) * 256
      + (toByte (n / 256)).val) * 256 + (toByte n).val = n := by
  show ((n / 16777216 % 256 * 256 + n / 65536 % 256) * 256 + n / 256 % 256) * 256
    + n % 256 = n
  omega

theorem int32_wrap (t : Int) (h1 : -2147483648 ≤ t) (h2 : t < 2147483648) :
    int32 (t % 4294967296).toNat = t := by
  unfold int32
  split <;> omega

theorem encodeRequest_words (c : RequestFields)
    (h1 : c.cmdCode < 65536) (h2 : c.requestId < 4294967296)
    (h3 : -2147483648 ≤ c.timeout) (h4 : c.timeout < 2147483648)
    (h5 : c.className.length < 65536) (h6 : c.header.length < 65536)
    (h7 : c.content.length < 4294967296) :
    be16 (encodeRequest c) 2 = c.cmdCode ∧ (encodeRequest c).getD 4 0 = c.version ∧
    be32 (encodeRequest c) 5 = c.requestId ∧ (encodeRequest c).getD 9 0 = c.codec ∧
    int32 (be32 (encodeRequest c) 10) = c.timeout ∧
    be16 (encodeRequest c) 14 = c.className.length ∧
    be16 (encodeRequest c) 16 = c.header.length ∧
    be32 (encodeRequest c) 18 = c.content.length := by
  refine ⟨u16_join _ h1, rfl, u32_join _ h2, rfl, ?_, u16_join _ h5, u16_join _ h6,
    u32_join _ h7⟩
  have e : be32 (encodeRequest c) 10 = (c.timeout % 4294967296).toNat :=
    u32_join _ (by omega)
  rw [e]
  exact int32_wrap _ h3 h4

theorem encodeResponse_words (c : ResponseFields)
    (h1 : c.cmdCode < 65536) (h2 : c.requestId < 4294967296)
    (h3 : c.responseStatus < 65536)
    (h5 : c.className.length < 65536) (h6 : c.header.length < 65536)
    (h7 : c.content.length < 4294967296) :
    be16 (encodeResponse c) 2 = c.cmdCode ∧ (encodeResponse c).getD 4 0 = c.version ∧
    be32 (encodeResponse c) 5 = c.requestId ∧ (encodeResponse c).getD 9 0 = c.codec ∧
    be16 (encodeResponse c) 10 = c.responseStatus ∧
    be16 (encodeResponse c) 12 = c.className.length ∧
    be16 (encodeResponse c) 14 = c.header.length ∧
    be32 (encodeResponse c) 16 = c.content.length :=
  ⟨u16_join _ h1, rfl, u32_join _ h2, rfl, u16_join _ h3, u16_join _ h5, u16_join _ h6,
    u32_join _ h7⟩

theorem roundtrip_section (x prev : List Byte) (n : Nat) (hn : n = x.length) :
    (x ≠ [] → (if 0 < n then x else prev) = x) ∧
    (x = [] → (if 0 < n then x else prev) = prev) ∧
    (prev = [] → (if 0 < n then x else prev) = x) := by
  subst hn
  refine ⟨fun h => ?_, fun h => ?_, fun hp => ?_⟩
  · rw [if_pos (List.length_pos.mpr h)]
  · rw [h]; rfl
  · by_cases h : 0 < x.length
    · rw [if_pos h]
    · rw [if_neg h, hp]
      exact (List.length_eq_zero.mp (by omega)).symm

theorem roundtrip_content (x : List Byte) (prev : Option (List Byte)) (n : Nat)
    (hn : n = x.length) :
    (x ≠ [] → (if 0 < n then some x else prev) = some x) ∧
    (x = [] → (if 0 < n then some x else prev) = prev) ∧
    (prev = none → (if 0 < n then some x else prev) = (if x = [] then none else some x)) := by
  subst hn
  refine ⟨fun h => ?_, fun h => ?_, fun hp => ?_⟩
  · rw [if_pos (List.length_pos.mpr h)]
  · rw [h]; rfl
  · by_cases h : 0 < x.length
    · rw [if_pos h, if_neg (List.length_pos.mp h)]
    · rw [if_neg h, hp, if_pos (List.length_eq_zero.mp (by omega))]

theorem roundtrip_codec {β : Type} (x : List Byte) (a b : β) (n : Nat) (hn : n = x.length) :
    (if 0 < n then a else b) = (if x = [] then b else a) := by
  subst hn
  by_cases h : 0 < x.length
  · rw [if_pos h, if_neg (List.length_pos.mp h)]
  · rw [if_neg h, if_pos (List.length_eq_zero.mp (by omega))]

theorem encodeRequest_sections (c : RequestFields)
    (h1 : c.cmdCode < 65536) (h2 : c.requestId < 4294967296)
    (h3 : -2147483648 ≤ c.timeout) (h4 : c.timeout < 2147483648)
    (h5 : c.className.length < 65536) (h6 : c.header.length < 65536)
    (h7 : c.content.length < 4294967296) :
    (encodeRequest c).length = 22 + c.className.length + c.header.length + c.content.length ∧
    requestFrameLen (encodeRequest c) = (encodeRequest c).length ∧
    (((encodeRequest c).take (requestFrameLen (encodeRequest c))).take
        (22 + be16 (encodeRequest c) 14)).drop 22 = c.className ∧
    (((encodeRequest c).take (requestFrameLen (encodeRequest c))).take
        (22 + be16 (encodeRequest c) 14 + be16 (encodeRequest c) 16)).drop
        (22 + be16 (encodeRequest c) 14) = c.header ∧
    ((encodeRequest c).take (requestFrameLen (encodeRequest c))).drop
        (22 + be16 (encodeRequest c) 14 + be16 (encodeRequest c) 16) = c.content := by
  obtain ⟨-, -, -, -, -, w1, w2, w3⟩ := encodeRequest_words c h1 h2 h3 h4 h5 h6 h7
  have hl : (requestFixedHeader c).length = 22 := rfl
  have hlen : (encodeRequest c).length
      = 22 + c.className.length + c.header.length + c.content.length := by
    unfold encodeRequest
    rw [List.length_append, List.length_append, List.length_append, hl]
  have hF : requestFrameLen (encodeRequest c) = (encodeRequest c).length := by
    unfold requestFrameLen
    rw [w1, w2, w3, hlen]
  refine ⟨hlen, hF, ?_, ?_, ?_⟩
  · rw [hF, List.take_length, w1]
    have e := section_of_append (requestFixedHeader c) c.className (c.header ++ c.content)
    rw [← List.append_assoc, hl] at e
    exact e
  · rw [hF, List.take_length, w1, w2]
    have e := section_of_append (requestFixedHeader c ++ c.className) c.header c.content
    rw [List.length_append, hl] at e
    exact e
  · rw [hF, List.take_length, w1, w2]
    have e := List.drop_left (requestFixedHeader c ++ c.className ++ c.header) c.content
    rw [List.length_append, List.length_append, hl] at e
    exact e

theorem encodeResponse_sections (c : ResponseFields)
    (h1 : c.cmdCode < 65536) (h2 : c.requestId < 4294967296)
    (h3 : c.responseStatus < 65536)
    (h5 : c.className.length < 65536) (h6 : c.header.length < 65536)
    (h7 : c.content.length < 4294967296) :
    (encodeResponse c).length = 20 + c.className.length + c.header.length + c.content.length ∧
    responseFrameLen (encodeResponse c) = (encodeResponse c).length ∧
    (((encodeResponse c).take (responseFrameLen (encodeResponse c))).take
        (20 + be16 (encodeResponse c) 12)).drop 20 = c.className ∧
    (((encodeResponse c).take (responseFrameLen (encodeResponse c))).take
        (20 + be16 (encodeResponse c) 12 + be16 (encodeResponse c) 14)).drop
        (20 + be16 (encodeResponse c) 12) = c.header ∧
    ((encodeResponse c).take (responseFrameLen (encodeResponse c))).drop
        (20 + be16 (encodeResponse c) 12 + be16 (encodeResponse c) 14) = c.content := by
  obtain ⟨-, -, -, -, -, w1, w2, w3⟩ := encodeResponse_words c h1 h2 h3 h5 h6 h7
  have hl : (responseFixedHeader c).length = 20 := rfl
  have hlen : (encodeResponse c).length
      = 20 + c.className.length + c.header.length + c.content.length := by
    unfold encodeResponse
    rw [List.length_append, List.length_append, List.length_append, hl]
  have hF : responseFrameLen (encodeResponse c) = (encodeResponse c).length := by
    unfold responseFrameLen
    rw [w1, w2, w3, hlen]
  refine ⟨hlen, hF, ?_, ?_, ?_⟩
  · rw [hF, List.take_length, w1]
    have e := section_of_append (responseFixedHeader c) c.className (c.header ++ c.content)
    rw [← List.append_assoc, hl] at e
    exact e
  · rw [hF, List.take_length, w1, w2]
    have e := section_of_append (responseFixedHeader c ++ c.className) c.header c.content
    rw [List.length_append, hl] at e
    exact e
  · rw [hF, List.take_length, w1, w2]
    have e := List.drop_left (responseFixedHeader c ++ c.className ++ c.header) c.content
    rw [List.length_append, List.length_append, hl] at e
    exact e

/-- C14, as stated, fails for a command with an empty section: the request
with no class, header or content, serialised in the request layout (its
encoding is the 22 bytes of scenario A) and decoded in the context left by
the round trip of `sampleRequestFields`, comes back with raw header bytes
`07 08` and content `09 09 09` instead of the empty header and content it was
encoded with. -/
theorem round_trip_counterexample :
    ∃ r1 r2 cmd,
      decodeRequest okCodec Ctx.fresh (encodeRequest sampleRequestFields) false = some r1 ∧
      decodeRequest okCodec r1.ctx (encodeRequest bareRequestFields) false = some r2 ∧
      r2.cmd = some cmd ∧ r2.data = [] ∧
      (bareRequestFields.header, bareRequestFields.content) = ([], []) ∧
      (cmd.rawHeader, cmd.rawContent, cmd.Content) = ([7, 8], [9, 9, 9], some [9, 9, 9]) := by
  have e1 : encodeRequest sampleRequestFields
      = [1, 1, 0, 1, 1, 0, 0, 0, 7, 1, 255, 255, 255, 255, 0, 1, 0, 2, 0, 0, 0, 3,
         65, 7, 8, 9, 9, 9] := by decide
  have e2 : encodeRequest bareRequestFields = scenarioA := by decide
  rw [e1, e2]
  refine ⟨_, _, _, decodeRequest_whole okCodec Ctx.fresh _ false (by decide) (by decide),
    decodeRequest_whole okCodec _ scenarioA false (by decide) (by decide), rfl, rfl, rfl, ?_⟩
  rw [requestValue_scenarioA]
  decide

/-- C14, amended (round trip against the wire layout): a BOLT V1 request
command with a 16-bit command code, a 32-bit request id, a signed 32-bit
timeout, class and header sections shorter than 2^16 bytes and content
shorter than 2^32 bytes is serialised in the request layout with the three
lengths recomputed from the sections; `decodeRequest` on that encoding, in
any context, returns a command, consumes the whole encoding and reproduces
command code, version, request id, codec, timeout, the three lengths and the
class; its raw data is the encoding; the header map and the error are what
the codec makes of the header bytes, starting from an empty map (an empty
map and no error when there are no header bytes). Every non-empty section
is reproduced byte for byte in the raw class, raw header, raw content and
content. For an empty section these four fields are not assigned: they keep
what the pooled command of the context held, so they are reproduced exactly
when the pooled command holds nothing there, as it does in a context that
has decoded no command before. The same for response commands with the
response layout and `decodeResponse`. -/
theorem round_trip (D : HeaderCodec) (ctx : Ctx) (c : RequestFields) (c2 : ResponseFields)
    (oneway : Bool)
    (h1 : c.cmdCode < 65536) (h2 : c.requestId < 4294967296)
    (h3 : -2147483648 ≤ c.timeout) (h4 : c.timeout < 2147483648)
    (h5 : c.className.length < 65536) (h6 : c.header.length < 65536)
    (h7 : c.content.length < 4294967296)
    (g1 : c2.cmdCode < 65536) (g2 : c2.requestId < 4294967296)
    (g3 : c2.responseStatus < 65536)
    (g5 : c2.className.length < 65536) (g6 : c2.header.length < 65536)
    (g7 : c2.content.length < 4294967296) :
    (∃ r cmd, decodeRequest D ctx (encodeRequest c) oneway = some r ∧
        r.cmd = some cmd ∧ r.data = [] ∧
        cmd.RequestHeader.CmdCode = c.cmdCode ∧
        cmd.RequestHeader.Version = c.version ∧
        cmd.RequestHeader.RequestId = c.requestId ∧
        cmd.RequestHeader.Codec = c.codec ∧
        cmd.RequestHeader.Timeout = c.timeout ∧
        cmd.RequestHeader.ClassLen = c.className.length ∧
        cmd.RequestHeader.HeaderLen = c.header.length ∧
        cmd.RequestHeader.ContentLen = c.content.length ∧
        cmd.rawData = encodeRequest c ∧
        cmd.RequestHeader.Class = c.className ∧
        cmd.RequestHeader.BytesHeader
          = (if c.header = [] then [] else (D c.header []).1) ∧
        r.err = (if c.header = [] then none else (D c.header []).2) ∧
        (c.className ≠ [] → cmd.rawClass = c.className) ∧
        (c.header ≠ [] → cmd.rawHeader = c.header) ∧
        (c.content ≠ [] →
          cmd.rawContent = c.content ∧ cmd.Content = some c.content) ∧
        (c.className = [] → cmd.rawClass = ctx.request.rawClass) ∧
        (c.header = [] → cmd.rawHeader = ctx.request.rawHeader) ∧
        (c.content = [] →
          cmd.rawContent = ctx.request.rawContent ∧ cmd.Content = ctx.request.Content) ∧
        (ctx.request.rawClass = [] → cmd.rawClass = c.className) ∧
        (ctx.request.rawHeader = [] → cmd.rawHeader = c.header) ∧
        (ctx.request.rawContent = [] → cmd.rawContent = c.content) ∧
        (ctx.request.Content = none →
          cmd.Content = (if c.content = [] then none else some c.content))) ∧
    (∃ r cmd, decodeResponse D ctx (encodeResponse c2) = some r ∧
        r.cmd = some cmd ∧ r.data = [] ∧
        cmd.ResponseHeader.CmdCode = c2.cmdCode ∧
        cmd.ResponseHeader.Version = c2.version ∧
        cmd.ResponseHeader.RequestId = c2.requestId ∧
        cmd.ResponseHeader.Codec = c2.codec ∧
        cmd.ResponseHeader.ResponseStatus = c2.responseStatus ∧
        cmd.ResponseHeader.ClassLen = c2.className.length ∧
        cmd.ResponseHeader.HeaderLen = c2.header.length ∧
        cmd.ResponseHeader.ContentLen = c2.content.length ∧
        cmd.rawData = encodeResponse c2 ∧
        cmd.ResponseHeader.Class = c2.className ∧
        cmd.ResponseHeader.BytesHeader
          = (if c2.header = [] then [] else (D c2.header []).1) ∧
        r.err = (if c2.header = [] then none else (D c2.header []).2) ∧
        (c2.className ≠ [] → cmd.rawClass = c2.className) ∧
        (c2.header ≠ [] → cmd.rawHeader = c2.header) ∧
        (c2.content ≠ [] →
          cmd.rawContent = c2.content ∧ cmd.Content = some c2.content) ∧
        (c2.className = [] → cmd.rawClass = ctx.response.rawClass) ∧
        (c2.header = [] → cmd.rawHeader = ctx.response.rawHeader) ∧
        (c2.content = [] →
          cmd.rawContent = ctx.response.rawContent ∧ cmd.Content = ctx.response.Content) ∧
        (ctx.response.rawClass = [] → cmd.rawClass = c2.className) ∧
        (ctx.response.rawHeader = [] → cmd.rawHeader = c2.header) ∧
        (ctx.response.rawContent = [] → cmd.rawContent = c2.content) ∧
        (ctx.response.Content = none →
          cmd.Content = (if c2.content = [] then none else some c2.content))) := by
  constructor
  · obtain ⟨w2, w4, w5, w9, w10, w14, w16, w18⟩ := encodeRequest_words c h1 h2 h3 h4 h5 h6 h7
    obtain ⟨hlen, hF, s1, s2, s3⟩ := encodeRequest_sections c h1 h2 h3 h4 h5 h6 h7
    refine ⟨_, _, decodeRequest_whole D ctx (encodeRequest c) oneway (by omega) hF.symm, rfl, rfl,
      w2, w4, w5, w9, w10, w14, w16, w18, ?_, ?_⟩
    · show (encodeRequest c).take (requestFrameLen (encodeRequest c)) = _
      rw [hF, List.take_length]
    · simp only [requestValue, requestErr, s1, s2, s3]
      have k0 := roundtrip_section c.className [] _ w14
      have k1 := roundtrip_section c.className ctx.request.rawClass _ w14
      have k2 := roundtrip_section c.header ctx.request.rawHeader _ w16
      have k3 := roundtrip_section c.content ctx.request.rawContent _ w18
      have k4 := roundtrip_content c.content ctx.request.Content _ w18
      exact ⟨k0.2.2 rfl, roundtrip_codec _ _ _ _ w16, roundtrip_codec _ _ _ _ w16,
        k1.1, k2.1, fun h => ⟨k3.1 h, k4.1 h⟩,
        k1.2.1, k2.2.1, fun h => ⟨k3.2.1 h, k4.2.1 h⟩,
        k1.2.2, k2.2.2, k3.2.2, k4.2.2⟩
  · obtain ⟨w2, w4, w5, w9, w10, w14, w16, w18⟩ := encodeResponse_words c2 g1 g2 g3 g5 g6 g7
    obtain ⟨hlen, hF, s1, s2, s3⟩ := encodeResponse_sections c2 g1 g2 g3 g5 g6 g7
    refine ⟨_, _, decodeResponse_whole D ctx (encodeResponse c2) (by omega) hF.symm, rfl, rfl,
      w2, w4, w5, w9, w10, w14, w16, w18, ?_, ?_⟩
    · show (encodeResponse c2).take (responseFrameLen (encodeResponse c2)) = _
      rw [hF, List.take_length]
    · simp only [responseValue, responseErr, s1, s2, s3]
      have k0 := roundtrip_section c2.className [] _ w14
      have k1 := roundtrip_section c2.className ctx.response.rawClass _ w14
      have k2 := roundtrip_section c2.header ctx.response.rawHeader _ w16
      have k3 := roundtrip_section c2.content ctx.response.rawContent _ w18
      have k4 := roundtrip_content c2.content ctx.response.Content _ w18
      exact ⟨k0.2.2 rfl, roundtrip_codec _ _ _ _ w16, roundtrip_codec _ _ _ _ w16,
        k1.1, k2.1, fun h => ⟨k3.1 h, k4.1 h⟩,
        k1.2.1, k2.2.1, fun h => ⟨k3.2.1 h, k4.2.1 h⟩,
        k1.2.2, k2.2.2, k3.2.2, k4.2.2⟩

/-- Witness of the amended C14 on `sampleRequestFields` (timeout -1, three
non-empty sections) and `sampleResponseFields` (empty class and header). -/
theorem round_trip_witness :
    (∃ r cmd, decodeRequest okCodec Ctx.fresh (encodeRequest sampleRequestFields) false = some r ∧
        r.cmd = some cmd ∧ r.data = [] ∧
        cmd.RequestHeader.CmdCode = sampleRequestFields.cmdCode ∧
        cmd.RequestHeader.Version = sampleRequestFields.version ∧
        cmd.RequestHeader.RequestId = sampleRequestFields.requestId ∧
        cmd.RequestHeader.Codec = sampleRequestFields.codec ∧
        cmd.RequestHeader.Timeout = sampleRequestFields.timeout ∧
        cmd.RequestHeader.ClassLen = sampleRequestFields.className.length ∧
        cmd.RequestHeader.HeaderLen = sampleRequestFields.header.length ∧
        cmd.RequestHeader.ContentLen = sampleRequestFields.content.length ∧
        cmd.rawData = encodeRequest sampleRequestFields ∧
        cmd.RequestHeader.Class = sampleRequestFields.className ∧
        cmd.RequestHeader.BytesHeader
          = (if sampleRequestFields.header = [] then []
              else (okCodec sampleRequestFields.header []).1) ∧
        r.err = (if sampleRequestFields.header = [] then none
            else (okCodec sampleRequestFields.header []).2) ∧
        (sampleRequestFields.className ≠ [] → cmd.rawClass = sampleRequestFields.className) ∧
        (sampleRequestFields.header ≠ [] → cmd.rawHeader = sampleRequestFields.header) ∧
        (sampleRequestFields.content ≠ [] →
          cmd.rawContent = sampleRequestFields.content ∧
            cmd.Content = some sampleRequestFields.content) ∧
        (sampleRequestFields.className = [] → cmd.rawClass = Ctx.fresh.request.rawClass) ∧
        (sampleRequestFields.header = [] → cmd.rawHeader = Ctx.fresh.request.rawHeader) ∧
        (sampleRequestFields.content = [] →
          cmd.rawContent = Ctx.fresh.request.rawContent ∧ cmd.Content = Ctx.fresh.request.Content) ∧
        (Ctx.fresh.request.rawClass = [] → cmd.rawClass = sampleRequestFields.className) ∧
        (Ctx.fresh.request.rawHeader = [] → cmd.rawHeader = sampleRequestFields.header) ∧
        (Ctx.fresh.request.rawContent = [] → cmd.rawContent = sampleRequestFields.content) ∧
        (Ctx.fresh.request.Content = none →
          cmd.Content = (if sampleRequestFields.content = [] then none
              else some sampleRequestFields.content))) ∧
    (∃ r cmd, decodeResponse okCodec Ctx.fresh (encodeResponse sampleResponseFields) = some r ∧
        r.cmd = some cmd ∧ r.data = [] ∧
        cmd.ResponseHeader.CmdCode = sampleResponseFields.cmdCode ∧
        cmd.ResponseHeader.Version = sampleResponseFields.version ∧
        cmd.ResponseHeader.RequestId = sampleResponseFields.requestId ∧
        cmd.ResponseHeader.Codec = sampleResponseFields.codec ∧
        cmd.ResponseHeader.ResponseStatus = sampleResponseFields.responseStatus ∧
        cmd.ResponseHeader.ClassLen = sampleResponseFields.className.length ∧
        cmd.ResponseHeader.HeaderLen = sampleResponseFields.header.length ∧
        cmd.ResponseHeader.ContentLen = sampleResponseFields.content.length ∧
        cmd.rawData = encodeResponse sampleResponseFields ∧
        cmd.ResponseHeader.Class = sampleResponseFields.className ∧
        cmd.ResponseHeader.BytesHeader
          = (if sampleResponseFields.header = [] then []
              else (okCodec sampleResponseFields.header []).1) ∧
        r.err = (if sampleResponseFields.header = [] then none
            else (okCodec sampleResponseFields.header []).2) ∧
        (sampleResponseFields.className ≠ [] → cmd.rawClass = sampleResponseFields.className) ∧
        (sampleResponseFields.header ≠ [] → cmd.rawHeader = sampleResponseFields.header) ∧
        (sampleResponseFields.content ≠ [] →
          cmd.rawContent = sampleResponseFields.content ∧
            cmd.Content = some sampleResponseFields.content) ∧
        (sampleResponseFields.className = [] → cmd.rawClass = Ctx.fresh.response.rawClass) ∧
        (sampleResponseFields.header = [] → cmd.rawHeader = Ctx.fresh.response.rawHeader) ∧
        (sampleResponseFields.content = [] →
          cmd.rawContent = Ctx.fresh.response.rawContent ∧
            cmd.Content = Ctx.fresh.response.Content) ∧
        (Ctx.fresh.response.rawClass = [] → cmd.rawClass = sampleResponseFields.className) ∧
        (Ctx.fresh.response.rawHeader = [] → cmd.rawHeader = sampleResponseFields.header) ∧
        (Ctx.fresh.response.rawContent = [] → cmd.rawContent = sampleResponseFields.content) ∧
        (Ctx.fresh.response.Content = none →
          cmd.Content = (if sampleResponseFields.content = [] then none
              else some sampleResponseFields.content))) :=
  round_trip okCodec Ctx.fresh sampleRequestFields sampleResponseFields false
    (by decide) (by decide) (by decide) (by decide) (by decide) (by decide) (by decide)
    (by decide) (by decide) (by decide) (by decide) (by decide) (by decide)

/-! ## Purity -/

/-- C15, as stated, fails in its last part: the same 22 bytes of scenario A,
decoded with the same flag, give a command with raw class bytes `A`, raw
header bytes `07 08` and content `09 09 09` when the context has served an
earlier call on `sampleRequest`, and a command with no raw class bytes, no
raw header bytes and no content when it has not. The class is empty in both
cases. -/
theorem earlier_call_counterexample :
    ((decodeRequest okCodec Ctx.fresh sampleRequest false).bind
        (fun r1 => decodeRequest okCodec r1.ctx scenarioA false)).bind
      (fun r => r.cmd.map
        (fun c => (c.RequestHeader.Class, c.rawClass, c.rawHeader, c.Content)))
      = some ([], [65], [7, 8], some [9, 9, 9]) ∧
    (decodeRequest okCodec Ctx.fresh scenarioA false).bind
      (fun r => r.cmd.map
        (fun c => (c.RequestHeader.Class, c.rawClass, c.rawHeader, c.Content)))
      = some ([], [], [], none) := by
  rw [decodeRequest_complete okCodec Ctx.fresh sampleRequest false (by decide) (by decide),
    Option.some_bind,
    decodeRequest_complete okCodec _ scenarioA false (by decide) (by decide),
    decodeRequest_complete okCodec Ctx.fresh scenarioA false (by decide) (by decide)]
  simp only [Option.some_bind, Option.map_some', requestValue_scenarioA]
  exact ⟨by decide, by decide⟩

/-- C15, amended: the decoder is a function of the frame bytes, the `oneway`
flag and the pooled command of the context. For two buffers `b1` and `b2`
that hold a complete request frame and agree on its `frameLen` bytes, with
the same flag and the same context, `decodeRequest` returns the same
command, the same error and the same context and consumes `frameLen` bytes
of each: nothing depends on the bytes beyond the frame. A call leaves its
command in the pooled command of the context, and the context matters to a
later call only through that pooled command: under every context the error,
the header (fixed fields, class and header map, all set afresh by each
call), the raw data, the meta bytes, `Data` and the raw class, raw header,
raw content and content of every section declared with a positive length
are the same; where the frame declares length 0, the raw class, the raw
header, the raw content and the content are the ones the pooled command
held, that is, what an earlier call with that context left. The same for
`decodeResponse` on `g1` and `g2`. -/
theorem frame_and_context_determine (D : HeaderCodec) (ctx : Ctx) (b1 b2 g1 g2 : List Byte)
    (oneway : Bool)
    (h1 : 22 ≤ b1.length) (h2 : requestFrameLen b1 ≤ b1.length)
    (h3 : b1.take (requestFrameLen b1) = b2.take (requestFrameLen b1))
    (h4 : 20 ≤ g1.length) (h5 : responseFrameLen g1 ≤ g1.length)
    (h6 : g1.take (responseFrameLen g1) = g2.take (responseFrameLen g1)) :
    (∃ r1 r2 c1, decodeRequest D ctx b1 oneway = some r1 ∧
        decodeRequest D ctx b2 oneway = some r2 ∧
        r1.cmd = some c1 ∧ r2.cmd = some c1 ∧ r1.err = r2.err ∧ r1.ctx = r2.ctx ∧
        b1.length - r1.data.length = requestFrameLen b1 ∧
        b2.length - r2.data.length = requestFrameLen b1 ∧
        r1.ctx.request = c1 ∧
        (be16 b1 14 = 0 → c1.rawClass = ctx.request.rawClass) ∧
        (be16 b1 16 = 0 → c1.rawHeader = ctx.request.rawHeader) ∧
        (be32 b1 18 = 0 →
          c1.rawContent = ctx.request.rawContent ∧ c1.Content = ctx.request.Content) ∧
        (∀ ctx2 : Ctx, ctx2.request = ctx.request →
          ∃ r3, decodeRequest D ctx2 b1 oneway = some r3 ∧ r3.cmd = some c1 ∧
            r3.err = r1.err) ∧
        (∀ ctx3 : Ctx, ∃ r3 c3, decodeRequest D ctx3 b1 oneway = some r3 ∧
          r3.cmd = some c3 ∧ r3.err = r1.err ∧
          c3.RequestHeader = c1.RequestHeader ∧ c3.rawData = c1.rawData ∧
          c3.rawMeta = c1.rawMeta ∧ c3.Data = c1.Data ∧
          (0 < be16 b1 14 → c3.rawClass = c1.rawClass) ∧
          (0 < be16 b1 16 → c3.rawHeader = c1.rawHeader) ∧
          (0 < be32 b1 18 → c3.rawContent = c1.rawContent ∧ c3.Content = c1.Content) ∧
          (be16 b1 14 = 0 → c3.rawClass = ctx3.request.rawClass) ∧
          (be16 b1 16 = 0 → c3.rawHeader = ctx3.request.rawHeader) ∧
          (be32 b1 18 = 0 →
            c3.rawContent = ctx3.request.rawContent ∧ c3.Content = ctx3.request.Content))) ∧
    (∃ r1 r2 c1, decodeResponse D ctx g1 = some r1 ∧
        decodeResponse D ctx g2 = some r2 ∧
        r1.cmd = some c1 ∧ r2.cmd = some c1 ∧ r1.err = r2.err ∧ r1.ctx = r2.ctx ∧
        g1.length - r1.data.length = responseFrameLen g1 ∧
        g2.length - r2.data.length = responseFrameLen g1 ∧
        r1.ctx.response = c1 ∧
        (be16 g1 12 = 0 → c1.rawClass = ctx.response.rawClass) ∧
        (be16 g1 14 = 0 → c1.rawHeader = ctx.response.rawHeader) ∧
        (be32 g1 16 = 0 →
          c1.rawContent = ctx.response.rawContent ∧ c1.Content = ctx.response.Content) ∧
        (∀ ctx2 : Ctx, ctx2.response = ctx.response →
          ∃ r3, decodeResponse D ctx2 g1 = some r3 ∧ r3.cmd = some c1 ∧
            r3.err = r1.err) ∧
        (∀ ctx3 : Ctx, ∃ r3 c3, decodeResponse D ctx3 g1 = some r3 ∧
          r3.cmd = some c3 ∧ r3.err = r1.err ∧
          c3.ResponseHeader = c1.ResponseHeader ∧ c3.rawData = c1.rawData ∧
          c3.rawMeta = c1.rawMeta ∧ c3.Data = c1.Data ∧
          (0 < be16 g1 12 → c3.rawClass = c1.rawClass) ∧
          (0 < be16 g1 14 → c3.rawHeader = c1.rawHeader) ∧
          (0 < be32 g1 16 → c3.rawContent = c1.rawContent ∧ c3.Content = c1.Content) ∧
          (be16 g1 12 = 0 → c3.rawClass = ctx3.response.rawClass) ∧
          (be16 g1 14 = 0 → c3.rawHeader = ctx3.response.rawHeader) ∧
          (be32 g1 16 = 0 →
            c3.rawContent = ctx3.response.rawContent ∧ c3.Content = ctx3.response.Content))) := by
  constructor
  · obtain ⟨hF, hv, he⟩ := request_agree D ctx.request b1 b2 oneway h3
    have hl : requestFrameLen b1 ≤ b2.length := by
      have e := congrArg List.length h3
      rw [List.length_take, List.length_take, Nat.min_eq_left h2] at e
      omega
    have hg := requestFrameLen_ge b1
    have d1 := decodeRequest_complete D ctx b1 oneway h1 h2
    have d2 := decodeRequest_complete D ctx b2 oneway (by omega) (by omega)
    rw [hv, he, hF, ← h3] at d2
    obtain ⟨q1, q2, q3⟩ := requestValue_kept D ctx.request b1 oneway
    refine ⟨_, _, _, d1, d2, rfl, rfl, rfl, rfl, ?_, ?_, rfl, q1, q2, q3,
      fun ctx2 hq => ?_, fun ctx3 => ?_⟩
    · simp only [List.length_drop]; omega
    · simp only [List.length_drop]; omega
    · have d3 := decodeRequest_complete D ctx2 b1 oneway h1 h2
      rw [hq] at d3
      exact ⟨_, d3, rfl, rfl⟩
    · obtain ⟨a1, a2, a3, a4, a5, a6, a7⟩ :=
        requestValue_frame_fields D ctx3.request ctx.request b1 oneway
      obtain ⟨p1, p2, p3⟩ := requestValue_kept D ctx3.request b1 oneway
      exact ⟨_, _, decodeRequest_complete D ctx3 b1 oneway h1 h2, rfl, rfl,
        a1, a2, a3, a4, a5, a6, a7, p1, p2, p3⟩
  · obtain ⟨hF, hv, he⟩ := response_agree D ctx.response g1 g2 h6
    have hl : responseFrameLen g1 ≤ g2.length := by
      have e := congrArg List.length h6
      rw [List.length_take, List.length_take, Nat.min_eq_left h5] at e
      omega
    have hg := responseFrameLen_ge g1
    have d1 := decodeResponse_complete D ctx g1 h4 h5
    have d2 := decodeResponse_complete D ctx g2 (by omega) (by omega)
    rw [hv, he, hF, ← h6] at d2
    obtain ⟨q1, q2, q3⟩ := responseValue_kept D ctx.response g1
    refine ⟨_, _, _, d1, d2, rfl, rfl, rfl, rfl, ?_, ?_, rfl, q1, q2, q3,
      fun ctx2 hq => ?_, fun ctx3 => ?_⟩
    · simp only [List.length_drop]; omega
    · simp only [List.length_drop]; omega
    · have d3 := decodeResponse_complete D ctx2 g1 h4 h5
      rw [hq] at d3
      exact ⟨_, d3, rfl, rfl⟩
    · obtain ⟨a1, a2, a3, a4, a5, a6, a7⟩ :=
        responseValue_frame_fields D ctx3.response ctx.response g1
      obtain ⟨p1, p2, p3⟩ := responseValue_kept D ctx3.response g1
      exact ⟨_, _, decodeResponse_complete D ctx3 g1 h4 h5, rfl, rfl,
        a1, a2, a3, a4, a5, a6, a7, p1, p2, p3⟩

/-- Witness of the amended C15: `sampleRequest` against its frame followed by
other bytes, and `sampleResponse` against its bare frame. -/
theorem frame_and_context_determine_witness :
    (∃ r1 r2 c1, decodeRequest okCodec Ctx.fresh sampleRequest false = some r1 ∧
        decodeRequest okCodec Ctx.fresh (sampleRequestFrame ++ [1, 2, 3]) false = some r2 ∧
        r1.cmd = some c1 ∧ r2.cmd = some c1 ∧ r1.err = r2.err ∧ r1.ctx = r2.ctx ∧
        sampleRequest.length - r1.data.length = requestFrameLen sampleRequest ∧
        (sampleRequestFrame ++ [1, 2, 3]).length - r2.data.length = requestFrameLen sampleRequest ∧
        r1.ctx.request = c1 ∧
        (be16 sampleRequest 14 = 0 → c1.rawClass = Ctx.fresh.request.rawClass) ∧
        (be16 sampleRequest 16 = 0 → c1.rawHeader = Ctx.fresh.request.rawHeader) ∧
        (be32 sampleRequest 18 = 0 →
          c1.rawContent = Ctx.fresh.request.rawContent ∧ c1.Content = Ctx.fresh.request.Content) ∧
        (∀ ctx2 : Ctx, ctx2.request = Ctx.fresh.request →
          ∃ r3, decodeRequest okCodec ctx2 sampleRequest false = some r3 ∧ r3.cmd = some c1 ∧
            r3.err = r1.err) ∧
        (∀ ctx3 : Ctx, ∃ r3 c3, decodeRequest okCodec ctx3 sampleRequest false = some r3 ∧
          r3.cmd = some c3 ∧ r3.err = r1.err ∧
          c3.RequestHeader = c1.RequestHeader ∧ c3.rawData = c1.rawData ∧
          c3.rawMeta = c1.rawMeta ∧ c3.Data = c1.Data ∧
          (0 < be16 sampleRequest 14 → c3.rawClass = c1.rawClass) ∧
          (0 < be16 sampleRequest 16 → c3.rawHeader = c1.rawHeader) ∧
          (0 < be32 sampleRequest 18 → c3.rawContent = c1.rawContent ∧ c3.Content = c1.Content) ∧
          (be16 sampleRequest 14 = 0 → c3.rawClass = ctx3.request.rawClass) ∧
          (be16 sampleRequest 16 = 0 → c3.rawHeader = ctx3.request.rawHeader) ∧
          (be32 sampleRequest 18 = 0 →
            c3.rawContent = ctx3.request.rawContent ∧ c3.Content = ctx3.request.Content))) ∧
    (∃ r1 r2 c1, decodeResponse okCodec Ctx.fresh sampleResponse = some r1 ∧
        decodeResponse okCodec Ctx.fresh sampleResponseFrame = some r2 ∧
        r1.cmd = some c1 ∧ r2.cmd = some c1 ∧ r1.err = r2.err ∧ r1.ctx = r2.ctx ∧
        sampleResponse.length - r1.data.length = responseFrameLen sampleResponse ∧
        sampleResponseFrame.length - r2.data.length = responseFrameLen sampleResponse ∧
        r1.ctx.response = c1 ∧
        (be16 sampleResponse 12 = 0 → c1.rawClass = Ctx.fresh.response.rawClass) ∧
        (be16 sampleResponse 14 = 0 → c1.rawHeader = Ctx.fresh.response.rawHeader) ∧
        (be32 sampleResponse 16 = 0 →
          c1.rawContent = Ctx.fresh.response.rawContent ∧ c1.Content = Ctx.fresh.response.Content) ∧
        (∀ ctx2 : Ctx, ctx2.response = Ctx.fresh.response →
          ∃ r3, decodeResponse okCodec ctx2 sampleResponse = some r3 ∧ r3.cmd = some c1 ∧
            r3.err = r1.err) ∧
        (∀ ctx3 : Ctx, ∃ r3 c3, decodeResponse okCodec ctx3 sampleResponse = some r3 ∧
          r3.cmd = some c3 ∧ r3.err = r1.err ∧
          c3.ResponseHeader = c1.ResponseHeader ∧ c3.rawData = c1.rawData ∧
          c3.rawMeta = c1.rawMeta ∧ c3.Data = c1.Data ∧
          (0 < be16 sampleResponse 12 → c3.rawClass = c1.rawClass) ∧
          (0 < be16 sampleResponse 14 → c3.rawHeader = c1.rawHeader) ∧
          (0 < be32 sampleResponse 16 → c3.rawContent = c1.rawContent ∧ c3.Content = c1.Content) ∧
          (be16 sampleResponse 12 = 0 → c3.rawClass = ctx3.response.rawClass) ∧
          (be16 sampleResponse 14 = 0 → c3.rawHeader = ctx3.response.rawHeader) ∧
          (be32 sampleResponse 16 = 0 →
            c3.rawContent = ctx3.response.rawContent ∧ c3.Content = ctx3.response.Content))) :=
  frame_and_context_determine okCodec Ctx.fresh sampleRequest (sampleRequestFrame ++ [1, 2, 3])
    sampleResponse sampleResponseFrame false
    (by decide) (by decide) (by decide) (by decide) (by decide) (by decide)

/-! ## Numeric interpretation -/

theorem int32_eq (x : Nat) (h : x < 4294967296) :
    int32 x = if x < 2147483648 then (x : Int) else (x : Int) - 4294967296 := by
  unfold int32
  rw [Nat.mod_eq_of_lt h]

theorem be32_top_bit (b : List Byte) (i : Nat) :
    2147483648 ≤ be32 b i ↔ 128 ≤ byteAt b i := by
  have h0 := byteAt_lt b i
  have h1 := byteAt_lt b (i + 1)
  have h2 := byteAt_lt b (i + 2)
  have h3 := byteAt_lt b (i + 3)
  unfold be32
  omega

theorem be16_top_bit (b : List Byte) (i : Nat) :
    32768 ≤ be16 b i ↔ 128 ≤ byteAt b i := by
  have h0 := byteAt_lt b i
  have h1 := byteAt_lt b (i + 1)
  unfold be16
  omega

/-- C16 (the timeout is a signed 32-bit value): on a complete request frame
`b` the decoded `Timeout` is the two's-complement reading of the big-endian
32-bit word `b[10:14]`: the word itself below 2^31 and the word minus 2^32
from 2^31 on. It lies in `[-2^31, 2^31)`, it is congruent to the word modulo
2^32, and it is negative exactly when the top bit of `b[10]` is set. -/
theorem timeout_signed (D : HeaderCodec) (ctx : Ctx) (b : List Byte) (oneway : Bool)
    (h1 : 22 ≤ b.length) (h2 : requestFrameLen b ≤ b.length) :
    ∃ r cmd, decodeRequest D ctx b oneway = some r ∧ r.cmd = some cmd ∧
      cmd.RequestHeader.Timeout
        = (if be32 b 10 < 2147483648 then (be32 b 10 : Int)
           else (be32 b 10 : Int) - 4294967296) ∧
      -2147483648 ≤ cmd.RequestHeader.Timeout ∧ cmd.RequestHeader.Timeout < 2147483648 ∧
      cmd.RequestHeader.Timeout % 4294967296 = (be32 b 10 : Int) ∧
      (cmd.RequestHeader.Timeout < 0 ↔ 128 ≤ byteAt b 10) := by
  refine ⟨_, _, decodeRequest_complete D ctx b oneway h1 h2, rfl,
    int32_eq _ (be32_lt b 10), (int32_range _).1, (int32_range _).2,
    int32_mod _ (be32_lt b 10), ?_⟩
  show int32 (be32 b 10) < 0 ↔ _
  rw [int32_eq _ (be32_lt b 10), ← be32_top_bit]
  have hb := be32_lt b 10
  split <;> omega

/-- Witness of C16: the timeout bytes `FF FF FF FF` decode to -1. -/
theorem timeout_signed_witness :
    ∃ r cmd, decodeRequest okCodec Ctx.fresh negativeTimeoutRequest false = some r ∧
      r.cmd = some cmd ∧ cmd.RequestHeader.Timeout = -1 ∧
      be32 negativeTimeoutRequest 10 = 4294967295 ∧ byteAt negativeTimeoutRequest 10 = 255 := by
  obtain ⟨r, cmd, hr, hc, ht, -⟩ :=
    timeout_signed okCodec Ctx.fresh negativeTimeoutRequest false (by decide) (by decide)
  refine ⟨r, cmd, hr, hc, ?_, by decide, by decide⟩
  rw [ht]
  decide

/-- C19 (declared lengths are unsigned and the frame length cannot wrap): on
a buffer of at least 22 bytes the decoder reads `classLen` and `headerLen` in
`[0, 65535]` and `contentLen` in `[0, 2^32 - 1]`; their conversions to the
64-bit `int` keep the value, so a length with its top bit set is a large
positive number; the frame length computed with wrapping additions is the
exact sum, between 22 and `22 + 2 * 65535 + (2^32 - 1)`; and a command is
only returned after at least 22 bytes, the whole declared frame, were in the
buffer and have been drained. The same for `decodeResponse` on a buffer of
at least 20 bytes, with 20 in place of 22. -/
theorem lengths_unsigned (D : HeaderCodec) (ctx : Ctx) (b b2 : List Byte) (oneway : Bool)
    (h1 : 22 ≤ b.length) (h2 : 20 ≤ b2.length) :
    ((slice b 14 16).bind Uint16 = some (be16 b 14) ∧
      (slice b 16 18).bind Uint16 = some (be16 b 16) ∧
      (slice b 18 22).bind Uint32 = some (be32 b 18) ∧
      be16 b 14 ≤ 65535 ∧ be16 b 16 ≤ 65535 ∧ be32 b 18 ≤ 4294967295 ∧
      int (be16 b 14) = (be16 b 14 : Int) ∧ int (be16 b 16) = (be16 b 16 : Int) ∧
      int (be32 b 18) = (be32 b 18 : Int) ∧
      (128 ≤ byteAt b 14 → 32768 ≤ int (be16 b 14)) ∧
      (128 ≤ byteAt b 16 → 32768 ≤ int (be16 b 16)) ∧
      (128 ≤ byteAt b 18 → 2147483648 ≤ int (be32 b 18)) ∧
      intAdd (intAdd (intAdd RequestHeaderLen (int (be16 b 14))) (int (be16 b 16)))
          (int (be32 b 18))
        = ((22 + be16 b 14 + be16 b 16 + be32 b 18 : Nat) : Int) ∧
      22 ≤ requestFrameLen b ∧ requestFrameLen b ≤ 22 + 2 * 65535 + 4294967295 ∧
      (∀ r cmd, decodeRequest D ctx b oneway = some r → r.cmd = some cmd →
        requestFrameLen b ≤ b.length ∧ b.length - r.data.length = requestFrameLen b)) ∧
    ((slice b2 12 14).bind Uint16 = some (be16 b2 12) ∧
      (slice b2 14 16).bind Uint16 = some (be16 b2 14) ∧
      (slice b2 16 20).bind Uint32 = some (be32 b2 16) ∧
      be16 b2 12 ≤ 65535 ∧ be16 b2 14 ≤ 65535 ∧ be32 b2 16 ≤ 4294967295 ∧
      int (be16 b2 12) = (be16 b2 12 : Int) ∧ int (be16 b2 14) = (be16 b2 14 : Int) ∧
      int (be32 b2 16) = (be32 b2 16 : Int) ∧
      (128 ≤ byteAt b2 12 → 32768 ≤ int (be16 b2 12)) ∧
      (128 ≤ byteAt b2 14 → 32768 ≤ int (be16 b2 14)) ∧
      (128 ≤ byteAt b2 16 → 2147483648 ≤ int (be32 b2 16)) ∧
      intAdd (intAdd (intAdd ResponseHeaderLen (int (be16 b2 12))) (int (be16 b2 14)))
          (int (be32 b2 16))
        = ((20 + be16 b2 12 + be16 b2 14 + be32 b2 16 : Nat) : Int) ∧
      20 ≤ responseFrameLen b2 ∧ responseFrameLen b2 ≤ 20 + 2 * 65535 + 4294967295 ∧
      (∀ r cmd, decodeResponse D ctx b2 = some r → r.cmd = some cmd →
        responseFrameLen b2 ≤ b2.length ∧
        b2.length - r.data.length = responseFrameLen b2)) := by
  constructor
  · have a1 := be16_lt b 14
    have a2 := be16_lt b 16
    have a3 := be32_lt b 18
    have i1 : int (be16 b 14) = (be16 b 14 : Int) := int_eq (by omega)
    have i2 : int (be16 b 16) = (be16 b 16 : Int) := int_eq (by omega)
    have i3 : int (be32 b 18) = (be32 b 18 : Int) := int_eq a3
    have s1 := slice_Uint16 b 14 (by omega)
    have s2 := slice_Uint16 b 16 (by omega)
    have s3 := slice_Uint32 b 18 (by omega)
    simp only [Nat.cast_ofNat, Nat.reduceAdd] at s1 s2 s3
    have t1 := (be16_top_bit b 14).mpr
    have t2 := (be16_top_bit b 16).mpr
    have t3 := (be32_top_bit b 18).mpr
    have hF : requestFrameLen b = 22 + be16 b 14 + be16 b 16 + be32 b 18 := rfl
    refine ⟨s1, s2, s3, by omega, by omega, by omega, i1, i2, i3, ?_, ?_, ?_,
      requestFrameLen_int b, by omega, by omega, ?_⟩
    · intro h; rw [i1]; have := t1 h; omega
    · intro h; rw [i2]; have := t2 h; omega
    · intro h; rw [i3]; have := t3 h; omega
    · intro r cmd hr hc
      by_cases hp : b.length < requestFrameLen b
      · rw [decodeRequest_awaiting_body D ctx b oneway h1 hp] at hr
        cases hr; cases hc
      · rw [decodeRequest_complete D ctx b oneway h1 (by omega)] at hr
        cases hr
        simp only [List.length_drop]
        omega
  · have a1 := be16_lt b2 12
    have a2 := be16_lt b2 14
    have a3 := be32_lt b2 16
    have i1 : int (be16 b2 12) = (be16 b2 12 : Int) := int_eq (by omega)
    have i2 : int (be16 b2 14) = (be16 b2 14 : Int) := int_eq (by omega)
    have i3 : int (be32 b2 16) = (be32 b2 16 : Int) := int_eq a3
    have s1 := slice_Uint16 b2 12 (by omega)
    have s2 := slice_Uint16 b2 14 (by omega)
    have s3 := slice_Uint32 b2 16 (by omega)
    simp only [Nat.cast_ofNat, Nat.reduceAdd] at s1 s2 s3
    have t1 := (be16_top_bit b2 12).mpr
    have t2 := (be16_top_bit b2 14).mpr
    have t3 := (be32_top_bit b2 16).mpr
    have hF : responseFrameLen b2 = 20 + be16 b2 12 + be16 b2 14 + be32 b2 16 := rfl
    refine ⟨s1, s2, s3, by omega, by omega, by omega, i1, i2, i3, ?_, ?_, ?_,
      responseFrameLen_int b2, by omega, by omega, ?_⟩
    · intro h; rw [i1]; have := t1 h; omega
    · intro h; rw [i2]; have := t2 h; omega
    · intro h; rw [i3]; have := t3 h; omega
    · intro r cmd hr hc
      by_cases hp : b2.length < responseFrameLen b2
      · rw [decodeResponse_awaiting_body D ctx b2 h2 hp] at hr
        cases hr; cases hc
      · rw [decodeResponse_complete D ctx b2 h2 (by omega)] at hr
        cases hr
        simp only [List.length_drop]
        omega

/-- Witness of C19: headers whose length fields are all `FF` bytes. -/
theorem lengths_unsigned_witness :
    ((slice allOnesRequestHeader 14 16).bind Uint16 = some (be16 allOnesRequestHeader 14) ∧
      (slice allOnesRequestHeader 16 18).bind Uint16 = some (be16 allOnesRequestHeader 16) ∧
      (slice allOnesRequestHeader 18 22).bind Uint32 = some (be32 allOnesRequestHeader 18) ∧
      be16 allOnesRequestHeader 14 ≤ 65535 ∧ be16 allOnesRequestHeader 16 ≤ 65535 ∧
      be32 allOnesRequestHeader 18 ≤ 4294967295 ∧
      int (be16 allOnesRequestHeader 14) = (be16 allOnesRequestHeader 14 : Int) ∧
      int (be16 allOnesRequestHeader 16) = (be16 allOnesRequestHeader 16 : Int) ∧
      int (be32 allOnesRequestHeader 18) = (be32 allOnesRequestHeader 18 : Int) ∧
      (128 ≤ byteAt allOnesRequestHeader 14 → 32768 ≤ int (be16 allOnesRequestHeader 14)) ∧
      (128 ≤ byteAt allOnesRequestHeader 16 → 32768 ≤ int (be16 allOnesRequestHeader 16)) ∧
      (128 ≤ byteAt allOnesRequestHeader 18 → 2147483648 ≤ int (be32 allOnesRequestHeader 18)) ∧
      intAdd
          (intAdd (intAdd RequestHeaderLen (int (be16 allOnesRequestHeader 14)))
            (int (be16 allOnesRequestHeader 16)))
          (int (be32 allOnesRequestHeader 18))
        = ((22 + be16 allOnesRequestHeader 14 + be16 allOnesRequestHeader 16
            + be32 allOnesRequestHeader 18 : Nat) : Int) ∧
      22 ≤ requestFrameLen allOnesRequestHeader ∧
      requestFrameLen allOnesRequestHeader ≤ 22 + 2 * 65535 + 4294967295 ∧
      (∀ r cmd, decodeRequest okCodec Ctx.fresh allOnesRequestHeader false = some r →
        r.cmd = some cmd →
        requestFrameLen allOnesRequestHeader ≤ allOnesRequestHeader.length ∧
        allOnesRequestHeader.length - r.data.length = requestFrameLen allOnesRequestHeader)) ∧
    ((slice allOnesResponseHeader 12 14).bind Uint16 = some (be16 allOnesResponseHeader 12) ∧
      (slice allOnesResponseHeader 14 16).bind Uint16 = some (be16 allOnesResponseHeader 14) ∧
      (slice allOnesResponseHeader 16 20).bind Uint32 = some (be32 allOnesResponseHeader 16) ∧
      be16 allOnesResponseHeader 12 ≤ 65535 ∧ be16 allOnesResponseHeader 14 ≤ 65535 ∧
      be32 allOnesResponseHeader 16 ≤ 4294967295 ∧
      int (be16 allOnesResponseHeader 12) = (be16 allOnesResponseHeader 12 : Int) ∧
      int (be16 allOnesResponseHeader 14) = (be16 allOnesResponseHeader 14 : Int) ∧
      int (be32 allOnesResponseHeader 16) = (be32 allOnesResponseHeader 16 : Int) ∧
      (128 ≤ byteAt allOnesResponseHeader 12 → 32768 ≤ int (be16 allOnesResponseHeader 12)) ∧
      (128 ≤ byteAt allOnesResponseHeader 14 → 32768 ≤ int (be16 allOnesResponseHeader 14)) ∧
      (128 ≤ byteAt allOnesResponseHeader 16 → 2147483648 ≤ int (be32 allOnesResponseHeader 16)) ∧
      intAdd
          (intAdd (intAdd ResponseHeaderLen (int (be16 allOnesResponseHeader 12)))
            (int (be16 allOnesResponseHeader 14)))
          (int (be32 allOnesResponseHeader 16))
        = ((20 + be16 allOnesResponseHeader 12 + be16 allOnesResponseHeader 14
            + be32 allOnesResponseHeader 16 : Nat) : Int) ∧
      20 ≤ responseFrameLen allOnesResponseHeader ∧
      responseFrameLen allOnesResponseHeader ≤ 20 + 2 * 65535 + 4294967295 ∧
      (∀ r cmd, decodeResponse okCodec Ctx.fresh allOnesResponseHeader = some r → r.cmd = some cmd →
        responseFrameLen allOnesResponseHeader ≤ allOnesResponseHeader.length ∧
        allOnesResponseHeader.length - r.data.length = responseFrameLen allOnesResponseHeader)) :=
  lengths_unsigned okCodec Ctx.fresh allOnesRequestHeader allOnesResponseHeader false
    (by decide) (by decide)

/-! ## Index safety -/

theorem slice_isSome (b : List Byte) (lo hi : Nat) (h1 : lo ≤ hi) (h2 : hi ≤ b.length) :
    (slice b (lo : Int) (hi : Int)).isSome := by
  rw [slice_nat b h1 h2]; rfl

theorem lit_slice_isSome (b : List Byte) (lo hi : Nat) (h1 : lo ≤ hi) (h2 : hi ≤ b.length) :
    (slice b (OfNat.ofNat lo) (OfNat.ofNat hi)).isSome := by
  have h := slice_isSome b lo hi h1 h2
  simpa using h

theorem request_headerIndex_int (c : Nat) (hc : c < 65536) :
    intAdd RequestHeaderLen (int c) = ((22 + c : Nat) : Int) := by
  rw [int_eq (by omega)]; unfold intAdd RequestHeaderLen
  rw [wrapInt_eq (by omega) (by omega)]; push_cast; ring

theorem request_contentIndex_int (c h : Nat) (hc : c < 65536) (hh : h < 65536) :
    intAdd (intAdd RequestHeaderLen (int c)) (int h) = ((22 + c + h : Nat) : Int) := by
  rw [request_headerIndex_int c hc, int_eq (by omega)]; unfold intAdd
  rw [wrapInt_eq (by omega) (by omega)]; push_cast; ring

theorem response_headerIndex_int (c : Nat) (hc : c < 65536) :
    intAdd ResponseHeaderLen (int c) = ((20 + c : Nat) : Int) := by
  rw [int_eq (by omega)]; unfold intAdd ResponseHeaderLen
  rw [wrapInt_eq (by omega) (by omega)]; push_cast; ring

theorem response_contentIndex_int (c h : Nat) (hc : c < 65536) (hh : h < 65536) :
    intAdd (intAdd ResponseHeaderLen (int c)) (int h) = ((20 + c + h : Nat) : Int) := by
  rw [response_headerIndex_int c hc, int_eq (by omega)]; unfold intAdd
  rw [wrapInt_eq (by omega) (by omega)]; push_cast; ring

/-- C18 (index safety): for every buffer, of any length and content, and any
`oneway` flag, `decodeRequest` and `decodeResponse` return without an index
or slice expression going out of bounds. Below 22 bytes (20 for a response)
no header read happens, the outcome being Incomplete, whereas the last header
read would be out of bounds; from 22 bytes on every header read is in
bounds. On a complete frame the indices the code computes with wrapping
additions are `22 + classLen`, `22 + classLen + headerLen` and `frameLen`,
they satisfy `22 ≤ headerIndex ≤ contentIndex ≤ frameLen ≤ len(b)`, and the
slices `b[:frameLen]`, `rawData[:22]`, `rawData[22:headerIndex]`,
`rawData[headerIndex:contentIndex]` and `rawData[contentIndex:]` are all in
bounds. -/
theorem index_safety (D : HeaderCodec) (ctx : Ctx) (b : List Byte) (oneway : Bool) :
    ((∃ r, decodeRequest D ctx b oneway = some r) ∧
      (b.length < 22 →
        slice b 18 22 = none ∧
        decodeRequest D ctx b oneway = some { cmd := none, err := none, data := b, ctx := ctx }) ∧
      (22 ≤ b.length →
        (slice b 2 4).isSome ∧
        b[4]?.isSome ∧
        (slice b 5 9).isSome ∧
        b[9]?.isSome ∧
        (slice b 10 14).isSome ∧
        (slice b 14 16).isSome ∧
        (slice b 16 18).isSome ∧
        (slice b 18 22).isSome) ∧
      (22 ≤ b.length → requestFrameLen b ≤ b.length →
        intAdd RequestHeaderLen (int (be16 b 14)) = ((22 + be16 b 14 : Nat) : Int) ∧
        intAdd (intAdd RequestHeaderLen (int (be16 b 14))) (int (be16 b 16))
          = ((22 + be16 b 14 + be16 b 16 : Nat) : Int) ∧
        intAdd (intAdd (intAdd RequestHeaderLen (int (be16 b 14))) (int (be16 b 16)))
            (int (be32 b 18))
          = ((requestFrameLen b : Nat) : Int) ∧
        RequestHeaderLen ≤ intAdd RequestHeaderLen (int (be16 b 14)) ∧
        intAdd RequestHeaderLen (int (be16 b 14))
          ≤ intAdd (intAdd RequestHeaderLen (int (be16 b 14))) (int (be16 b 16)) ∧
        intAdd (intAdd RequestHeaderLen (int (be16 b 14))) (int (be16 b 16))
          ≤ intAdd (intAdd (intAdd RequestHeaderLen (int (be16 b 14))) (int (be16 b 16)))
              (int (be32 b 18)) ∧
        intAdd (intAdd (intAdd RequestHeaderLen (int (be16 b 14))) (int (be16 b 16)))
            (int (be32 b 18))
          ≤ (b.length : Int) ∧
        ∃ rawData, slice b 0 ((requestFrameLen b : Nat) : Int) = some rawData ∧
          rawData.length = requestFrameLen b ∧
          (slice rawData 0 RequestHeaderLen).isSome ∧
          (slice rawData RequestHeaderLen ((22 + be16 b 14 : Nat) : Int)).isSome ∧
          (slice rawData ((22 + be16 b 14 : Nat) : Int)
            ((22 + be16 b 14 + be16 b 16 : Nat) : Int)).isSome ∧
          (slice rawData ((22 + be16 b 14 + be16 b 16 : Nat) : Int)
            (rawData.length : Int)).isSome)) ∧
    ((∃ r, decodeResponse D ctx b = some r) ∧
      (b.length < 20 →
        slice b 16 20 = none ∧
        decodeResponse D ctx b = some { cmd := none, err := none, data := b, ctx := ctx }) ∧
      (20 ≤ b.length →
        (slice b 2 4).isSome ∧
        b[4]?.isSome ∧
        (slice b 5 9).isSome ∧
        b[9]?.isSome ∧
        (slice b 10 12).isSome ∧
        (slice b 12 14).isSome ∧
        (slice b 14 16).isSome ∧
        (slice b 16 20).isSome) ∧
      (20 ≤ b.length → responseFrameLen b ≤ b.length →
        intAdd ResponseHeaderLen (int (be16 b 12)) = ((20 + be16 b 12 : Nat) : Int) ∧
        intAdd (intAdd ResponseHeaderLen (int (be16 b 12))) (int (be16 b 14))
          = ((20 + be16 b 12 + be16 b 14 : Nat) : Int) ∧
        intAdd (intAdd (intAdd ResponseHeaderLen (int (be16 b 12))) (int (be16 b 14)))
            (int (be32 b 16))
          = ((responseFrameLen b : Nat) : Int) ∧
        ResponseHeaderLen ≤ intAdd ResponseHeaderLen (int (be16 b 12)) ∧
        intAdd ResponseHeaderLen (int (be16 b 12))
          ≤ intAdd (intAdd ResponseHeaderLen (int (be16 b 12))) (int (be16 b 14)) ∧
        intAdd (intAdd ResponseHeaderLen (int (be16 b 12))) (int (be16 b 14))
          ≤ intAdd (intAdd (intAdd ResponseHeaderLen (int (be16 b 12))) (int (be16 b 14)))
              (int (be32 b 16)) ∧
        intAdd (intAdd (intAdd ResponseHeaderLen (int (be16 b 12))) (int (be16 b 14)))
            (int (be32 b 16))
          ≤ (b.length : Int) ∧
        ∃ rawData, slice b 0 ((responseFrameLen b : Nat) : Int) = some rawData ∧
          rawData.length = responseFrameLen b ∧
          (slice rawData 0 ResponseHeaderLen).isSome ∧
          (slice rawData ResponseHeaderLen ((20 + be16 b 12 : Nat) : Int)).isSome ∧
          (slice rawData ((20 + be16 b 12 : Nat) : Int)
            ((20 + be16 b 12 + be16 b 14 : Nat) : Int)).isSome ∧
          (slice rawData ((20 + be16 b 12 + be16 b 14 : Nat) : Int)
            (rawData.length : Int)).isSome)) := by
  constructor
  · refine ⟨?_, fun hs => ⟨?_, decodeRequest_awaiting_header D ctx b oneway hs⟩, fun h1 => ?_,
      fun h1 h2 => ?_⟩
    · by_cases hs : b.length < 22
      · exact ⟨_, decodeRequest_awaiting_header D ctx b oneway hs⟩
      · by_cases hp : b.length < requestFrameLen b
        · exact ⟨_, decodeRequest_awaiting_body D ctx b oneway (by omega) hp⟩
        · exact ⟨_, decodeRequest_complete D ctx b oneway (by omega) (by omega)⟩
    · unfold slice
      rw [if_neg (by omega)]
    · exact ⟨lit_slice_isSome b 2 4 (by omega) (by omega),
      by rw [getElem?_eq_getD b 4 (by omega)]; rfl,
      lit_slice_isSome b 5 9 (by omega) (by omega),
      by rw [getElem?_eq_getD b 9 (by omega)]; rfl,
      lit_slice_isSome b 10 14 (by omega) (by omega),
      lit_slice_isSome b 14 16 (by omega) (by omega),
      lit_slice_isSome b 16 18 (by omega) (by omega),
      lit_slice_isSome b 18 22 (by omega) (by omega)⟩
    · have a1 := be16_lt b 14
      have a2 := be16_lt b 16
      have hF : requestFrameLen b = 22 + be16 b 14 + be16 b 16 + be32 b 18 := rfl
      have hl : (b.take (requestFrameLen b)).length = requestFrameLen b := by
        rw [List.length_take, Nat.min_eq_left h2]
      have e1 := request_headerIndex_int (be16 b 14) a1
      have e2 := request_contentIndex_int (be16 b 14) (be16 b 16) a1 a2
      have k0 : slice b 0 ((requestFrameLen b : Nat) : Int)
          = some (b.take (requestFrameLen b)) := by
        have := slice_nat b (Nat.zero_le (requestFrameLen b)) h2
        simpa using this
      have e3 := requestFrameLen_int b
      refine ⟨e1, e2, e3, ?_, ?_, ?_, ?_, _, k0, hl, ?_, ?_, ?_, ?_⟩
      · rw [e1]; unfold RequestHeaderLen; omega
      · rw [e2, e1]; omega
      · rw [e3, e2]; omega
      · rw [e3]; omega
      · have := slice_isSome (b.take (requestFrameLen b)) 0 22 (by omega) (by omega)
        simpa [RequestHeaderLen] using this
      · have := slice_isSome (b.take (requestFrameLen b)) 22 (22 + be16 b 14)
          (by omega) (by omega)
        simpa [RequestHeaderLen] using this
      · exact slice_isSome _ _ _ (by omega) (by omega)
      · exact slice_isSome _ _ _ (by omega) (by omega)
  · refine ⟨?_, fun hs => ⟨?_, decodeResponse_awaiting_header D ctx b hs⟩, fun h1 => ?_,
      fun h1 h2 => ?_⟩
    · by_cases hs : b.length < 20
      · exact ⟨_, decodeResponse_awaiting_header D ctx b hs⟩
      · by_cases hp : b.length < responseFrameLen b
        · exact ⟨_, decodeResponse_awaiting_body D ctx b (by omega) hp⟩
        · exact ⟨_, decodeResponse_complete D ctx b (by omega) (by omega)⟩
    · unfold slice
      rw [if_neg (by omega)]
    · exact ⟨lit_slice_isSome b 2 4 (by omega) (by omega),
      by rw [getElem?_eq_getD b 4 (by omega)]; rfl,
      lit_slice_isSome b 5 9 (by omega) (by omega),
      by rw [getElem?_eq_getD b 9 (by omega)]; rfl,
      lit_slice_isSome b 10 12 (by omega) (by omega),
      lit_slice_isSome b 12 14 (by omega) (by omega),
      lit_slice_isSome b 14 16 (by omega) (by omega),
      lit_slice_isSome b 16 20 (by omega) (by omega)⟩
    · have a1 := be16_lt b 12
      have a2 := be16_lt b 14
      have hF : responseFrameLen b = 20 + be16 b 12 + be16 b 14 + be32 b 16 := rfl
      have hl : (b.take (responseFrameLen b)).length = responseFrameLen b := by
        rw [List.length_take, Nat.min_eq_left h2]
      have e1 := response_headerIndex_int (be16 b 12) a1
      have e2 := response_contentIndex_int (be16 b 12) (be16 b 14) a1 a2
      have k0 : slice b 0 ((responseFrameLen b : Nat) : Int)
          = some (b.take (responseFrameLen b)) := by
        have := slice_nat b (Nat.zero_le (responseFrameLen b)) h2
        simpa using this
      have e3 := responseFrameLen_int b
      refine ⟨e1, e2, e3, ?_, ?_, ?_, ?_, _, k0, hl, ?_, ?_, ?_, ?_⟩
      · rw [e1]; unfold ResponseHeaderLen; omega
      · rw [e2, e1]; omega
      · rw [e3, e2]; omega
      · rw [e3]; omega
      · have := slice_isSome (b.take (responseFrameLen b)) 0 20 (by omega) (by omega)
        simpa [ResponseHeaderLen] using this
      · have := slice_isSome (b.take (responseFrameLen b)) 20 (20 + be16 b 12)
          (by omega) (by omega)
        simpa [ResponseHeaderLen] using this
      · exact slice_isSome _ _ _ (by omega) (by omega)
      · exact slice_isSome _ _ _ (by omega) (by omega)

end Bolt

namespace Sofarpc

/-! ## Wire-layout constants -/

/-- C17 (the wire-layout constants agree with the specification): the V1
header lengths are 22 (request) and 20 (response), the V2 ones are two more,
24 and 22; the minimum decodable lengths are the response header lengths
and do not exceed the request header lengths; the protocol codes are 1, 2
and 13; the command types are response 0, request 1 and oneway request 2;
the BOLT command codes are heartbeat 0, request 1 and response 2; the TR
command codes are heartbeat 0, request 13 and response 14; the TR header
length is 14. -/
theorem wire_constants :
    REQUEST_HEADER_LEN_V1 = 22 ∧ RESPONSE_HEADER_LEN_V1 = 20 ∧
    REQUEST_HEADER_LEN_V2 = REQUEST_HEADER_LEN_V1 + 2 ∧ REQUEST_HEADER_LEN_V2 = 24 ∧
    RESPONSE_HEADER_LEN_V2 = RESPONSE_HEADER_LEN_V1 + 2 ∧ RESPONSE_HEADER_LEN_V2 = 22 ∧
    LESS_LEN_V1 = RESPONSE_HEADER_LEN_V1 ∧ LESS_LEN_V2 = RESPONSE_HEADER_LEN_V2 ∧
    LESS_LEN_V1 ≤ REQUEST_HEADER_LEN_V1 ∧ LESS_LEN_V2 ≤ REQUEST_HEADER_LEN_V2 ∧
    PROTOCOL_CODE_V1 = 1 ∧ PROTOCOL_CODE_V2 = 2 ∧ TR_PROTOCOL_CODE = 13 ∧
    PROTOCOL_CODE = 13 ∧
    RESPONSE = 0 ∧ REQUEST = 1 ∧ REQUEST_ONEWAY = 2 ∧
    HEARTBEAT = 0 ∧ RPC_REQUEST = 1 ∧ RPC_RESPONSE = 2 ∧
    TR_HEARTBEAT = 0 ∧ TR_REQUEST = 13 ∧ TR_RESPONSE = 14 ∧
    PROTOCOL_HEADER_LENGTH = 14 ∧
    Bolt.RequestHeaderLen = REQUEST_HEADER_LEN_V1 ∧
    Bolt.ResponseHeaderLen = RESPONSE_HEADER_LEN_V1 ∧
    Bolt.ProtocolCode = PROTOCOL_CODE_V1 ∧
    Bolt.CmdTypeResponse = RESPONSE ∧ Bolt.CmdTypeRequest = REQUEST ∧
    Bolt.CmdTypeRequestOneway = REQUEST_ONEWAY := by
  decide

/-! ## Basic-command accessors -/

/-- C20 (basic-command accessors): on a `BoltRequestCommand` and on a
`BoltResponseCommand`, `GetProtocol`, `GetCmdCode` and `GetReqId` return the
stored `Protocol`, `CmdCode` and `ReqId`; on a `TrCommand`, `GetProtocol`
returns `Protocol` while `GetCmdCode` and `GetReqId` return 0; on a
`TrRequestCommand` and on a `TrResponseCommand`, `GetProtocol` returns
`Protocol`, `GetCmdCode` returns the stored `CmdCode`, and `GetReqId`,
promoted from the embedded `TrCommand`, returns 0 whatever the 64-bit
`RequestID` is: changing `RequestID` changes none of the three accessors. -/
theorem basic_accessors (a : BoltRequestCommand) (b : BoltResponseCommand) (t : TrCommand)
    (p : TrRequestCommand) (q : TrResponseCommand) (id : Int) :
    (a.GetProtocol = a.Protocol ∧ a.GetCmdCode = a.CmdCode ∧ a.GetReqId = a.ReqId) ∧
    (b.GetProtocol = b.Protocol ∧ b.GetCmdCode = b.CmdCode ∧ b.GetReqId = b.ReqId) ∧
    (t.GetProtocol = t.Protocol ∧ t.GetCmdCode = 0 ∧ t.GetReqId = 0) ∧
    (p.GetProtocol = p.Protocol ∧ p.GetCmdCode = p.CmdCode ∧ p.GetReqId = 0) ∧
    (q.GetProtocol = q.Protocol ∧ q.GetCmdCode = q.CmdCode ∧ q.GetReqId = 0) ∧
    (TrRequestCommand.GetReqId { p with RequestID := id } = p.GetReqId ∧
      TrRequestCommand.GetCmdCode { p with RequestID := id } = p.GetCmdCode ∧
      TrRequestCommand.GetProtocol { p with RequestID := id } = p.GetProtocol) ∧
    (TrResponseCommand.GetReqId { q with RequestID := id } = q.GetReqId ∧
      TrResponseCommand.GetCmdCode { q with RequestID := id } = q.GetCmdCode ∧
      TrResponseCommand.GetProtocol { q with RequestID := id } = q.GetProtocol) :=
  ⟨⟨rfl, rfl, rfl⟩, ⟨rfl, rfl, rfl⟩, ⟨rfl, rfl, rfl⟩, ⟨rfl, rfl, rfl⟩, ⟨rfl, rfl, rfl⟩,
    ⟨rfl, rfl, rfl⟩, ⟨rfl, rfl, rfl⟩⟩

end Sofarpc
